import Mathlib

/-!
# Verification development for the PN544 NFC driver and the Atmel maXTouch driver

Shallow embedding of
* `drivers/nfc/pn544.c`: the response ring buffer (`circular_buffer_*`), the
  frame check `check_crc`, the power states (`pn544_enable`, `pn544_disable`),
  the file operations `pn544_open`, `pn544_release`, `pn544_read` and the
  interrupt worker;
* `drivers/input/touchscreen/atmel_mxt_ts.c`: `mxt_process_touchevent`,
  `mxt_gesture_get_dir`, `mxt_get_object_table`, the message reader
  `mxt_read_message_reportid`, the gesture recognisers, the interrupt worker
  `mxt_process_irq`, the configuration loaders `mxt_download_txt_config`
  and `mxt_download_bin_config`, the consolidated report `mxt_input_report`,
  the address switches `mxt_switch_to_bootloader_address` and
  `mxt_switch_to_appmode_address`, and the power configuration
  (`mxt_set_power_cfg`, `mxt_read_power_cfg`, `mxt_start`, `mxt_stop`).

Conventions.  Bytes and machine integers are natural numbers, with an explicit
`% 2 ^ w` wherever the C code truncates.  Return codes are integers, negative
errno values on failure, as in the C code.
-/

namespace pn544

/-! ## errno values used by the driver (`include/asm-generic/errno-base.h`) -/

/-- Operation not permitted. -/
def EPERM : Int := 1
/-- Try again. -/
def EAGAIN : Int := 11
/-- Out of memory. -/
def ENOMEM : Int := 12

/-! ## The ring buffer

`struct circular_buffer` holds the base pointer `buffer` of a `buf_len` byte
allocation and two cursors `read` and `write` pointing into it.  The embedding
takes the base pointer as origin: `buffer` is the content of the allocation,
`write` is the offset `c_buf->write - c_buf->buffer`, and `read` is `none` for
the null pointer and `some (c_buf->read - c_buf->buffer)` otherwise.  The base
pointer of a successful `kzalloc` is never null, so `read == write` holds in C
exactly when `read = some write` here.
-/

/-- Embedding of `struct circular_buffer` (the mutex is not modelled: every
operation runs to completion under it). -/
structure circular_buffer where
  buffer : List Nat
  buf_len : Nat
  read : Option Nat
  write : Nat
deriving DecidableEq, Repr

/-- The effect of `memcpy(base + off, src, src.length)` on the storage `mem`. -/
def memcpy (mem : List Nat) (off : Nat) (src : List Nat) : List Nat :=
  mem.take off ++ src ++ mem.drop (off + src.length)

/-- Embedding of `circular_buffer_init` for a successful allocation of `size`
zeroed bytes. -/
def circular_buffer_init (size : Nat) : circular_buffer :=
  { buffer := List.replicate size 0, buf_len := size, read := none, write := 0 }

/-- Embedding of `circular_buffer_flush`: `read = 0; write = buffer`. -/
def circular_buffer_flush (c : circular_buffer) : circular_buffer :=
  { c with read := none, write := 0 }

/-- Embedding of `circular_buffer_fill(c_buf, buf, size)`; the chunk `buf` is the
`size = buf.length` bytes handed in.  Returns the new buffer and the C return
value. -/
def circular_buffer_fill (c : circular_buffer) (buf : List Nat) : circular_buffer × Int :=
  let size := buf.length
  if c.read = some c.write then
    -- Buffer full
    (c, -EAGAIN)
  else
    match c.read with
    | none =>
      -- Buffer empty
      if c.buf_len ≥ size then
        ({ c with
            buffer := memcpy c.buffer 0 buf
            read := some 0
            write := if c.buf_len = size then 0 else size }, (size : Int))
      else
        (c, -ENOMEM)
    | some r =>
      -- Buffer partially full; `r = write` was excluded above
      let free_bytes := if r > c.write then r - c.write else r + c.buf_len - c.write
      let wrap_bytes := if r > c.write then 0 else c.buf_len - c.write
      if free_bytes ≥ size then
        if wrap_bytes > 0 ∧ wrap_bytes ≤ size then
          ({ c with
              buffer := memcpy (memcpy c.buffer c.write (buf.take wrap_bytes)) 0
                          (buf.drop wrap_bytes)
              write := size - wrap_bytes }, (size : Int))
        else
          ({ c with
              buffer := memcpy c.buffer c.write buf
              write := c.write + size }, (size : Int))
      else
        (c, -ENOMEM)

/-- Embedding of `circular_buffer_drain(c_buf, buf, size)`.  Returns the new
buffer, the C return value and the bytes copied out to `buf` (none on
failure). -/
def circular_buffer_drain (c : circular_buffer) (size : Nat) :
    circular_buffer × Int × List Nat :=
  match c.read with
  | none =>
    -- Buffer empty
    (c, -ENOMEM, [])
  | some r =>
    let filled_bytes :=
      if r = c.write then c.buf_len
      else if r > c.write then c.write + c.buf_len - r
      else c.write - r
    let wrap_bytes :=
      if r = c.write then c.buf_len - r
      else if r > c.write then c.buf_len - r
      else 0
    if filled_bytes ≥ size then
      let out :=
        if wrap_bytes = 0 ∨ (wrap_bytes > 0 ∧ wrap_bytes ≥ size) then
          (c.buffer.drop r).take size
        else
          (c.buffer.drop r).take wrap_bytes ++ c.buffer.take (size - wrap_bytes)
      let rd :=
        if wrap_bytes = 0 ∨ (wrap_bytes > 0 ∧ wrap_bytes ≥ size) then
          (if wrap_bytes = size then 0 else r + size)
        else
          size - wrap_bytes
      if filled_bytes = size then
        -- The buffer will be empty now
        ({ c with read := none, write := 0 }, (size : Int), out)
      else
        ({ c with read := some rd }, (size : Int), out)
    else
      (c, -ENOMEM, [])

/-! ## Frame check

`check_crc` uses `crc_ccitt` from the kernel library and the constant
`PN544_MSG_MAX_SIZE` from `include/linux/nfc/pn544.h`; neither file is among
the sources.  The constant is a parameter of the embedding; the library
function is modelled below.
-/

/-- Modelled from the spec: one bit step of the CRC-16/CCITT register of
`lib/crc-ccitt.c` (missing from the sources), in the bit-reflected form the
kernel library uses: shift right, and fold in the reflected polynomial
`x^16 + x^12 + x^5 + 1` (`0x8408`) when the bit shifted out is set. -/
def crc_ccitt_bit (crc : Nat) : Nat :=
  if crc % 2 = 1 then (crc / 2) ^^^ 0x8408 else crc / 2

/-- Modelled from the spec: `crc_ccitt_byte(u16 crc, u8 c)` of `lib/crc-ccitt.c`
(missing from the sources): the byte is folded into the low byte of the
register, followed by eight bit steps. -/
def crc_ccitt_byte (crc c : Nat) : Nat :=
  crc_ccitt_bit^[8] (crc ^^^ (c % 256))

/-- Modelled from the spec: `crc_ccitt(u16 crc, u8 const *buffer, size_t len)` of
`lib/crc-ccitt.c` (missing from the sources): CRC-16/CCITT of the bytes of
`buffer`, starting from the register value `crc`. -/
def crc_ccitt (crc : Nat) (buffer : List Nat) : Nat :=
  buffer.foldl crc_ccitt_byte crc

/-- Embedding of `check_crc(buf, buflen)`.  `msg_max_size` stands for the
constant `PN544_MSG_MAX_SIZE`.  `len` is a `u8`, `crc` a `u16`; `~crc` on a
`u16` is the exclusive or with `0xffff`. -/
def check_crc (msg_max_size : Nat) (buf : List Nat) (buflen : Int) : Int :=
  let len := (buf.getD 0 0 + 1) % 256
  if len < 4 ∨ (len : Int) ≠ buflen ∨ len > msg_max_size then
    -EPERM
  else
    let crc := crc_ccitt 0xffff (buf.take (len - 2))
    let crc := (crc ^^^ 0xffff) % 65536
    if buf.getD (len - 2) 0 ≠ crc % 256 ∨ buf.getD (len - 1) 0 ≠ crc / 256 then
      -EPERM
    else
      0

/-- The frame the specification calls `encode_frame(payload)`: the length byte
`len(p) + 2`, the payload, then the low and the high byte of the complement of
`crc_ccitt(0xFFFF, ...)` over the length byte and the payload. -/
def encode_frame (p : List Nat) : List Nat :=
  ((p.length + 2) :: p) ++
    [((crc_ccitt 0xffff ((p.length + 2) :: p)) ^^^ 0xffff) % 256,
     ((crc_ccitt 0xffff ((p.length + 2) :: p)) ^^^ 0xffff) / 256]

/-- The frame `buf` with bit `k` of the byte at index `i` flipped. -/
def flip_bit (buf : List Nat) (i k : Nat) : List Nat :=
  buf.set i (buf.getD i 0 ^^^ 2 ^ k)

/-- Cursor ranges kept by every operation: the storage has `buf_len` bytes, an
unset read cursor comes with the write cursor at the start of storage, and set
cursors point inside the storage. -/
def circular_buffer.wf (c : circular_buffer) : Prop :=
  c.buffer.length = c.buf_len ∧
  match c.read with
  | none => c.write = 0
  | some r => r < c.buf_len ∧ c.write < c.buf_len

instance (c : circular_buffer) : Decidable c.wf := by
  unfold circular_buffer.wf
  cases c.read <;> infer_instance

/-- The number of bytes the buffer holds: none when the read cursor is unset,
the distance from the read cursor forward to the write cursor otherwise, a
whole turn when the two are equal. -/
def circular_buffer.count (c : circular_buffer) : Nat :=
  match c.read with
  | none => 0
  | some r =>
    if r < c.write then c.write - r else c.write + c.buf_len - r

/-- The bytes stored in the buffer, oldest first: the `count` bytes that start
at the read cursor, continuing at the start of storage past its end. -/
def circular_buffer.contents (c : circular_buffer) : List Nat :=
  match c.read with
  | none => []
  | some r => (c.buffer.drop r ++ c.buffer).take c.count

/-- One call on the buffer: a fill with a chunk, or a drain of a size. -/
inductive Op where
  | fill (buf : List Nat)
  | drain (size : Nat)
deriving DecidableEq, Repr

/-- The size argument of a call. -/
def Op.size : Op → Nat
  | .fill buf => buf.length
  | .drain n => n

/-- The outcome of a sequence of calls: the final buffer, the return values in
call order, and the bytes handed out by the drains, concatenated in call
order. -/
def exec : circular_buffer → List Op → circular_buffer × List Int × List Nat
  | c, [] => (c, [], [])
  | c, .fill buf :: ops =>
    let r := circular_buffer_fill c buf
    let rest := exec r.1 ops
    (rest.1, r.2 :: rest.2.1, rest.2.2)
  | c, .drain n :: ops =>
    let r := circular_buffer_drain c n
    let rest := exec r.1 ops
    (rest.1, r.2.1 :: rest.2.1, r.2.2 ++ rest.2.2)

/-- The bytes handed in by the fills of a sequence of calls, concatenated in
call order. -/
def filled : List Op → List Nat
  | [] => []
  | .fill buf :: ops => buf ++ filled ops
  | .drain _ :: ops => filled ops

/-! ## Device state and file operations

The fields of `struct pn544_info` that the embedded functions read or write.
`atomic_t` fields are C `int`s.  The work queue, the wait queue and the sleeps
are not modelled: every function below is the code as it runs when no other
thread touches the device in between.
-/

/-- Device or resource busy. -/
def EBUSY : Int := 16
/-- No such device. -/
def ENODEV : Int := 19
/-- Bad address. -/
def EFAULT : Int := 14
/-- Remote I/O error. -/
def EREMOTEIO : Int := 121

def PN544_ST_COLD : Nat := 0
def PN544_ST_FW_READY : Nat := 1
def PN544_ST_READY : Nat := 2

def HCI_MODE : Int := 0
def FW_MODE : Int := 1

def PN544_READ_BUF_SIZE : Nat := 256

/-- Embedding of `struct pn544_info`, with the lines and the supply the driver
drives: `irq_line` is the interrupt line as left by `enable_irq` /
`disable_irq`, `gpio_ven`, `gpio_vbat`, `gpio_firm` the last values given to
`gpio_set_value`, `vdd_enabled` the balance of `regulator_enable` over
`regulator_disable`, `i2c_addr` is `client->addr`. -/
structure pn544_info where
  pn544_state : Nat := PN544_ST_COLD
  irq_state : Int := 0
  read_irq : Int := 0
  open_counter : Int := 0
  max_fd : Int := 0
  bytes_to_read : Int := 0
  response : circular_buffer := circular_buffer_init PN544_READ_BUF_SIZE
  irq_line : Bool := false
  gpio_ven : Nat := 0
  gpio_vbat : Nat := 0
  gpio_firm : Nat := 0
  vdd_enabled : Int := 0
  i2c_addr : Nat := 0
deriving DecidableEq, Repr

/-- The device data as `pn544_probe` leaves it: zeroed by `kzalloc`, response
buffer of `PN544_READ_BUF_SIZE` bytes, state cold, `max_fd = 1`, no open
handle, interrupt requested and recorded as enabled. -/
def pn544_probe (i2c_addr : Nat) : pn544_info :=
  { pn544_state := PN544_ST_COLD
    read_irq := 0
    max_fd := 1
    open_counter := 0
    irq_state := 1
    irq_line := true
    bytes_to_read := 0
    response := circular_buffer_init PN544_READ_BUF_SIZE
    i2c_addr := i2c_addr }

/-- Embedding of `pn544_disable(info)`. -/
def pn544_disable (info : pn544_info) : pn544_info :=
  -- First disable the irq to prevent any false triggering
  let info := if info.irq_state ≠ 0 then { info with irq_line := false, irq_state := 0 } else info
  -- Clear the receive buffer
  let info := { info with response := circular_buffer_flush info.response }
  let info := { info with read_irq := 0 }
  if info.pn544_state ≠ PN544_ST_COLD then
    -- Powerdown the chip
    { info with
        gpio_ven := 0
        vdd_enabled := info.vdd_enabled - 1
        gpio_vbat := 0
        pn544_state := PN544_ST_COLD }
  else
    info

/-- Embedding of `pn544_enable(info, mode, force)`; returns the device data and
the C return value. -/
def pn544_enable (info : pn544_info) (mode : Int) (force : Int) : pn544_info × Int :=
  let _force := force
  let ret : Int := 0
  let info := if info.irq_state ≠ 0 then { info with irq_line := false, irq_state := 0 } else info
  let info := { info with response := circular_buffer_flush info.response }
  let info := { info with read_irq := 0 }
  let info :=
    if info.pn544_state = PN544_ST_COLD then
      -- Enable the power
      { info with vdd_enabled := info.vdd_enabled + 1, gpio_vbat := 1, gpio_ven := 1 }
    else info
  let info :=
    if mode = FW_MODE then
      -- firmware download pin high, pulse the VEN pin
      { info with gpio_firm := 1, gpio_ven := 1, pn544_state := PN544_ST_FW_READY }
    else if mode = HCI_MODE then
      -- firmware download pin low, pulse the VEN pin
      { info with gpio_firm := 0, gpio_ven := 1, pn544_state := PN544_ST_READY }
    else info
  let info := if info.irq_state = 0 then { info with irq_line := true, irq_state := 1 } else info
  (info, ret)

/-- Embedding of `pn544_open`. -/
def pn544_open (info : pn544_info) : pn544_info × Int :=
  if info.open_counter > info.max_fd then
    (info, -EBUSY)
  else
    let r := if info.open_counter = 0 then pn544_enable info HCI_MODE 1 else (info, 0)
    ({ r.1 with open_counter := r.1.open_counter + 1 }, r.2)

/-- Embedding of `pn544_release`. -/
def pn544_release (info : pn544_info) : pn544_info × Int :=
  let info :=
    if info.open_counter > 0 then { info with open_counter := info.open_counter - 1 } else info
  let info := if info.open_counter = 0 then pn544_disable info else info
  (info, 0)

/-- One call of a file operation on the device node. -/
inductive FileOp where
  | fd_open
  | fd_release
deriving DecidableEq, Repr

/-- The device data after a sequence of `pn544_open` and `pn544_release` calls
executed one at a time. -/
def run_file_ops : pn544_info → List FileOp → pn544_info
  | info, [] => info
  | info, .fd_open :: ops => run_file_ops (pn544_open info).1 ops
  | info, .fd_release :: ops => run_file_ops (pn544_release info).1 ops

/-- Embedding of `pn544_irq_thread_fn`: one more interrupt is pending (the
worker is scheduled). -/
def pn544_irq_thread_fn (info : pn544_info) : pn544_info :=
  { info with read_irq := info.read_irq + 1 }

/-- What the bus delivers in one pass of the loop of `pn544_i2c_read`:
the return value of the one-byte `i2c_master_recv` and the length byte it
stored, the return value of the second `i2c_master_recv` and the bytes it
stored. -/
structure i2c_step where
  len_ret : Int
  len : Nat
  payload_ret : Int
  payload : List Nat
deriving DecidableEq, Repr

/-- The loop of `pn544_i2c_read`: one list element per pass made while the
interrupt GPIO reads high; the GPIO reads low when the list is used up.
Carries the response buffer, `ret` and `total_bytes_read`.
`msg_max_size` and `llc_hci_overhead` stand for `PN544_MSG_MAX_SIZE` and
`PN544_LLC_HCI_OVERHEAD` of `include/linux/nfc/pn544.h`. -/
def pn544_i2c_read_loop (msg_max_size llc_hci_overhead addr : Nat) :
    List i2c_step → circular_buffer → Int → Int → circular_buffer × Int × Int
  | [], resp, ret, total => (resp, ret, total)
  | step :: rest, resp, _, total =>
    if step.len_ret ≠ 1 then
      (resp, - EREMOTEIO, total)
    else if step.len % 256 = ((addr <<< 1) ||| 0x01) then
      (resp, - EREMOTEIO, total)
    else
      let len := step.len % 256
      let len :=
        if len < llc_hci_overhead then llc_hci_overhead % 256
        else if len > msg_max_size - 1 then (msg_max_size - 1) % 256
        else len
      if step.payload_ret ≠ (len : Int) then
        (resp, - EREMOTEIO, total)
      else
        let read_buf := len :: step.payload.take len
        -- This is the total number of bytes read including the length
        let len := (len + 1) % 256
        let r := circular_buffer_fill resp (read_buf.take len)
        let total := if r.2 > 0 then total + r.2 else total
        pn544_i2c_read_loop msg_max_size llc_hci_overhead addr rest r.1 r.2 total

/-- Embedding of `pn544_i2c_read(client, resp)`.  `uninit_ret` is the value the
uninitialised local `ret` holds when the loop body is never entered. -/
def pn544_i2c_read (msg_max_size llc_hci_overhead : Nat) (bus : List i2c_step)
    (uninit_ret : Int) (info : pn544_info) : pn544_info × Int :=
  let r := pn544_i2c_read_loop msg_max_size llc_hci_overhead info.i2c_addr bus info.response
    uninit_ret 0
  ({ info with response := r.1 }, if r.2.2 > 0 then r.2.2 else r.2.1)

/-- Embedding of `pn544_irq_worker`. -/
def pn544_irq_worker (msg_max_size llc_hci_overhead : Nat) (bus : List i2c_step)
    (uninit_ret : Int) (info : pn544_info) : pn544_info :=
  if info.read_irq = 0 then
    -- No interrupts pending; return
    info
  else
    let r := pn544_i2c_read msg_max_size llc_hci_overhead bus uninit_ret info
    let info := r.1
    let info :=
      if r.2 < 0 then info else { info with bytes_to_read := info.bytes_to_read + r.2 }
    { info with read_irq := 0 }

/-- Embedding of `pn544_read` on a file whose flags have `O_NONBLOCK` set iff
`nonblock`; `alloc_ok` and `copy_ok` say whether `kzalloc` and `copy_to_user`
succeed.  Returns the device data, the C return value and the bytes copied to
the user buffer, or `none` where the caller goes to sleep in
`wait_event_interruptible` (not modelled further). -/
def pn544_read (info : pn544_info) (nonblock : Bool) (count : Nat) (alloc_ok copy_ok : Bool) :
    Option (pn544_info × Int × List Nat) :=
  if info.pn544_state = PN544_ST_COLD then
    some (info, -ENODEV, [])
  else if info.bytes_to_read ≤ 0 ∧ nonblock then
    -- no bytes in the buffer, device opened with O_NONBLOCK flag...returning
    some (info, -EAGAIN, [])
  else if info.bytes_to_read ≤ 0 then
    none
  else if ¬ alloc_ok then
    some (info, -ENOMEM, [])
  else
    let r := circular_buffer_drain info.response count
    let info := { info with response := r.1 }
    let ret := r.2.1
    if ret > 0 ∧ ¬ copy_ok then
      some (info, -EFAULT, [])
    else
      let info := if ret > 0 then { info with bytes_to_read := info.bytes_to_read - ret } else info
      some (info, ret, r.2.2)

end pn544

namespace mxt

/-! ## The maXTouch driver: constants -/

def MXT_OBJECT_START : Nat := 0x07
def MXT_OBJECT_SIZE : Nat := 6

def MXT_TOUCH_STATUS_MOVE : Nat := 1 <<< 4
def MXT_TOUCH_STATUS_RELEASE : Nat := 1 <<< 5
def MXT_TOUCH_STATUS_PRESS : Nat := 1 <<< 6
def MXT_TOUCH_STATUS_DETECT : Nat := 1 <<< 7

def MXT_POWER_MODE_DEEP_SLEEP : Nat := 0
def MXT_POWER_MODE_ACTIVE : Nat := 1

def MXT_MAX_FINGER : Nat := 10

def MXT_DIR_E : Nat := 0x00
def MXT_DIR_NE : Nat := 0x20
def MXT_DIR_N : Nat := 0x40
def MXT_DIR_NW : Nat := 0x60
def MXT_DIR_W : Nat := 0x80
def MXT_DIR_SW : Nat := 0xA0
def MXT_DIR_S : Nat := 0xC0
def MXT_DIR_SE : Nat := 0xE0

def DIR_NORTH_BIT : Nat := 0
def DIR_SOUTH_BIT : Nat := 1
def DIR_EAST_BIT : Nat := 2
def DIR_WEST_BIT : Nat := 3
def DIR_NORTH_MASK : Nat := 1 <<< DIR_NORTH_BIT
def DIR_SOUTH_MASK : Nat := 1 <<< DIR_SOUTH_BIT
def DIR_EAST_MASK : Nat := 1 <<< DIR_EAST_BIT
def DIR_WEST_MASK : Nat := 1 <<< DIR_WEST_BIT

def DIR_NONE : Nat := 0x00
def DIR_EAST : Nat := DIR_EAST_MASK
def DIR_NORTH_EAST : Nat := DIR_NORTH_MASK ||| DIR_EAST_MASK
def DIR_NORTH : Nat := DIR_NORTH_MASK
def DIR_NORTH_WEST : Nat := DIR_NORTH_MASK ||| DIR_WEST_MASK
def DIR_WEST : Nat := DIR_WEST_MASK
def DIR_SOUTH_WEST : Nat := DIR_SOUTH_MASK ||| DIR_WEST_MASK
def DIR_SOUTH : Nat := DIR_SOUTH_MASK
def DIR_SOUTH_EAST : Nat := DIR_SOUTH_MASK ||| DIR_EAST_MASK

/-! ## Data -/

/-- Embedding of `struct mxt_object`; every field is a `u16`. -/
structure mxt_object where
  type : Nat := 0
  start_address : Nat := 0
  size : Nat := 0
  instances : Nat := 0
  num_report_ids : Nat := 0
  min_reportid : Nat := 0
  max_reportid : Nat := 0
deriving DecidableEq, Repr

/-- Embedding of `struct mxt_message`: the report ID and the
`MXT_MSG_MAX_SIZE - 2` message bytes. -/
structure mxt_message where
  reportid : Nat
  message : List Nat
deriving DecidableEq, Repr

/-- Embedding of `struct mxt_finger`.  The fields are C `int`s that only ever
hold non-negative values. -/
structure mxt_finger where
  status : Nat := 0
  x : Nat := 0
  y : Nat := 0
  area : Nat := 0
  pressure : Nat := 0
deriving DecidableEq, Repr

/-- Embedding of `struct mxt_info`; every field is a `u8`. -/
structure mxt_info where
  family_id : Nat := 0
  variant_id : Nat := 0
  version : Nat := 0
  build : Nat := 0
  matrix_xsize : Nat := 0
  matrix_ysize : Nat := 0
  object_num : Nat := 0
deriving DecidableEq, Repr

/-- The part of `struct mxt_data` that the embedded functions read or write.
`finger` is the array `finger[MXT_MAX_FINGER]`; `orient` and `use_fw_gestures`
are the fields of `data->pdata`; `addr` is `data->client->addr`; the `atomic_t`
fields are C `int`s (`mxt_state` holds an `enum mxt_device_state`); the gesture
fields and the cycle times are `u8`s. -/
structure mxt_data where
  object_table : List mxt_object := []
  finger : List mxt_finger := List.replicate MXT_MAX_FINGER {}
  max_x : Nat := 0
  max_y : Nat := 0
  mxt_power_mode : Nat := MXT_POWER_MODE_DEEP_SLEEP
  max_reportid : Nat := 0
  info : mxt_info := {}
  orient : Nat := 0
  mxt_power_supply_state : Int := 0
  do_not_suspend_mxt : Int := 0
  current_mxt_onetouch_gesture : Nat := 0
  current_bn_onetouch_gesture : Nat := 0
  onetouch_gesture_count : Nat := 0
  mxt_onetouch_gesture_active : Nat := 0
  current_mxt_twotouch_gesture : Nat := 0
  current_bn_twotouch_gesture : Nat := 0
  twotouch_gesture_count : Nat := 0
  mxt_twotouch_gesture_active : Nat := 0
  mxt_state : Nat := 0
  addr : Nat := 0
  mxt_irq_enabled : Int := 0
  uses_mt_slots : Int := 0
  mxt_n_active_fingers : Int := 0
  use_fw_gestures : Nat := 0
  actv_cycle_time : Nat := 0
  idle_cycle_time : Nat := 0
deriving DecidableEq, Repr

/-! ## Finger tracker -/

/-- Embedding of `mxt_process_touchevent(data, message, id)`.  The store to
`finger[id]` is a list update; for `id` outside the array (undefined behaviour
in C) the list is left as it is. -/
def mxt_process_touchevent (data : mxt_data) (message : mxt_message) (id : Nat) : mxt_data :=
  let finger := data.finger
  let status := message.message.getD 0 0
  if data.mxt_power_mode = MXT_POWER_MODE_DEEP_SLEEP then
    data
  else if status &&& MXT_TOUCH_STATUS_DETECT = 0 then
    -- Check the touch is present on the screen
    if status &&& MXT_TOUCH_STATUS_RELEASE ≠ 0 then
      { data with
          finger := finger.set id { finger.getD id {} with status := MXT_TOUCH_STATUS_RELEASE } }
    else
      data
  else if status &&& (MXT_TOUCH_STATUS_PRESS ||| MXT_TOUCH_STATUS_MOVE) = 0 then
    -- Check only AMP detection
    data
  else
    let x := (message.message.getD 1 0 <<< 4) ||| ((message.message.getD 3 0 >>> 4) &&& 0xf)
    let y := (message.message.getD 2 0 <<< 4) ||| (message.message.getD 3 0 &&& 0xf)
    let x := if data.max_x ≤ 1024 then x >>> 2 else x
    let y := if data.max_y ≤ 1024 then y >>> 2 else y
    let area := message.message.getD 4 0
    let pressure := message.message.getD 5 0
    { data with
        finger := finger.set id
          { status := if status &&& MXT_TOUCH_STATUS_MOVE ≠ 0 then MXT_TOUCH_STATUS_MOVE
                      else MXT_TOUCH_STATUS_PRESS
            x := x
            y := y
            area := area
            pressure := pressure } }

/-! ## Direction mapping -/

def MXT_IS_DIR_E (dir : Nat) : Bool :=
  (dir % 256 < MXT_DIR_E + 0x10) || (dir % 256 ≥ MXT_DIR_SE + 0x10)
def MXT_IS_DIR_NE (dir : Nat) : Bool :=
  (dir % 256 < MXT_DIR_NE + 0x10) && (dir % 256 ≥ MXT_DIR_E + 0x10)
def MXT_IS_DIR_N (dir : Nat) : Bool :=
  (dir % 256 < MXT_DIR_N + 0x10) && (dir % 256 ≥ MXT_DIR_NE + 0x10)
def MXT_IS_DIR_NW (dir : Nat) : Bool :=
  (dir % 256 < MXT_DIR_NW + 0x10) && (dir % 256 ≥ MXT_DIR_N + 0x10)
def MXT_IS_DIR_W (dir : Nat) : Bool :=
  (dir % 256 < MXT_DIR_W + 0x10) && (dir % 256 ≥ MXT_DIR_NW + 0x10)
def MXT_IS_DIR_SW (dir : Nat) : Bool :=
  (dir % 256 < MXT_DIR_SW + 0x10) && (dir % 256 ≥ MXT_DIR_W + 0x10)
def MXT_IS_DIR_S (dir : Nat) : Bool :=
  (dir % 256 < MXT_DIR_S + 0x10) && (dir % 256 ≥ MXT_DIR_SW + 0x10)
def MXT_IS_DIR_SE (dir : Nat) : Bool :=
  (dir % 256 < MXT_DIR_SE + 0x10) && (dir % 256 ≥ MXT_DIR_S + 0x10)

/-- Embedding of `mxt_gesture_get_dir(data, dir)`; `orient` is
`data->pdata->orient`, which the function reads into a local and, with the
orientation branch compiled out (`#if 0`), never uses.  `converted_dir` is a
`u8`; `~(DIR_NORTH_MASK | DIR_SOUTH_MASK)` is the complement of an `int`, of
which only the low 8 bits meet the `u8` operand. -/
def mxt_gesture_get_dir (orient : Nat) (dir : Nat) : Nat :=
  let _orient := orient
  let converted_dir :=
    if MXT_IS_DIR_E dir then DIR_EAST
    else if MXT_IS_DIR_NE dir then DIR_NORTH_EAST
    else if MXT_IS_DIR_N dir then DIR_NORTH
    else if MXT_IS_DIR_NW dir then DIR_NORTH_WEST
    else if MXT_IS_DIR_W dir then DIR_WEST
    else if MXT_IS_DIR_SW dir then DIR_SOUTH_WEST
    else if MXT_IS_DIR_S dir then DIR_SOUTH
    else if MXT_IS_DIR_SE dir then DIR_SOUTH_EAST
    else DIR_NONE
  -- invert the Y axis: switch the NORTH and SOUTH bits
  let converted_dir :=
    ((converted_dir &&& (0xffffffff ^^^ (DIR_NORTH_MASK ||| DIR_SOUTH_MASK)))
      ||| ((converted_dir &&& DIR_NORTH_MASK) <<< (DIR_SOUTH_BIT - DIR_NORTH_BIT))
      ||| ((converted_dir &&& DIR_SOUTH_MASK) >>> (DIR_SOUTH_BIT - DIR_NORTH_BIT))) % 256
  if converted_dir = DIR_EAST then 0x14
  else if converted_dir = DIR_NORTH_EAST then 0x12
  else if converted_dir = DIR_NORTH then 0x10
  else if converted_dir = DIR_NORTH_WEST then 0x1E
  else if converted_dir = DIR_WEST then 0x1C
  else if converted_dir = DIR_SOUTH_WEST then 0x1A
  else if converted_dir = DIR_SOUTH then 0x18
  else if converted_dir = DIR_SOUTH_EAST then 0x16
  else 0x00

/-- The table of claim C9, written out from the specification. -/
def direction_table (d : Nat) : Nat :=
  if d < 0x10 ∨ d ≥ 0xF0 then 0x14
  else if d ≤ 0x2F then 0x16
  else if d ≤ 0x4F then 0x18
  else if d ≤ 0x6F then 0x1A
  else if d ≤ 0x8F then 0x1C
  else if d ≤ 0xAF then 0x1E
  else if d ≤ 0xCF then 0x10
  else 0x12

/-! ## Object table -/

/-- Embedding of the body of the loop of `mxt_get_object_table` for one object:
the entry built from the six bytes `buf` read from the chip, starting from the
zeroed entry that `kcalloc` left, and the new value of the `u8` counter
`reportid`.  `min_reportid` is a `u16` assigned from an `int` expression. -/
def mxt_parse_object (buf : List Nat) (reportid : Nat) : mxt_object × Nat :=
  let type := buf.getD 0 0
  let start_address := (buf.getD 2 0 <<< 8) ||| buf.getD 1 0
  let size := buf.getD 3 0 + 1
  let instances := buf.getD 4 0 + 1
  let num_report_ids := buf.getD 5 0
  if num_report_ids ≠ 0 then
    let reportid := (reportid + num_report_ids * instances) % 256
    let max_reportid := reportid
    let min_reportid :=
      (((max_reportid : Int) - (instances : Int) * (num_report_ids : Int) + 1) % 65536).toNat
    ({ type := type, start_address := start_address, size := size, instances := instances,
       num_report_ids := num_report_ids, min_reportid := min_reportid,
       max_reportid := max_reportid }, reportid)
  else
    ({ type := type, start_address := start_address, size := size, instances := instances,
       num_report_ids := num_report_ids }, reportid)

/-- The loop of `mxt_get_object_table` from index `i` on, with `n` objects still
to read.  `read_object_table reg` is `mxt_read_object_table(client, reg,
MXT_OBJECT_SIZE, buf)`: the six bytes read, or the error code. -/
def mxt_get_object_table_loop (read_object_table : Nat → Except Int (List Nat)) :
    Nat → Nat → Nat → Except Int (List mxt_object × Nat)
  | _, 0, reportid => .ok ([], reportid)
  | i, n + 1, reportid =>
    match read_object_table ((MXT_OBJECT_START + MXT_OBJECT_SIZE * i) % 65536) with
    | .error error => .error error
    | .ok buf =>
      let r := mxt_parse_object buf reportid
      match mxt_get_object_table_loop read_object_table (i + 1) n r.2 with
      | .error error => .error error
      | .ok rest => .ok (r.1 :: rest.1, rest.2)

/-- Embedding of `mxt_get_object_table(data)` with `object_num =
data->info.object_num`: on success the object table and the value stored in
`data->max_reportid`, else the error of the failed read. -/
def mxt_get_object_table (read_object_table : Nat → Except Int (List Nat)) (object_num : Nat) :
    Except Int (List mxt_object × Nat) :=
  mxt_get_object_table_loop read_object_table 0 object_num 0

/-- The entries of an object table that have report IDs. -/
def reporting (table : List mxt_object) : List mxt_object :=
  table.filter (fun o => decide (0 < o.num_report_ids))

/-- The number of report IDs an object table declares. -/
def report_id_total (table : List mxt_object) : Nat :=
  (table.map (fun o => o.instances * o.num_report_ids)).sum

/-- The report-ID ranges of `objs` follow one another without gap or overlap,
the first one starting right after `lo`. -/
def chained : Nat → List mxt_object → Prop
  | _, [] => True
  | lo, o :: rest =>
    o.min_reportid = lo + 1 ∧ o.max_reportid = lo + o.instances * o.num_report_ids ∧
      chained o.max_reportid rest

/-- A chip with three objects: a command object with one report ID, a touch
object with ten instances of one report ID each, and an object without report
IDs. -/
def sample_object_table (reg : Nat) : Except Int (List Nat) :=
  if reg = 7 then .ok [6, 0, 1, 5, 0, 1]
  else if reg = 13 then .ok [9, 0, 2, 30, 9, 1]
  else .ok [37, 0, 3, 2, 0, 0]

/-! ## Object lookup and message reader -/

/-- Invalid argument. -/
def EINVAL : Int := 22
/-- I/O error. -/
def EIO : Int := 5
/-- Try again. -/
def EAGAIN : Int := 11

def MXT_GEN_MESSAGE_T5 : Nat := 5
def MXT_GEN_COMMAND_T6 : Nat := 6
def MXT_TOUCH_MULTI_T9 : Nat := 9
def MXT_PROCI_ONETOUCH_T24 : Nat := 24
def MXT_PROCI_TWOTOUCH_T27 : Nat := 27
def MXT_SPT_MESSAGECOUNT_T44 : Nat := 44

def MXT_RPTID_NOMSG : Nat := 0xff

/-- Embedding of `mxt_get_object(data, type)`: the first entry of the object
table with that type, `none` for `NULL`.  The parameter is a `u8`, so the
argument of a call is truncated to its low 8 bits; the table holds
`info.object_num` entries. -/
def mxt_get_object (data : mxt_data) (type : Nat) : Option mxt_object :=
  data.object_table.find? (fun object => object.type == type % 256)

/-- Embedding of `mxt_read_message(data, message)` for the `k`-th read of the
message object: `chip k` is what the bus read delivers, `none` when the
transfer fails (`-EIO`). -/
def mxt_read_message (data : mxt_data) (chip : Nat → Option mxt_message) (k : Nat) :
    Except Int mxt_message :=
  match mxt_get_object data MXT_GEN_MESSAGE_T5 with
  | none => .error (-EINVAL)
  | some _ =>
    match chip k with
    | none => .error (- EIO)
    | some message => .ok message

/-- The `do ... while (try--)` loop of `mxt_read_message_reportid`, entered with
the counter `try` at `try_` and `k` message reads made so far.  Returns the C return
value, the message left in `*message` by the last successful read, and the
number of message reads made. -/
def mxt_read_message_reportid_loop (data : mxt_data) (chip : Nat → Option mxt_message)
    (reportid : Nat) : Nat → Nat → Option mxt_message → Int × Option mxt_message × Nat
  | try_, k, last =>
    match mxt_read_message data chip k with
    | .error error => (error, last, k + 1)
    | .ok message =>
      if message.reportid = 0xff then
        (-EINVAL, some message, k + 1)
      else if message.reportid = reportid % 256 then
        (0, some message, k + 1)
      else
        match try_ with
        | 0 => (-EINVAL, some message, k + 1)
        | t + 1 => mxt_read_message_reportid_loop data chip reportid t (k + 1) (some message)

/-- Embedding of `mxt_read_message_reportid(data, message, reportid)`:
`int try = 20;` and the loop. -/
def mxt_read_message_reportid (data : mxt_data) (chip : Nat → Option mxt_message)
    (reportid : Nat) : Int × Option mxt_message × Nat :=
  mxt_read_message_reportid_loop data chip reportid 20 0 none

/-! ## Gesture recognisers -/

def MXT_ONETOUCH_MSG_EVENT_MASK : Nat := 0x0F
def MXT_ONETOUCH_MSG_EVENT_PRESS : Nat := 0x01
def MXT_ONETOUCH_MSG_EVENT_RELEASE : Nat := 0x02
def MXT_ONETOUCH_MSG_EVENT_TAP : Nat := 0x03
def MXT_ONETOUCH_MSG_EVENT_DOUBLETAP : Nat := 0x04
def MXT_ONETOUCH_MSG_EVENT_FLICK : Nat := 0x05
def MXT_ONETOUCH_MSG_EVENT_DRAG : Nat := 0x06
def MXT_ONETOUCH_MSG_EVENT_SHORTPRESS : Nat := 0x07
def MXT_ONETOUCH_MSG_EVENT_LONGPRESS : Nat := 0x08
def MXT_ONETOUCH_MSG_EVENT_REPEATTPRESS : Nat := 0x09
def MXT_ONETOUCH_MSG_EVENT_TAPANDPRESS : Nat := 0x0A
def MXT_ONETOUCH_MSG_EVENT_THROW : Nat := 0x0B

def MXT_TWOTOUCH_MSG_STATUS_MASK : Nat := 0xF0
def MXT_TWOTOUCH_MSG_STATUS_ROTATEDIR : Nat := 1 <<< 4
def MXT_TWOTOUCH_MSG_STATUS_PINCH : Nat := 1 <<< 5
def MXT_TWOTOUCH_MSG_STATUS_ROTATE : Nat := 1 <<< 6
def MXT_TWOTOUCH_MSG_STATUS_STRETCH : Nat := 1 <<< 7

def GESTURE_NONE : Nat := 0x00
def GESTURE_SC : Nat := 0x20
def GESTURE_DC : Nat := 0x22
def GESTURE_TD : Nat := 0x2F
def GESTURE_ZI : Nat := 0x48
def GESTURE_ZO : Nat := 0x49
def GESTURE_LO : Nat := 0x4F

/-- Embedding of `mxt_process_onetouch_gesture(data, message, id)`.  The
locals `x`, `y` and `dist` only feed a debug print and are left out.  The pair
computed by the `switch` is (`bn_event`, `event`). -/
def mxt_process_onetouch_gesture (data : mxt_data) (message : mxt_message) (id : Nat) :
    mxt_data :=
  let _id := id
  let event := (message.message.getD 0 0 &&& MXT_ONETOUCH_MSG_EVENT_MASK) % 256
  let dir := message.message.getD 4 0 % 256
  if data.mxt_power_mode = MXT_POWER_MODE_DEEP_SLEEP then
    data
  else
    let sw : Nat × Nat :=
      if event = MXT_ONETOUCH_MSG_EVENT_PRESS then (GESTURE_TD, event)
      else if event = MXT_ONETOUCH_MSG_EVENT_RELEASE then (GESTURE_LO, event)
      else if event = MXT_ONETOUCH_MSG_EVENT_TAP then (GESTURE_SC, event)
      else if event = MXT_ONETOUCH_MSG_EVENT_DOUBLETAP then (GESTURE_DC, event)
      else if event = MXT_ONETOUCH_MSG_EVENT_FLICK then
        (mxt_gesture_get_dir data.orient dir, event)
      else if event = MXT_ONETOUCH_MSG_EVENT_DRAG then
        (mxt_gesture_get_dir data.orient dir, event)
      else if event = MXT_ONETOUCH_MSG_EVENT_SHORTPRESS then (GESTURE_NONE, event)
      else if event = MXT_ONETOUCH_MSG_EVENT_LONGPRESS then (GESTURE_NONE, event)
      else if event = MXT_ONETOUCH_MSG_EVENT_REPEATTPRESS then (GESTURE_NONE, event)
      else if event = MXT_ONETOUCH_MSG_EVENT_TAPANDPRESS then (GESTURE_NONE, event)
      else if event = MXT_ONETOUCH_MSG_EVENT_THROW then
        (mxt_gesture_get_dir data.orient dir, event)
      else (GESTURE_NONE, 0x00)
    let bn_event := sw.1
    let event := sw.2
    let data := { data with current_mxt_onetouch_gesture := event }
    let data :=
      if bn_event = data.current_bn_onetouch_gesture then
        { data with onetouch_gesture_count := (data.onetouch_gesture_count + 1) % 256 }
      else
        { data with current_bn_onetouch_gesture := bn_event % 256, onetouch_gesture_count := 1 }
    if data.current_bn_onetouch_gesture ≠ GESTURE_NONE then
      { data with mxt_onetouch_gesture_active := 1 }
    else
      { data with
          mxt_onetouch_gesture_active := 0
          onetouch_gesture_count := 0
          current_mxt_onetouch_gesture := 0 }

/-- Embedding of `mxt_process_twotouch_gesture(data, message, id)`.  The local
`bn_event` is not assigned on the path without stretch, pinch or rotate;
`bn_event_uninit` is the value it then holds.  The locals `x`, `y`, `sep` and
`angle` only feed a debug print and are left out.  The triple computed by the
`if` chain is (`bn_event`, `event`, `data`). -/
def mxt_process_twotouch_gesture (bn_event_uninit : Nat) (data : mxt_data)
    (message : mxt_message) (id : Nat) : mxt_data :=
  let _id := id
  let event := (message.message.getD 0 0 &&& MXT_TWOTOUCH_MSG_STATUS_MASK) % 256
  if data.mxt_power_mode = MXT_POWER_MODE_DEEP_SLEEP then
    data
  else
    let sw : Nat × Nat × mxt_data :=
      if event &&& MXT_TWOTOUCH_MSG_STATUS_STRETCH ≠ 0 then (GESTURE_ZI, event, data)
      else if event &&& MXT_TWOTOUCH_MSG_STATUS_PINCH ≠ 0 then (GESTURE_ZO, event, data)
      else if event &&& MXT_TWOTOUCH_MSG_STATUS_ROTATE ≠ 0 then
        (GESTURE_NONE, MXT_TWOTOUCH_MSG_STATUS_ROTATE, data)
      else
        (bn_event_uninit, 0x00, { data with current_bn_twotouch_gesture := GESTURE_NONE })
    let bn_event := sw.1
    let event := sw.2.1
    let data := sw.2.2
    let data := { data with current_mxt_twotouch_gesture := event }
    let data :=
      if bn_event = data.current_bn_twotouch_gesture then
        { data with twotouch_gesture_count := (data.twotouch_gesture_count + 1) % 256 }
      else
        { data with current_bn_twotouch_gesture := bn_event % 256, twotouch_gesture_count := 1 }
    if data.current_bn_twotouch_gesture ≠ GESTURE_NONE then
      { data with mxt_twotouch_gesture_active := 1 }
    else
      { data with
          mxt_twotouch_gesture_active := 0
          twotouch_gesture_count := 0
          current_mxt_twotouch_gesture := 0 }

/-! ## Interrupt worker -/

def MXT_MESSAGECOUNT_COUNT : Nat := 0

/-- Embedding of `mxt_read_object(data, type, offset, val)` for a read of one
byte: `read_reg reg` is what `__mxt_read_reg(client, reg, 1, val)` delivers,
`none` when the transfer fails (`-EIO`).  The register argument is a `u16`. -/
def mxt_read_object (data : mxt_data) (read_reg : Nat → Option Nat) (type offset : Nat) :
    Except Int Nat :=
  match mxt_get_object data type with
  | none => .error (-EINVAL)
  | some object =>
    let reg := object.start_address
    match read_reg ((reg + offset % 256) % 65536) with
    | none => .error (- EIO)
    | some val => .ok (val % 256)

/-- The `do ... while ((message.reportid != MXT_RPTID_NOMSG) && --nMsg)` loop
that `mxt_process_irq` runs when the number of pending messages cannot be
read.  `nMsg` is a `u8`, so `--nMsg` of 0 is 255; the first argument is the
value that `--nMsg` yields at the end of the current pass, `(nMsg + 255) % 256`,
which goes down by one per pass and ends the loop at 0.  `k` is the number of
message reads made so far.  Returns the device data and the number of message
reads made. -/
def mxt_process_irq_unknown_count (chip : Nat → Option mxt_message)
    (bn_event_uninit : Nat) (touch_object command_object : mxt_object)
    (onetouch_gesture_object twotouch_gesture_object : Option mxt_object) :
    Nat → Nat → mxt_data → mxt_data × Nat
  | nMsg, k, data =>
    match mxt_read_message data chip k with
    | .error _ => (data, k + 1)
    | .ok message =>
      let reportid := message.reportid % 256
      let data :=
        if reportid ≥ touch_object.min_reportid ∧ reportid ≤ touch_object.max_reportid then
          let event_id := reportid - touch_object.min_reportid
          mxt_process_touchevent data message event_id
        else if reportid = command_object.max_reportid then
          data
        else
          if onetouch_gesture_object ≠ none ∧
              reportid ≥ (onetouch_gesture_object.getD {}).min_reportid ∧
              reportid ≤ (onetouch_gesture_object.getD {}).max_reportid then
            let event_id := reportid - (onetouch_gesture_object.getD {}).min_reportid
            mxt_process_onetouch_gesture data message event_id
          else if twotouch_gesture_object ≠ none ∧
              reportid ≥ (twotouch_gesture_object.getD {}).min_reportid ∧
              reportid ≤ (twotouch_gesture_object.getD {}).max_reportid then
            let event_id := reportid - (twotouch_gesture_object.getD {}).min_reportid
            mxt_process_twotouch_gesture bn_event_uninit data message event_id
          else data
      if message.reportid % 256 ≠ MXT_RPTID_NOMSG then
        match nMsg with
        | 0 => (data, k + 1)
        | n + 1 =>
          mxt_process_irq_unknown_count chip bn_event_uninit touch_object command_object
            onetouch_gesture_object twotouch_gesture_object n (k + 1) data
      else (data, k + 1)

/-- The `for (; nMsg > 0; nMsg--)` loop that `mxt_process_irq` runs when the
number of pending messages has been read into `nMsg`.  `k` is the number of
message reads made so far.  Returns the device data and the number of message
reads made. -/
def mxt_process_irq_known_count (chip : Nat → Option mxt_message)
    (bn_event_uninit : Nat) (touch_object command_object : mxt_object)
    (onetouch_gesture_object twotouch_gesture_object : Option mxt_object) :
    Nat → Nat → mxt_data → mxt_data × Nat
  | 0, k, data => (data, k)
  | nMsg + 1, k, data =>
    match mxt_read_message data chip k with
    | .error _ => (data, k + 1)
    | .ok message =>
      let reportid := message.reportid % 256
      let data :=
        if reportid ≥ touch_object.min_reportid ∧ reportid ≤ touch_object.max_reportid then
          let event_id := reportid - touch_object.min_reportid
          mxt_process_touchevent data message event_id
        else if reportid = command_object.max_reportid then
          data
        else
          if onetouch_gesture_object ≠ none ∧
              reportid ≥ (onetouch_gesture_object.getD {}).min_reportid ∧
              reportid ≤ (onetouch_gesture_object.getD {}).max_reportid then
            let event_id := reportid - (onetouch_gesture_object.getD {}).min_reportid
            mxt_process_onetouch_gesture data message event_id
          else if twotouch_gesture_object ≠ none ∧
              reportid ≥ (twotouch_gesture_object.getD {}).min_reportid ∧
              reportid ≤ (twotouch_gesture_object.getD {}).max_reportid then
            let event_id := reportid - (twotouch_gesture_object.getD {}).min_reportid
            mxt_process_twotouch_gesture bn_event_uninit data message event_id
          else data
      mxt_process_irq_known_count chip bn_event_uninit touch_object command_object
        onetouch_gesture_object twotouch_gesture_object nMsg (k + 1) data

/-- The loop `do { if (mxt_read_message(data, &message)) return; } while
((message.reportid != MXT_RPTID_NOMSG) && --nMsg)` that `mxt_process_irq` runs
when the touch object or the command object is missing: the number of message
reads made.  The first argument is `(nMsg + 255) % 256` as in
`mxt_process_irq_unknown_count`. -/
def mxt_process_irq_read_all (data : mxt_data) (chip : Nat → Option mxt_message) :
    Nat → Nat → Nat
  | nMsg, k =>
    match mxt_read_message data chip k with
    | .error _ => k + 1
    | .ok message =>
      if message.reportid % 256 ≠ MXT_RPTID_NOMSG then
        match nMsg with
        | 0 => k + 1
        | n + 1 => mxt_process_irq_read_all data chip n (k + 1)
      else k + 1

/-- Embedding of `mxt_process_irq(irq_work)` up to the call of
`mxt_input_report`: the device data, the number of message reads made, and
whether `mxt_input_report` is then called (the function returns without it
when the touch object or the command object is missing).  `read_reg` serves
the read of the message count, `chip` the message reads. -/
def mxt_process_irq (read_reg : Nat → Option Nat) (chip : Nat → Option mxt_message)
    (bn_event_uninit : Nat) (data : mxt_data) : mxt_data × Nat × Bool :=
  let command_object := mxt_get_object data MXT_GEN_COMMAND_T6
  let touch_object := mxt_get_object data MXT_TOUCH_MULTI_T9
  let onetouch_gesture_object := mxt_get_object data MXT_PROCI_ONETOUCH_T24
  let twotouch_gesture_object := mxt_get_object data MXT_PROCI_TWOTOUCH_T27
  match touch_object, command_object with
  | some touch_object, some command_object =>
    match mxt_read_object data read_reg MXT_SPT_MESSAGECOUNT_T44 MXT_MESSAGECOUNT_COUNT with
    | .error _ =>
      let nMsg := data.max_reportid * 2 % 256
      let r := mxt_process_irq_unknown_count chip bn_event_uninit touch_object command_object
        onetouch_gesture_object twotouch_gesture_object ((nMsg + 255) % 256) 0 data
      (r.1, r.2, true)
    | .ok nMsg =>
      let r := mxt_process_irq_known_count chip bn_event_uninit touch_object command_object
        onetouch_gesture_object twotouch_gesture_object nMsg 0 data
      (r.1, r.2, true)
  | _, _ =>
    let nMsg := data.max_reportid * 2 % 256
    (data, mxt_process_irq_read_all data chip ((nMsg + 255) % 256) 0, false)

/-! ### The routing rule of the specification -/

/-- The handlers a drained message can be routed to. -/
inductive Handler where
  | finger_tracker (slot : Nat)
  | command_error
  | onetouch_recogniser (id : Nat)
  | twotouch_recogniser (id : Nat)
  | ignored
deriving DecidableEq, Repr

/-- The report ID lies in the report-ID range of the object. -/
def in_range (object : mxt_object) (report_id : Nat) : Bool :=
  decide (object.min_reportid ≤ report_id ∧ report_id ≤ object.max_reportid)

/-- The routing rule in the words of the specification: the first match, in
this order, of the touch object's range, the command object's last report ID,
the range of the one-touch object if there is one, the range of the two-touch
object if there is one. -/
def route (touch command : mxt_object) (onetouch twotouch : Option mxt_object)
    (report_id : Nat) : Handler :=
  if in_range touch report_id then .finger_tracker (report_id - touch.min_reportid)
  else if report_id = command.max_reportid then .command_error
  else
    match onetouch.filter (fun o => in_range o report_id) with
    | some o => .onetouch_recogniser (report_id - o.min_reportid)
    | none =>
      match twotouch.filter (fun o => in_range o report_id) with
      | some o => .twotouch_recogniser (report_id - o.min_reportid)
      | none => .ignored

/-- What a handler does to the device data with the message it is given. -/
def handle (bn_event_uninit : Nat) (data : mxt_data) (message : mxt_message) :
    Handler → mxt_data
  | .finger_tracker slot => mxt_process_touchevent data message slot
  | .command_error => data
  | .onetouch_recogniser id => mxt_process_onetouch_gesture data message id
  | .twotouch_recogniser id => mxt_process_twotouch_gesture bn_event_uninit data message id
  | .ignored => data

/-- The messages the count-unknown loop drains: those read up to and including
the first one with report ID `MXT_RPTID_NOMSG`, stopping before a failed read
and after `n + 1` reads. -/
def drained_unknown_count (chip : Nat → Option mxt_message) : Nat → Nat → List mxt_message
  | n, k =>
    match chip k with
    | none => []
    | some message =>
      if message.reportid % 256 = MXT_RPTID_NOMSG then [message]
      else
        match n with
        | 0 => [message]
        | n + 1 => message :: drained_unknown_count chip n (k + 1)

/-- The messages the count-known loop drains: the first `n` read, stopping
before a failed read. -/
def drained_known_count (chip : Nat → Option mxt_message) : Nat → Nat → List mxt_message
  | 0, _ => []
  | n + 1, k =>
    match chip k with
    | none => []
    | some message => message :: drained_known_count chip n (k + 1)

/-- A chip with a message object, a command object (report ID 1), a touch
object (report IDs 2 to 11), a one-touch object (report ID 12), a two-touch
object (report ID 13) and a message-count object. -/
def sample_data : mxt_data :=
  { object_table :=
      [{ type := 5, start_address := 0x100, size := 9, instances := 1 },
       { type := 6, start_address := 0x110, size := 6, instances := 1, num_report_ids := 1,
         min_reportid := 1, max_reportid := 1 },
       { type := 9, start_address := 0x200, size := 35, instances := 1, num_report_ids := 10,
         min_reportid := 2, max_reportid := 11 },
       { type := 24, start_address := 0x230, size := 19, instances := 1, num_report_ids := 1,
         min_reportid := 12, max_reportid := 12 },
       { type := 27, start_address := 0x250, size := 7, instances := 1, num_report_ids := 1,
         min_reportid := 13, max_reportid := 13 },
       { type := 44, start_address := 0x260, size := 1, instances := 1 }]
    info := { family_id := 0x81, variant_id := 0x01, version := 0x10, build := 0xAA,
              object_num := 6 }
    max_x := 1023
    max_y := 767
    mxt_power_mode := MXT_POWER_MODE_ACTIVE
    mxt_power_supply_state := 1
    max_reportid := 13 }

/-- The public code of a one-touch event in the words of the specification:
`e` is the low 4 bits of the status byte, `dir` the direction byte. -/
def onetouch_code (orient e dir : Nat) : Nat :=
  if e = 1 then 0x2F
  else if e = 2 then 0x4F
  else if e = 3 then 0x20
  else if e = 4 then 0x22
  else if e = 5 ∨ e = 6 ∨ e = 0x0B then mxt_gesture_get_dir orient dir
  else 0x00

/-- A chip that delivers twenty messages with report ID 1 and then messages
with report ID 5. -/
def late_match_chip (k : Nat) : Option mxt_message :=
  if k < 20 then some ⟨1, []⟩ else some ⟨5, []⟩

/-- A chip with three pending messages: a press on the first touch slot, a
one-touch tap, and a command-object message; then no message. -/
def sample_chip (k : Nat) : Option mxt_message :=
  if k = 0 then some ⟨2, [0xC0, 0x10, 0x20, 0x34, 5, 6, 0]⟩
  else if k = 1 then some ⟨12, [0x03, 0, 0, 0, 0, 0, 0]⟩
  else if k = 2 then some ⟨1, [0, 0, 0, 0, 0, 0, 0]⟩
  else some ⟨0xFF, [0, 0, 0, 0, 0, 0, 0]⟩

/-! ## Configuration loaders

The target is 32-bit little-endian ARM: `int`, `unsigned int`, `unsigned long`
and `size_t` are 4 bytes wide, `struct mxt_info` is 7 bytes.  `request_firmware`
is given by its outcome, `firmware`: `none` when it fails (a negative return
value), `some cfg` with the bytes of the blob when it succeeds (return value
0).  The bus is a recording one: `log` is the list of (register, value) pairs
of the `mxt_write_reg` calls made so far, and `bus n` tells whether the call
number `n` (from 0) succeeds.
-/

def MXT_POWER_SUPPLY_OFF : Int := 0
def MXT_POWER_SUPPLY_ON : Int := 1

/-- The ten characters of `MXT_CFG_MAGIC`, `"OBP_RAW V1"`. -/
def MXT_CFG_MAGIC : List Nat := [0x4F, 0x42, 0x50, 0x5F, 0x52, 0x41, 0x57, 0x20, 0x56, 0x31]

/-- Modelled from the spec: `atomic_cmpxchg(v, old, new)` of the kernel, an
atomic compare-and-swap: the value of `*v` afterwards (`new` if it was `old`,
else unchanged) and the return value (the value of `*v` before). -/
def atomic_cmpxchg (v old new : Int) : Int × Int :=
  (if v = old then new else v, v)

/-- Embedding of `mxt_write_reg(client, reg, val)` on the recording bus; `reg`
is a `u16` and `val` a `u8`.  Returns the log with this call and the C return
value. -/
def mxt_write_reg (bus : Nat → Bool) (log : List (Nat × Nat)) (reg val : Nat) :
    List (Nat × Nat) × Int :=
  (log ++ [(reg % 65536, val % 256)], if bus log.length then 0 else - EIO)

/-- The locals of the loaders that live across statements: `pos`, `ret`,
`offset`, `type`, `instance`, `size`, and the log of the recording bus. -/
structure cfg_state where
  pos : Nat := 0
  ret : Int := 0
  log : List (Nat × Nat) := []
  offset : Nat := 0
  type : Nat := 0
  instance_ : Nat := 0
  size : Nat := 0
deriving DecidableEq, Repr

/-- Where control goes after a statement of a loader: on to the next statement,
or to the label `release`. -/
inductive cfg_flow where
  | next (s : cfg_state)
  | release (s : cfg_state)
deriving DecidableEq, Repr

/-- The `struct mxt_info` laid over seven bytes. -/
def mxt_info_of_bytes (bytes : List Nat) : mxt_info :=
  { family_id := bytes.getD 0 0 % 256
    variant_id := bytes.getD 1 0 % 256
    version := bytes.getD 2 0 % 256
    build := bytes.getD 3 0 % 256
    matrix_xsize := bytes.getD 4 0 % 256
    matrix_ysize := bytes.getD 5 0 % 256
    object_num := bytes.getD 6 0 % 256 }

/-- The `unsigned int` that `memcpy(&x, cfg->data + pos, sizeof(x))` stores: four
bytes, least significant first.  A byte outside the blob (an out-of-bounds
read in C) reads as 0. -/
def memcpy_u32 (cfg : List Nat) (pos : Nat) : Nat :=
  cfg.getD pos 0 % 256 + (cfg.getD (pos + 1) 0 % 256) * 256 +
    (cfg.getD (pos + 2) 0 % 256) * 65536 + (cfg.getD (pos + 3) 0 % 256) * 16777216

/-- The label `err_return` of both loaders: restore `do_not_suspend_mxt` with
`atomic_cmpxchg(&data->do_not_suspend_mxt, !suspend_enabled, suspend_enabled)`. -/
def mxt_download_config_err_return (data : mxt_data) (suspend_enabled : Int) : mxt_data :=
  { data with
      do_not_suspend_mxt :=
        (atomic_cmpxchg data.do_not_suspend_mxt (if suspend_enabled = 0 then 1 else 0)
          suspend_enabled).1 }

/-- The loop `for (i = size + 1; i < object->size; i++)` of both loaders that
zeroes the bytes the blob does not give, with `n` passes left. -/
def mxt_download_config_zero_loop (bus : Nat → Bool) (reg : Nat) :
    Nat → Nat → cfg_state → cfg_flow
  | 0, _, s => .next s
  | n + 1, i, s =>
    let w := mxt_write_reg bus s.log (reg + i) 0
    let s := { s with log := w.1, ret := w.2 }
    if s.ret ≠ 0 then .release s
    else mxt_download_config_zero_loop bus reg n (i + 1) s

/-! ### Binary blob -/

/-- The loop `for (i = 0; i < size; i++)` of `mxt_download_bin_config` that
writes the bytes of a block, with `n` passes left.  `pos` is an `int` that is
advanced in unsigned arithmetic. -/
def mxt_download_bin_config_write_loop (bus : Nat → Bool) (cfg : List Nat) (reg : Nat) :
    Nat → Nat → cfg_state → cfg_flow
  | 0, _, s => .next s
  | n + 1, i, s =>
    let val := cfg.getD s.pos 0 % 256
    let s := { s with pos := (s.pos + 1) % 4294967296 }
    let w := mxt_write_reg bus s.log (reg + i) val
    let s := { s with log := w.1, ret := w.2 }
    if s.ret ≠ 0 then .release s
    else mxt_download_bin_config_write_loop bus cfg reg n (i + 1) s

/-- One pass of the `while (pos < cfg->size)` loop of
`mxt_download_bin_config`: one block of the blob.  `reg` is a `u16`. -/
def mxt_download_bin_config_block (bus : Nat → Bool) (data : mxt_data) (cfg : List Nat)
    (s : cfg_state) : cfg_flow :=
  -- Read type, instance, length
  let s := { s with type := memcpy_u32 cfg s.pos }
  let s := { s with pos := (s.pos + 4) % 4294967296 }
  let s := { s with instance_ := memcpy_u32 cfg s.pos }
  let s := { s with pos := (s.pos + 4) % 4294967296 }
  let s := { s with size := memcpy_u32 cfg s.pos }
  let s := { s with pos := (s.pos + 4) % 4294967296 }
  match mxt_get_object data s.type with
  | none =>
    .next { s with pos := (s.pos + s.size * 1) % 4294967296, ret := -EINVAL }
  | some object =>
    if s.size > object.size then
      .next { s with pos := (s.pos + s.size * 1) % 4294967296, ret := -EINVAL }
    else if s.instance_ ≥ object.instances then
      .next { s with pos := (s.pos + s.size * 1) % 4294967296, ret := -EINVAL }
    else
      let reg := (object.start_address + object.size * s.instance_) % 65536
      match mxt_download_bin_config_write_loop bus cfg reg s.size 0 s with
      | .release s => .release s
      | .next s =>
        if s.size < object.size then
          mxt_download_config_zero_loop bus reg (object.size - (s.size + 1)) (s.size + 1) s
        else .next s

/-- The `while (pos < cfg->size)` loop of `mxt_download_bin_config`, for at most
`fuel` passes: the state at the label `release`, or `none` when the passes
are used up. -/
def mxt_download_bin_config_loop (bus : Nat → Bool) (data : mxt_data) (cfg : List Nat) :
    Nat → cfg_state → Option cfg_state
  | 0, _ => none
  | fuel + 1, s =>
    if s.pos < cfg.length then
      match mxt_download_bin_config_block bus data cfg s with
      | .release s => some s
      | .next s => mxt_download_bin_config_loop bus data cfg fuel s
    else some s

/-- Embedding of `mxt_download_bin_config(data, fn)`: the device data, the C
return value and the writes issued, or `none` when the block loop has not
come to its last pass within `fuel` passes. -/
def mxt_download_bin_config (fuel : Nat) (firmware : Option (List Nat)) (bus : Nat → Bool)
    (data : mxt_data) : Option (mxt_data × Int × List (Nat × Nat)) :=
  -- Disable suspend during cfg upgrade
  let c := atomic_cmpxchg data.do_not_suspend_mxt 0 1
  let suspend_enabled := c.2
  let data := { data with do_not_suspend_mxt := c.1 }
  -- Disable cfg upgrade if we are in suspend
  if data.mxt_power_supply_state ≠ MXT_POWER_SUPPLY_ON then
    some (mxt_download_config_err_return data suspend_enabled, -EAGAIN, [])
  else
    match firmware with
    | none => some (data, 0, [])
    | some cfg =>
      if cfg.take MXT_CFG_MAGIC.length ≠ MXT_CFG_MAGIC then
        some (mxt_download_config_err_return data suspend_enabled, -EINVAL, [])
      else
        let pos := MXT_CFG_MAGIC.length
        -- Load information block and check
        let cfg_info := mxt_info_of_bytes ((cfg.drop pos).take 7)
        let pos := pos + 7
        if cfg_info.family_id ≠ data.info.family_id then
          some (mxt_download_config_err_return data suspend_enabled, -EINVAL, [])
        else if cfg_info.variant_id ≠ data.info.variant_id then
          some (mxt_download_config_err_return data suspend_enabled, -EINVAL, [])
        else
          let pos := pos + 4
          let pos := pos + 4
          match mxt_download_bin_config_loop bus data cfg fuel { pos := pos, ret := 0 } with
          | none => none
          | some s => some (mxt_download_config_err_return data suspend_enabled, s.ret, s.log)

/-! ### Text blob -/

/-- The results of the `sscanf` calls of `mxt_download_txt_config` on the blob,
by the offset `pos` they start at (`sscanf` is a library function outside the
driver).  Each gives the return value, the converted values and the count of
characters consumed that `%n` stores. -/
structure scanner where
  /-- `sscanf(cfg->data + pos, "%hhx%n", &val, &offset)`. -/
  hhx : Nat → Int × Nat × Nat
  /-- `sscanf(cfg->data + pos, "%lx%n", &crc, &offset)`. -/
  lx : Nat → Int × Nat × Nat
  /-- `sscanf(cfg->data + pos, "%x %x %x%n", &type, &instance, &size, &offset)`. -/
  x3 : Nat → Int × (Nat × Nat × Nat) × Nat

/-- The loop `for (i = 0; i < sizeof(struct mxt_info); i++)` of
`mxt_download_txt_config` with `n` passes left: the bytes stored into
`cfg_info` and the state, or `none` when a conversion fails (`ret = -EINVAL;
goto release`). -/
def mxt_download_txt_config_info_loop (scan : scanner) :
    Nat → cfg_state → Option (List Nat × cfg_state)
  | 0, s => some ([], s)
  | n + 1, s =>
    let r := scan.hhx s.pos
    let s : cfg_state := { s with ret := r.1 }
    if s.ret ≤ 0 then none
    else
      let s := { s with offset := r.2.2 }
      let s := { s with pos := s.pos + s.offset }
      match mxt_download_txt_config_info_loop scan n s with
      | none => none
      | some rest => some (r.2.1 % 256 :: rest.1, rest.2)

/-- The loop `for (i = 0; i < size; i++)` of `mxt_download_txt_config` that
skips the values of a block that is not applied, with `n` passes left. -/
def mxt_download_txt_config_skip_loop (scan : scanner) : Nat → cfg_state → cfg_flow
  | 0, s => .next s
  | n + 1, s =>
    let r := scan.hhx s.pos
    let s : cfg_state := { s with ret := r.1 }
    if s.ret ≤ 0 then .release s
    else
      let s := { s with offset := r.2.2 }
      let s := { s with pos := s.pos + s.offset }
      mxt_download_txt_config_skip_loop scan n s

/-- The loop `for (i = 0; i < size; i++)` of `mxt_download_txt_config` that
writes the values of a block, with `n` passes left. -/
def mxt_download_txt_config_write_loop (bus : Nat → Bool) (scan : scanner) (reg : Nat) :
    Nat → Nat → cfg_state → cfg_flow
  | 0, _, s => .next s
  | n + 1, i, s =>
    let r := scan.hhx s.pos
    let s : cfg_state := { s with ret := r.1 }
    if s.ret ≤ 0 then .release { s with ret := -EINVAL }
    else
      let val := r.2.1
      let s := { s with offset := r.2.2 }
      let s := { s with pos := s.pos + s.offset }
      let w := mxt_write_reg bus s.log (reg + i) val
      let s := { s with log := w.1, ret := w.2 }
      if s.ret ≠ 0 then .release s
      else mxt_download_txt_config_write_loop bus scan reg n (i + 1) s

/-- One pass of the `while (pos < cfg->size)` loop of
`mxt_download_txt_config`: one block of the blob.  A conversion of `sscanf`
that is not reached leaves its variable as it was. -/
def mxt_download_txt_config_block (bus : Nat → Bool) (scan : scanner) (data : mxt_data)
    (s : cfg_state) : cfg_flow :=
  -- Read type, instance, length
  let r := scan.x3 s.pos
  let s : cfg_state := { s with ret := r.1 }
  if s.ret = 0 then
    -- EOF
    .release { s with ret := 1 }
  else if s.ret < 0 then
    .release { s with ret := -EINVAL }
  else
    let s := { s with type := if s.ret ≥ 1 then r.2.1.1 % 4294967296 else s.type }
    let s := { s with instance_ := if s.ret ≥ 2 then r.2.1.2.1 % 4294967296 else s.instance_ }
    let s := { s with size := if s.ret ≥ 3 then r.2.1.2.2 % 4294967296 else s.size }
    let s := { s with offset := if s.ret ≥ 3 then r.2.2 else s.offset }
    let s := { s with pos := s.pos + s.offset }
    match mxt_get_object data s.type with
    | none =>
      match mxt_download_txt_config_skip_loop scan s.size s with
      | .release s => .release s
      | .next s => .next { s with ret := -EINVAL }
    | some object =>
      if s.size > object.size then
        match mxt_download_txt_config_skip_loop scan s.size s with
        | .release s => .release s
        | .next s => .next { s with ret := -EINVAL }
      else if s.instance_ ≥ object.instances then
        match mxt_download_txt_config_skip_loop scan s.size s with
        | .release s => .release s
        | .next s => .next { s with ret := -EINVAL }
      else
        let reg := (object.start_address + object.size * s.instance_) % 65536
        match mxt_download_txt_config_write_loop bus scan reg s.size 0 s with
        | .release s => .release s
        | .next s =>
          if s.size < object.size then
            mxt_download_config_zero_loop bus reg (object.size - (s.size + 1)) (s.size + 1) s
          else .next s

/-- The `while (pos < cfg->size)` loop of `mxt_download_txt_config`, for at most
`fuel` passes: the state at the label `release`, or `none` when the passes
are used up. -/
def mxt_download_txt_config_loop (bus : Nat → Bool) (scan : scanner) (data : mxt_data)
    (cfg : List Nat) : Nat → cfg_state → Option cfg_state
  | 0, _ => none
  | fuel + 1, s =>
    if s.pos < cfg.length then
      match mxt_download_txt_config_block bus scan data s with
      | .release s => some s
      | .next s => mxt_download_txt_config_loop bus scan data cfg fuel s
    else some s

/-- Embedding of `mxt_download_txt_config(data, fn)`: the device data, the C
return value and the writes issued, or `none` when the block loop has not
come to its last pass within `fuel` passes.  `uninit` gives the values the locals `offset`,
`type`, `instance` and `size` hold before their first assignment. -/
def mxt_download_txt_config (fuel : Nat) (firmware : Option (List Nat)) (scan : scanner)
    (uninit : cfg_state) (bus : Nat → Bool) (data : mxt_data) :
    Option (mxt_data × Int × List (Nat × Nat)) :=
  -- Disable suspend during cfg upgrade
  let c := atomic_cmpxchg data.do_not_suspend_mxt 0 1
  let suspend_enabled := c.2
  let data := { data with do_not_suspend_mxt := c.1 }
  -- Disable cfg upgrade if we are in suspend
  if data.mxt_power_supply_state ≠ MXT_POWER_SUPPLY_ON then
    some (mxt_download_config_err_return data suspend_enabled, -EAGAIN, [])
  else
    match firmware with
    | none => some (data, 0, [])
    | some cfg =>
      if cfg.take MXT_CFG_MAGIC.length ≠ MXT_CFG_MAGIC then
        some (mxt_download_config_err_return data suspend_enabled, -EINVAL, [])
      else
        let s : cfg_state := { uninit with pos := MXT_CFG_MAGIC.length, ret := 0, log := [] }
        -- Load information block and check
        match mxt_download_txt_config_info_loop scan 7 s with
        | none => some (mxt_download_config_err_return data suspend_enabled, -EINVAL, [])
        | some (bytes, s) =>
          let cfg_info := mxt_info_of_bytes bytes
          if cfg_info.family_id ≠ data.info.family_id then
            some (mxt_download_config_err_return data suspend_enabled, -EINVAL, [])
          else if cfg_info.variant_id ≠ data.info.variant_id then
            some (mxt_download_config_err_return data suspend_enabled, -EINVAL, [])
          else
            let r := scan.lx s.pos
            let s : cfg_state := { s with ret := r.1 }
            if s.ret ≤ 0 then
              some (mxt_download_config_err_return data suspend_enabled, -EINVAL, [])
            else
              let s := { s with offset := r.2.2 }
              let s := { s with pos := s.pos + s.offset }
              -- Check config CRC
              let r := scan.lx s.pos
              let s : cfg_state := { s with ret := r.1 }
              if s.ret ≤ 0 then
                some (mxt_download_config_err_return data suspend_enabled, -EINVAL, [])
              else
                let s := { s with offset := r.2.2 }
                let s := { s with pos := s.pos + s.offset }
                match mxt_download_txt_config_loop bus scan data cfg fuel s with
                | none => none
                | some s =>
                  some (mxt_download_config_err_return data suspend_enabled, s.ret, s.log)

/-- The `n` bytes that `%hhx` converts one after another from offset `pos` on,
and the offset after them; `none` when one of the conversions fails. -/
def scan_values (scan : scanner) : Nat → Nat → Option (List Nat × Nat)
  | 0, pos => some ([], pos)
  | n + 1, pos =>
    if (scan.hhx pos).1 ≤ 0 then none
    else
      match scan_values scan n (pos + (scan.hhx pos).2.2) with
      | none => none
      | some rest => some ((scan.hhx pos).2.1 % 256 :: rest.1, rest.2)

/-- The state a statement of a loader hands on, whichever way control goes. -/
def cfg_flow.state : cfg_flow → cfg_state
  | .next s => s
  | .release s => s

/-! ### Sample chip and blobs -/

/-- A powered chip of family 0x81, variant 0x01, version 0x10, build 0xAA with
a message object, a power object T7 (two instances of 4 bytes at 0x120) and a
touch object T9 (one instance of 2 bytes at 0x200). -/
def sample_cfg_data : mxt_data :=
  { object_table :=
      [{ type := 5, start_address := 0x100, size := 9, instances := 1 },
       { type := 7, start_address := 0x120, size := 4, instances := 2 },
       { type := 9, start_address := 0x200, size := 2, instances := 1 }]
    info := { family_id := 0x81, variant_id := 0x01, version := 0x10, build := 0xAA,
              object_num := 3 }
    mxt_power_supply_state := MXT_POWER_SUPPLY_ON }

/-- A binary blob for the sample chip with one block: type 7, instance 1, size
2, bytes 0x11 0x22. -/
def sample_bin_blob : List Nat :=
  [0x4F, 0x42, 0x50, 0x5F, 0x52, 0x41, 0x57, 0x20, 0x56, 0x31, 0x81, 0x01, 0x10, 0xAA, 0x00,
   0x00, 0x03, 0x56, 0x34, 0x12, 0x00, 0xEF, 0xCD, 0xAB, 0x00, 0x07, 0x00, 0x00, 0x00, 0x01,
   0x00, 0x00, 0x00, 0x02, 0x00, 0x00, 0x00, 0x11, 0x22]

/-- The blob `sample_bin_blob` with family 0x82 in its header. -/
def sample_bin_blob_family : List Nat :=
  [0x4F, 0x42, 0x50, 0x5F, 0x52, 0x41, 0x57, 0x20, 0x56, 0x31, 0x82, 0x01, 0x10, 0xAA, 0x00,
   0x00, 0x03, 0x56, 0x34, 0x12, 0x00, 0xEF, 0xCD, 0xAB, 0x00, 0x07, 0x00, 0x00, 0x00, 0x01,
   0x00, 0x00, 0x00, 0x02, 0x00, 0x00, 0x00, 0x11, 0x22]

/-- The blob `sample_bin_blob` with version 0x11 and build 0xAB in its header. -/
def sample_bin_blob_version : List Nat :=
  [0x4F, 0x42, 0x50, 0x5F, 0x52, 0x41, 0x57, 0x20, 0x56, 0x31, 0x81, 0x01, 0x11, 0xAB, 0x00,
   0x00, 0x03, 0x56, 0x34, 0x12, 0x00, 0xEF, 0xCD, 0xAB, 0x00, 0x07, 0x00, 0x00, 0x00, 0x01,
   0x00, 0x00, 0x00, 0x02, 0x00, 0x00, 0x00, 0x11, 0x22]

/-- A binary blob for the sample chip with one block: type 0x109, instance 0,
size 1, byte 0xAB. -/
def sample_bin_blob_wide_type : List Nat :=
  [0x4F, 0x42, 0x50, 0x5F, 0x52, 0x41, 0x57, 0x20, 0x56, 0x31, 0x81, 0x01, 0x10, 0xAA, 0x00,
   0x00, 0x03, 0x56, 0x34, 0x12, 0x00, 0xEF, 0xCD, 0xAB, 0x00, 0x09, 0x01, 0x00, 0x00, 0x00,
   0x00, 0x00, 0x00, 0x01, 0x00, 0x00, 0x00, 0xAB]

/-- The value of a hexadecimal digit character. -/
def hex_value (c : Nat) : Option Nat :=
  if 48 ≤ c ∧ c ≤ 57 then some (c - 48)
  else if 97 ≤ c ∧ c ≤ 102 then some (c - 87)
  else if 65 ≤ c ∧ c ≤ 70 then some (c - 55)
  else none

/-- The number of white-space characters at the front of a text. -/
def skip_space : List Nat → Nat
  | [] => 0
  | c :: rest => if c = 32 ∨ (9 ≤ c ∧ c ≤ 13) then skip_space rest + 1 else 0

/-- The hexadecimal digits at the front of a text: their value on top of `acc`
and their number. -/
def scan_digits : List Nat → Nat → Nat × Nat
  | [], acc => (acc, 0)
  | c :: rest, acc =>
    match hex_value c with
    | none => (acc, 0)
    | some d => ((scan_digits rest (acc * 16 + d)).1, (scan_digits rest (acc * 16 + d)).2 + 1)

/-- One hexadecimal conversion at offset `pos` of a text, after white space:
the number of conversions made (0 or 1), the value and the characters
consumed. -/
def sample_scan_x (text : List Nat) (pos : Nat) : Int × Nat × Nat :=
  let rest := text.drop pos
  let sp := skip_space rest
  let r := scan_digits (rest.drop sp) 0
  if r.2 = 0 then (0, 0, 0) else (1, r.1, sp + r.2)

/-- A scanner for a text of hexadecimal numbers separated by white space. -/
def sample_scanner (text : List Nat) : scanner :=
  { hhx := fun pos => ((sample_scan_x text pos).1, (sample_scan_x text pos).2.1 % 256,
      (sample_scan_x text pos).2.2)
    lx := fun pos => ((sample_scan_x text pos).1, (sample_scan_x text pos).2.1 % 4294967296,
      (sample_scan_x text pos).2.2)
    x3 := fun pos =>
      let a := sample_scan_x text pos
      let b := sample_scan_x text (pos + a.2.2)
      let c := sample_scan_x text (pos + a.2.2 + b.2.2)
      if a.1 ≤ 0 then (0, (0, 0, 0), 0)
      else if b.1 ≤ 0 then (1, (a.2.1, 0, 0), 0)
      else if c.1 ≤ 0 then (2, (a.2.1, b.2.1, 0), 0)
      else (3, (a.2.1, b.2.1, c.2.1), a.2.2 + b.2.2 + c.2.2) }

/-- A text blob for the sample chip, `OBP_RAW V1 81 01 10 AA 00 00 03 123456
ABCDEF`, then on a new line one block `0007 0001 0002 11 22`: type 7, instance
1, size 2, bytes 0x11 0x22. -/
def sample_txt_blob : List Nat :=
  [0x4F, 0x42, 0x50, 0x5F, 0x52, 0x41, 0x57, 0x20, 0x56, 0x31, 0x20, 0x38, 0x31, 0x20, 0x30,
   0x31, 0x20, 0x31, 0x30, 0x20, 0x41, 0x41, 0x20, 0x30, 0x30, 0x20, 0x30, 0x30, 0x20, 0x30,
   0x33, 0x20, 0x31, 0x32, 0x33, 0x34, 0x35, 0x36, 0x20, 0x41, 0x42, 0x43, 0x44, 0x45, 0x46,
   0x0A, 0x30, 0x30, 0x30, 0x37, 0x20, 0x30, 0x30, 0x30, 0x31, 0x20, 0x30, 0x30, 0x30, 0x32,
   0x20, 0x31, 0x31, 0x20, 0x32, 0x32]

/-- The blob `sample_txt_blob` with family 82 in its header. -/
def sample_txt_blob_family : List Nat :=
  [0x4F, 0x42, 0x50, 0x5F, 0x52, 0x41, 0x57, 0x20, 0x56, 0x31, 0x20, 0x38, 0x32, 0x20, 0x30,
   0x31, 0x20, 0x31, 0x30, 0x20, 0x41, 0x41, 0x20, 0x30, 0x30, 0x20, 0x30, 0x30, 0x20, 0x30,
   0x33, 0x20, 0x31, 0x32, 0x33, 0x34, 0x35, 0x36, 0x20, 0x41, 0x42, 0x43, 0x44, 0x45, 0x46,
   0x0A, 0x30, 0x30, 0x30, 0x37, 0x20, 0x30, 0x30, 0x30, 0x31, 0x20, 0x30, 0x30, 0x30, 0x32,
   0x20, 0x31, 0x31, 0x20, 0x32, 0x32]

/-- The blob `sample_txt_blob` with version 11 and build AB in its header. -/
def sample_txt_blob_version : List Nat :=
  [0x4F, 0x42, 0x50, 0x5F, 0x52, 0x41, 0x57, 0x20, 0x56, 0x31, 0x20, 0x38, 0x31, 0x20, 0x30,
   0x31, 0x20, 0x31, 0x31, 0x20, 0x41, 0x42, 0x20, 0x30, 0x30, 0x20, 0x30, 0x30, 0x20, 0x30,
   0x33, 0x20, 0x31, 0x32, 0x33, 0x34, 0x35, 0x36, 0x20, 0x41, 0x42, 0x43, 0x44, 0x45, 0x46,
   0x0A, 0x30, 0x30, 0x30, 0x37, 0x20, 0x30, 0x30, 0x30, 0x31, 0x20, 0x30, 0x30, 0x30, 0x32,
   0x20, 0x31, 0x31, 0x20, 0x32, 0x32]

/-! ## Consolidated input report -/

def MXT_MT_NONE : Int := 0
def MXT_MT_A : Int := 1
def MXT_MT_B : Int := 2

/-- The absolute axes of `linux/input.h` that `mxt_input_report` reports on. -/
inductive abs_axis where
  | ABS_MT_TOUCH_MAJOR
  | ABS_MT_POSITION_X
  | ABS_MT_POSITION_Y
  | ABS_HAT1X
  | ABS_HAT2X
  | ABS_HAT2Y
deriving DecidableEq, Repr

/-- The calls `mxt_input_report` makes on the input device, in order:
`input_mt_slot(dev, id)`, `input_mt_report_slot_state(dev, MT_TOOL_FINGER,
active)`, `input_report_abs(dev, axis, value)`, `input_mt_sync(dev)`,
`input_report_key(dev, BTN_TOUCH, value)` and `input_sync(dev)`. -/
inductive input_event where
  | mt_slot (id : Nat)
  | mt_report_slot_state (active : Bool)
  | report_abs (axis : abs_axis) (value : Int)
  | mt_sync
  | report_key_btn_touch (value : Bool)
  | sync
deriving DecidableEq, Repr

/-- The loop `for (id = 0; id < MXT_MAX_FINGER; id++)` of `mxt_input_report` for
a type B device, from slot `id` on: the slots afterwards, the events emitted
and the number of fingers counted (`finger_num`).  The `switch` has the cases
`MXT_TOUCH_STATUS_RELEASE`, `MXT_TOUCH_STATUS_PRESS` and
`MXT_TOUCH_STATUS_MOVE`; `default` does nothing more. -/
def mxt_input_report_slots_b : Nat → List mxt_finger → List mxt_finger × List input_event × Int
  | _, [] => ([], [], 0)
  | id, f :: rest =>
    let r := mxt_input_report_slots_b (id + 1) rest
    if f.status = 0 then
      (f :: r.1, r.2.1, r.2.2)
    else if f.status = MXT_TOUCH_STATUS_RELEASE then
      ({ f with status := 0 } :: r.1,
        [.mt_slot id, .mt_report_slot_state false] ++ r.2.1, r.2.2)
    else if f.status = MXT_TOUCH_STATUS_PRESS ∨ f.status = MXT_TOUCH_STATUS_MOVE then
      (f :: r.1,
        [.mt_slot id, .mt_report_slot_state true,
          .report_abs .ABS_MT_TOUCH_MAJOR f.area,
          .report_abs .ABS_MT_POSITION_X f.x,
          .report_abs .ABS_MT_POSITION_Y f.y] ++ r.2.1, r.2.2 + 1)
    else
      (f :: r.1, [.mt_slot id] ++ r.2.1, r.2.2)

/-- The loop `for (id = 0; id < MXT_MAX_FINGER; id++)` of `mxt_input_report` for
a type A device: the slots afterwards, the events emitted and `finger_num`. -/
def mxt_input_report_slots_a : List mxt_finger → List mxt_finger × List input_event × Int
  | [] => ([], [], 0)
  | f :: rest =>
    let r := mxt_input_report_slots_a rest
    if f.status = 0 then
      (f :: r.1, r.2.1, r.2.2)
    else if f.status = MXT_TOUCH_STATUS_RELEASE then
      ({ f with status := 0 } :: r.1, r.2.1, r.2.2)
    else
      (f :: r.1,
        [.report_abs .ABS_MT_TOUCH_MAJOR f.area,
          .report_abs .ABS_MT_POSITION_X f.x,
          .report_abs .ABS_MT_POSITION_Y f.y,
          -- Mark the end of the contact packet
          .mt_sync] ++ r.2.1, r.2.2 + 1)

/-- Embedding of `mxt_input_report(data)`: the device data afterwards and the
calls made on the input device.  `data.finger` is the array of
`MXT_MAX_FINGER` slots. -/
def mxt_input_report (data : mxt_data) : mxt_data × List input_event :=
  let r : List mxt_finger × List input_event × Int :=
    if data.uses_mt_slots = MXT_MT_B then mxt_input_report_slots_b 0 data.finger
    else if data.uses_mt_slots = MXT_MT_A then mxt_input_report_slots_a data.finger
    else (data.finger, [], 0)
  let data := { data with finger := r.1 }
  let events := r.2.1
  let finger_num := r.2.2
  let events := events ++ [.report_key_btn_touch (decide (finger_num > 0))]
  -- Gesture processing
  let g : mxt_data × List input_event :=
    if data.use_fw_gestures ≠ 0 then
      let events :=
        if finger_num > data.mxt_n_active_fingers then
          -- Generate a touch down event
          events ++ [.report_abs .ABS_HAT1X GESTURE_TD, .report_abs .ABS_HAT2X finger_num,
            .report_abs .ABS_HAT2Y 1]
        else events
      let g1 : mxt_data × List input_event :=
        if finger_num ≤ 1 ∧ data.current_bn_onetouch_gesture ≠ GESTURE_NONE ∧
            data.mxt_onetouch_gesture_active ≠ 0 then
          ({ data with mxt_onetouch_gesture_active := 0 },
            events ++ [.report_abs .ABS_HAT1X data.current_bn_onetouch_gesture,
              .report_abs .ABS_HAT2X finger_num,
              .report_abs .ABS_HAT2Y data.onetouch_gesture_count])
        else if finger_num = 2 ∧ data.current_bn_twotouch_gesture ≠ GESTURE_NONE ∧
            data.mxt_twotouch_gesture_active ≠ 0 then
          ({ data with mxt_twotouch_gesture_active := 0 },
            events ++ [.report_abs .ABS_HAT1X data.current_bn_twotouch_gesture,
              .report_abs .ABS_HAT2X finger_num,
              .report_abs .ABS_HAT2Y data.twotouch_gesture_count])
        else (data, events)
      let data := g1.1
      let events := g1.2
      let events :=
        if finger_num < data.mxt_n_active_fingers then
          -- Generate a lift off event
          events ++ [.report_abs .ABS_HAT1X GESTURE_LO, .report_abs .ABS_HAT2X finger_num,
            .report_abs .ABS_HAT2Y 1]
        else events
      if finger_num = 0 ∨ finger_num > 2 then
        -- Mark the end of transfer
        let events := events ++ [.sync]
        -- Report GESTURE_NONE
        let data := { data with
          current_bn_onetouch_gesture := GESTURE_NONE
          current_bn_twotouch_gesture := GESTURE_NONE
          current_mxt_onetouch_gesture := 0x00
          current_mxt_twotouch_gesture := 0x00
          onetouch_gesture_count := 0
          twotouch_gesture_count := 0
          mxt_onetouch_gesture_active := 0
          mxt_twotouch_gesture_active := 0 }
        (data, events ++ [.report_abs .ABS_HAT1X data.current_bn_onetouch_gesture,
          .report_abs .ABS_HAT2X 0, .report_abs .ABS_HAT2Y data.onetouch_gesture_count])
      else (data, events)
    else (data, events)
  let data := { g.1 with mxt_n_active_fingers := finger_num }
  -- Mark the end of transfer
  (data, g.2 ++ [.sync])

/-- A type B device in active mode with its ten slots idle. -/
def sample_touch_data : mxt_data :=
  { mxt_power_mode := MXT_POWER_MODE_ACTIVE, uses_mt_slots := MXT_MT_B, max_x := 4096,
    max_y := 4096 }

/-- The sample device in deep sleep with slot 0 pressed (area 4, pressure 5). -/
def sample_sleeping_touch_data : mxt_data :=
  { mxt_power_mode := MXT_POWER_MODE_DEEP_SLEEP, uses_mt_slots := MXT_MT_B, max_x := 4096,
    max_y := 4096,
    finger := { status := MXT_TOUCH_STATUS_PRESS, x := 16, y := 35, area := 4, pressure := 5 } ::
      List.replicate 9 {} }

/-- The sample device with the release of slot 0 pending. -/
def sample_released_touch_data : mxt_data :=
  { mxt_power_mode := MXT_POWER_MODE_ACTIVE, uses_mt_slots := MXT_MT_B, max_x := 4096,
    max_y := 4096,
    finger := { status := MXT_TOUCH_STATUS_RELEASE, x := 16, y := 35, area := 4, pressure := 5 } ::
      List.replicate 9 {} }

/-! ## Device state, addresses and power configuration -/

def INIT : Nat := 0
def APPMODE : Nat := 1
def BOOTLOADER : Nat := 2

/-- Embedding of `struct mxt_address_pair`. -/
structure mxt_address_pair where
  bootloader : Nat
  application : Nat
deriving DecidableEq, Repr

/-- The table `mxt_slave_addresses`, with its terminating `{ 0 }`. -/
def mxt_slave_addresses : List mxt_address_pair :=
  [⟨0x26, 0x4a⟩, ⟨0x25, 0x4b⟩, ⟨0x25, 0x4b⟩, ⟨0x26, 0x4c⟩, ⟨0x27, 0x4d⟩, ⟨0x34, 0x5a⟩,
    ⟨0x35, 0x5b⟩, ⟨0, 0⟩]

/-- The loop `for (i = 0; mxt_slave_addresses[i].application != 0; i++)` of
`mxt_switch_to_bootloader_address` over the rest of the table. -/
def mxt_switch_to_bootloader_address_loop : List mxt_address_pair → mxt_data → mxt_data × Int
  | [], data => (data, -EINVAL)
  | pair :: rest, data =>
    if pair.application = 0 then (data, -EINVAL)
    else if pair.application = data.addr then
      ({ data with addr := pair.bootloader % 65536, mxt_state := BOOTLOADER }, 0)
    else mxt_switch_to_bootloader_address_loop rest data

/-- Embedding of `mxt_switch_to_bootloader_address(data)`; `client->addr` is an
`unsigned short`. -/
def mxt_switch_to_bootloader_address (data : mxt_data) : mxt_data × Int :=
  if data.mxt_state = BOOTLOADER then (data, -EINVAL)
  else mxt_switch_to_bootloader_address_loop mxt_slave_addresses data

/-- The loop `for (i = 0; mxt_slave_addresses[i].application != 0; i++)` of
`mxt_switch_to_appmode_address` over the rest of the table. -/
def mxt_switch_to_appmode_address_loop : List mxt_address_pair → mxt_data → mxt_data × Int
  | [], data => (data, -EINVAL)
  | pair :: rest, data =>
    if pair.application = 0 then (data, -EINVAL)
    else if pair.bootloader = data.addr then
      ({ data with addr := pair.application % 65536, mxt_state := APPMODE }, 0)
    else mxt_switch_to_appmode_address_loop rest data

/-- Embedding of `mxt_switch_to_appmode_address(data)`. -/
def mxt_switch_to_appmode_address (data : mxt_data) : mxt_data × Int :=
  if data.mxt_state = APPMODE then (data, -EINVAL)
  else mxt_switch_to_appmode_address_loop mxt_slave_addresses data

def MXT_GEN_POWER_T7 : Nat := 7
def MXT_POWER_IDLEACQINT : Nat := 0
def MXT_POWER_ACTVACQINT : Nat := 1
def MXT_POWER_CFG_RUN : Nat := 0
def MXT_POWER_CFG_DEEPSLEEP : Nat := 1

/-- Embedding of `mxt_write_object(data, type, offset, val)` on the recording
bus; the three arguments are `u8`s. -/
def mxt_write_object (bus : Nat → Bool) (log : List (Nat × Nat)) (data : mxt_data)
    (type offset val : Nat) : List (Nat × Nat) × Int :=
  match mxt_get_object data type with
  | none => (log, -EINVAL)
  | some object =>
    if offset % 256 ≥ object.size * object.instances then (log, -EINVAL)
    else
      let reg := object.start_address
      mxt_write_reg bus log (reg + offset % 256) val

/-- Embedding of `mxt_set_power_cfg(data, mode)` on the recording bus: the device
data, the log and the C return value. -/
def mxt_set_power_cfg (bus : Nat → Bool) (log : List (Nat × Nat)) (data : mxt_data)
    (mode : Nat) : mxt_data × List (Nat × Nat) × Int :=
  if data.mxt_state ≠ APPMODE then (data, log, -EINVAL)
  else
    let actv_cycle_time :=
      if mode % 256 = MXT_POWER_CFG_DEEPSLEEP then 0 else data.actv_cycle_time % 256
    let idle_cycle_time :=
      if mode % 256 = MXT_POWER_CFG_DEEPSLEEP then 0 else data.idle_cycle_time % 256
    let w := mxt_write_object bus log data MXT_GEN_POWER_T7 MXT_POWER_ACTVACQINT actv_cycle_time
    if w.2 ≠ 0 then (data, w.1, w.2)
    else
      let w := mxt_write_object bus w.1 data MXT_GEN_POWER_T7 MXT_POWER_IDLEACQINT idle_cycle_time
      if w.2 ≠ 0 then (data, w.1, w.2)
      else if actv_cycle_time = 0 ∨ idle_cycle_time = 0 then
        ({ data with mxt_power_mode := MXT_POWER_MODE_DEEP_SLEEP }, w.1, 0)
      else
        ({ data with mxt_power_mode := MXT_POWER_MODE_ACTIVE }, w.1, 0)

/-- Embedding of `mxt_read_power_cfg(data, actv_cycle_time, idle_cycle_time)`.
The two pointer parameters are given as addresses (0 is `NULL`); at both call
sites they are `&data->actv_cycle_time` and `&data->idle_cycle_time`, so the
bytes read are stored in those fields.  The test after the reads is on the
parameters themselves, the pointers. -/
def mxt_read_power_cfg (read_reg : Nat → Option Nat) (data : mxt_data)
    (actv_cycle_time idle_cycle_time : Nat) : mxt_data × Int :=
  match mxt_read_object data read_reg MXT_GEN_POWER_T7 MXT_POWER_ACTVACQINT with
  | .error error => (data, error)
  | .ok val =>
    let data := { data with actv_cycle_time := val }
    match mxt_read_object data read_reg MXT_GEN_POWER_T7 MXT_POWER_IDLEACQINT with
    | .error error => (data, error)
    | .ok val =>
      let data := { data with idle_cycle_time := val }
      if actv_cycle_time = 0 ∨ idle_cycle_time = 0 then
        ({ data with mxt_power_mode := MXT_POWER_MODE_DEEP_SLEEP }, 0)
      else
        ({ data with mxt_power_mode := MXT_POWER_MODE_ACTIVE }, 0)

/-- Embedding of `mxt_start(data)` on the recording bus.  `enable_irq` acts on
the interrupt controller, outside the device data. -/
def mxt_start (bus : Nat → Bool) (log : List (Nat × Nat)) (data : mxt_data) :
    mxt_data × List (Nat × Nat) :=
  let r : mxt_data × List (Nat × Nat) × Int :=
    if data.actv_cycle_time % 256 ≠ 255 ∨ data.idle_cycle_time % 256 ≠ 255 then
      mxt_set_power_cfg bus log data MXT_POWER_CFG_RUN
    else (data, log, 0)
  let data := r.1
  if data.mxt_irq_enabled = 0 then ({ data with mxt_irq_enabled := 1 }, r.2.1)
  else (data, r.2.1)

/-- Embedding of `mxt_stop(data)` on the recording bus.  `disable_irq` acts on
the interrupt controller, outside the device data. -/
def mxt_stop (bus : Nat → Bool) (log : List (Nat × Nat)) (data : mxt_data) :
    mxt_data × List (Nat × Nat) :=
  let r := mxt_set_power_cfg bus log data MXT_POWER_CFG_DEEPSLEEP
  let data := r.1
  if data.mxt_irq_enabled ≠ 0 then ({ data with mxt_irq_enabled := 0 }, r.2.1)
  else (data, r.2.1)

/-! ### Sample chips for the edge cases -/

/-- A chip in app mode with a power object T7 of two bytes at 0x120, cycle
times 255 and 255 (free run), after `mxt_stop`: deep sleep, interrupt off. -/
def sample_free_run_data : mxt_data :=
  { object_table := [{ type := 7, start_address := 0x120, size := 2, instances := 1 }]
    info := { object_num := 1 }
    mxt_state := APPMODE
    actv_cycle_time := 255
    idle_cycle_time := 255
    mxt_power_mode := MXT_POWER_MODE_ACTIVE
    mxt_irq_enabled := 1 }

/-- A chip in app mode with a power object T7 of two bytes at 0x120 and cycle
times 16 and 32. -/
def sample_power_data : mxt_data :=
  { object_table := [{ type := 7, start_address := 0x120, size := 2, instances := 1 }]
    info := { object_num := 1 }
    mxt_state := APPMODE
    actv_cycle_time := 16
    idle_cycle_time := 32
    mxt_power_mode := MXT_POWER_MODE_ACTIVE
    mxt_irq_enabled := 1 }

/-- The registers of a chip whose power object at 0x120 holds idle time 32 and
active time 0. -/
def sample_sleeping_chip (reg : Nat) : Option Nat :=
  if reg = 0x120 then some 32 else if reg = 0x121 then some 0 else none

/-- The object table of a chip with a message object T5, a command object T6
with one report ID and a touch object T9 with one instance of sixteen report
IDs. -/
def sixteen_touch_object_table (reg : Nat) : Except Int (List Nat) :=
  if reg = 7 then .ok [5, 0, 1, 8, 0, 0]
  else if reg = 13 then .ok [6, 0x10, 1, 5, 0, 1]
  else .ok [9, 0, 2, 34, 0, 16]

/-- The object table of a chip with a message object T5, a command object T6
and a touch object T9, none of which has a report ID. -/
def silent_object_table (reg : Nat) : Except Int (List Nat) :=
  if reg = 7 then .ok [5, 0, 1, 8, 0, 0]
  else if reg = 13 then .ok [6, 0x10, 1, 5, 0, 0]
  else .ok [9, 0, 2, 34, 0, 0]

/-- A binary blob for the sample chip whose one block has type 0xEE, instance
0 and declared size 0xFFFFFFF4. -/
def sample_bin_blob_endless : List Nat :=
  [0x4F, 0x42, 0x50, 0x5F, 0x52, 0x41, 0x57, 0x20, 0x56, 0x31, 0x81, 0x01, 0x10, 0xAA, 0x00,
   0x00, 0x03, 0x56, 0x34, 0x12, 0x00, 0xEF, 0xCD, 0xAB, 0x00, 0xEE, 0x00, 0x00, 0x00, 0x00,
   0x00, 0x00, 0x00, 0xF4, 0xFF, 0xFF, 0xFF]

/-- The device data of the chip of `silent_object_table` in active mode:
`max_reportid` is 0. -/
def silent_data : mxt_data :=
  { object_table :=
      [{ type := 5, start_address := 0x100, size := 9, instances := 1 },
       { type := 6, start_address := 0x110, size := 6, instances := 1 },
       { type := 9, start_address := 0x200, size := 35, instances := 1 }]
    info := { object_num := 3 }
    max_reportid := 0
    mxt_power_mode := MXT_POWER_MODE_ACTIVE }

/-- The device data of the chip of `sixteen_touch_object_table` in active mode:
the touch object has the report IDs 2 to 17. -/
def sixteen_touch_data : mxt_data :=
  { object_table :=
      [{ type := 5, start_address := 0x100, size := 9, instances := 1 },
       { type := 6, start_address := 0x110, size := 6, instances := 1, num_report_ids := 1,
         min_reportid := 1, max_reportid := 1 },
       { type := 9, start_address := 0x200, size := 35, instances := 1, num_report_ids := 16,
         min_reportid := 2, max_reportid := 17 }]
    info := { object_num := 3 }
    max_reportid := 17
    mxt_power_mode := MXT_POWER_MODE_ACTIVE }

end mxt

namespace pn544

/-! ### Storage lemmas -/

theorem getElem?_memcpy (mem src : List Nat) (off i : Nat) (h : off + src.length ≤ mem.length) :
    (memcpy mem off src)[i]? =
      if i < off then mem[i]? else if i < off + src.length then src[i - off]? else mem[i]? := by
  unfold memcpy
  simp only [List.getElem?_append, List.getElem?_take, List.getElem?_drop, List.length_append,
    List.length_take]
  have hmin : min off mem.length = off := by omega
  rw [hmin]
  split_ifs <;> first | rfl | omega | (congr 1; omega)

theorem length_memcpy (mem src : List Nat) (off : Nat) (h : off + src.length ≤ mem.length) :
    (memcpy mem off src).length = mem.length := by
  unfold memcpy
  simp only [List.length_append, List.length_take, List.length_drop]
  omega

/-! ### The fill cases -/

theorem fill_full (B : List Nat) (L w : Nat) (buf : List Nat) :
    circular_buffer_fill ⟨B, L, some w, w⟩ buf = (⟨B, L, some w, w⟩, -EAGAIN) := by
  simp [circular_buffer_fill]

theorem fill_empty_ok (B : List Nat) (L w : Nat) (buf : List Nat) (h : buf.length ≤ L) :
    circular_buffer_fill ⟨B, L, none, w⟩ buf =
      (⟨memcpy B 0 buf, L, some 0, if L = buf.length then 0 else buf.length⟩,
        (buf.length : Int)) := by
  simp [circular_buffer_fill, h]

theorem fill_empty_fail (B : List Nat) (L w : Nat) (buf : List Nat) (h : L < buf.length) :
    circular_buffer_fill ⟨B, L, none, w⟩ buf = (⟨B, L, none, w⟩, -ENOMEM) := by
  simp [circular_buffer_fill, h]

theorem fill_ahead_ok (B : List Nat) (L r w : Nat) (buf : List Nat) (hrw : w < r)
    (h : buf.length ≤ r - w) :
    circular_buffer_fill ⟨B, L, some r, w⟩ buf =
      (⟨memcpy B w buf, L, some r, w + buf.length⟩, (buf.length : Int)) := by
  have h1 : r ≠ w := by omega
  simp [circular_buffer_fill, h1, hrw, h]

theorem fill_ahead_fail (B : List Nat) (L r w : Nat) (buf : List Nat) (hrw : w < r)
    (h : r - w < buf.length) :
    circular_buffer_fill ⟨B, L, some r, w⟩ buf = (⟨B, L, some r, w⟩, -ENOMEM) := by
  have h1 : r ≠ w := by omega
  simp [circular_buffer_fill, h1, hrw, h]

theorem fill_behind_wrap (B : List Nat) (L r w : Nat) (buf : List Nat) (hrw : r < w)
    (hw : w < L) (h : buf.length ≤ r + L - w) (hwrap : L - w ≤ buf.length) :
    circular_buffer_fill ⟨B, L, some r, w⟩ buf =
      (⟨memcpy (memcpy B w (buf.take (L - w))) 0 (buf.drop (L - w)), L, some r,
          buf.length - (L - w)⟩, (buf.length : Int)) := by
  have h1 : r ≠ w := by omega
  have h2 : ¬ w < r := by omega
  simp [circular_buffer_fill, h1, h2, h, hwrap, hw]

theorem fill_behind_flat (B : List Nat) (L r w : Nat) (buf : List Nat) (hrw : r < w)
    (h : buf.length ≤ r + L - w) (hwrap : buf.length < L - w) :
    circular_buffer_fill ⟨B, L, some r, w⟩ buf =
      (⟨memcpy B w buf, L, some r, w + buf.length⟩, (buf.length : Int)) := by
  have h1 : r ≠ w := by omega
  have h2 : ¬ w < r := by omega
  have h3 : ¬ (L - w > 0 ∧ L - w ≤ buf.length) := by omega
  simp only [circular_buffer_fill, Option.some.injEq, h1, if_false, gt_iff_lt, h2, ge_iff_le, h,
    if_true, h3]

theorem fill_behind_fail (B : List Nat) (L r w : Nat) (buf : List Nat) (hrw : r < w)
    (h : r + L - w < buf.length) :
    circular_buffer_fill ⟨B, L, some r, w⟩ buf = (⟨B, L, some r, w⟩, -ENOMEM) := by
  have h1 : r ≠ w := by omega
  have h2 : ¬ w < r := by omega
  simp [circular_buffer_fill, h1, h2, h]

/-! ### The stored bytes, index by index -/

theorem count_le (c : circular_buffer) (hwf : c.wf) : c.count ≤ c.buf_len := by
  obtain ⟨B, L, rd, w⟩ := c
  obtain ⟨hlen, hcur⟩ := hwf
  cases rd with
  | none => simp [circular_buffer.count]
  | some r =>
    simp only [circular_buffer.count] at hcur ⊢
    split_ifs <;> omega

theorem getElem?_contents (B : List Nat) (r w i : Nat) (hr : r < B.length) (hw : w < B.length) :
    (circular_buffer.contents ⟨B, B.length, some r, w⟩)[i]? =
      if i < circular_buffer.count ⟨B, B.length, some r, w⟩ then
        (if r + i < B.length then B[r + i]? else B[r + i - B.length]?)
      else none := by
  have hc : circular_buffer.count ⟨B, B.length, some r, w⟩ ≤ B.length :=
    count_le ⟨B, B.length, some r, w⟩ ⟨rfl, hr, hw⟩
  simp only [circular_buffer.contents, List.getElem?_take, List.getElem?_append,
    List.getElem?_drop, List.length_drop]
  split_ifs <;> first | rfl | omega | (congr 1; omega)

theorem length_contents (c : circular_buffer) (hwf : c.wf) : c.contents.length = c.count := by
  obtain ⟨B, L, rd, w⟩ := c
  obtain ⟨hlen, hcur⟩ := hwf
  simp only at hlen hcur
  subst hlen
  cases rd with
  | none => simp [circular_buffer.count, circular_buffer.contents]
  | some r =>
    have hc := count_le ⟨B, B.length, some r, w⟩ ⟨rfl, hcur⟩
    simp only [circular_buffer.contents, List.length_take, List.length_append, List.length_drop]
    simp only at hc
    omega

/-- State of the buffer after a fill that found it empty. -/
theorem fill_spec_empty (B buf : List Nat) (h1 : buf.length ≤ B.length) (hn : 1 ≤ buf.length) :
    circular_buffer.wf ⟨memcpy B 0 buf, B.length, some 0,
        if B.length = buf.length then 0 else buf.length⟩ ∧
      circular_buffer.contents ⟨memcpy B 0 buf, B.length, some 0,
        if B.length = buf.length then 0 else buf.length⟩ = buf := by
  have hm : (memcpy B 0 buf).length = B.length := length_memcpy B buf 0 (by omega)
  have hw : (if B.length = buf.length then 0 else buf.length) < B.length := by
    split_ifs <;> omega
  refine ⟨⟨hm, by simp only; omega, hw⟩, ?_⟩
  apply List.ext_getElem?
  intro i
  have key := getElem?_contents (memcpy B 0 buf) 0
    (if B.length = buf.length then 0 else buf.length) i (by omega) (by omega)
  rw [hm] at key
  rw [key]
  simp only [circular_buffer.count, getElem?_memcpy B buf 0 _ (by omega : 0 + buf.length ≤ B.length)]
  split_ifs <;> first | rfl | omega | (congr 1; omega) | (rw [List.getElem?_eq_none (by omega)])

/-- State of the buffer after a fill written in one piece at the write cursor. -/
theorem fill_spec_flat (B buf : List Nat) (r w : Nat) (hr : r < B.length) (hw : w < B.length)
    (hne : r ≠ w) (hfit : if w < r then w + buf.length ≤ r else w + buf.length < B.length) :
    circular_buffer.wf ⟨memcpy B w buf, B.length, some r, w + buf.length⟩ ∧
      circular_buffer.contents ⟨memcpy B w buf, B.length, some r, w + buf.length⟩ =
        circular_buffer.contents ⟨B, B.length, some r, w⟩ ++ buf := by
  have hlc := length_contents ⟨B, B.length, some r, w⟩ ⟨rfl, hr, hw⟩
  have hle : w + buf.length ≤ B.length := by split_ifs at hfit <;> omega
  have hm : (memcpy B w buf).length = B.length := length_memcpy B buf w hle
  have hw2 : w + buf.length < B.length := by split_ifs at hfit <;> omega
  refine ⟨⟨hm, hr, hw2⟩, ?_⟩
  apply List.ext_getElem?
  intro i
  have key := getElem?_contents (memcpy B w buf) r (w + buf.length) i (by omega) (by omega)
  rw [hm] at key
  rw [key, List.getElem?_append, hlc, getElem?_contents B r w i hr hw]
  simp only [circular_buffer.count, getElem?_memcpy B buf w _ hle]
  split_ifs at hfit ⊢ <;> first | rfl | omega | (congr 1; omega) |
    (rw [List.getElem?_eq_none (by omega)])

/-- Storage after the two copies of a fill that wraps past the end of storage. -/
theorem getElem?_wrap (B buf : List Nat) (w j : Nat) (hw : w < B.length)
    (hwrap : B.length - w ≤ buf.length) (hfit : buf.length - (B.length - w) ≤ w) :
    (memcpy (memcpy B w (buf.take (B.length - w))) 0 (buf.drop (B.length - w)))[j]? =
      if j < buf.length - (B.length - w) then buf[B.length - w + j]?
      else if j < w then B[j]?
      else if j < B.length then buf[j - w]?
      else none := by
  have hm1 : (memcpy B w (buf.take (B.length - w))).length = B.length :=
    length_memcpy B _ w (by simp only [List.length_take]; omega)
  rw [getElem?_memcpy (memcpy B w (buf.take (B.length - w))) (buf.drop (B.length - w)) 0 j
      (by simp only [List.length_drop]; omega),
    getElem?_memcpy B (buf.take (B.length - w)) w j (by simp only [List.length_take]; omega)]
  simp only [List.length_take, List.length_drop, List.getElem?_take, List.getElem?_drop]
  split_ifs <;> first | rfl | omega | (rw [List.getElem?_eq_none (by omega)])

theorem length_wrap (B buf : List Nat) (w : Nat) (hw : w < B.length)
    (hwrap : B.length - w ≤ buf.length) (hfit : buf.length - (B.length - w) ≤ w) :
    (memcpy (memcpy B w (buf.take (B.length - w))) 0 (buf.drop (B.length - w))).length =
      B.length := by
  have hm1 : (memcpy B w (buf.take (B.length - w))).length = B.length :=
    length_memcpy B _ w (by simp only [List.length_take]; omega)
  rw [length_memcpy _ _ 0 (by simp only [List.length_drop]; omega), hm1]

/-- State of the buffer after a fill written in two pieces. -/
theorem fill_spec_wrap (B buf : List Nat) (r w : Nat) (hr : r < B.length) (hw : w < B.length)
    (hrw : r < w) (hfree : buf.length ≤ r + B.length - w) (hwrap : B.length - w ≤ buf.length) :
    circular_buffer.wf ⟨memcpy (memcpy B w (buf.take (B.length - w))) 0
          (buf.drop (B.length - w)), B.length, some r, buf.length - (B.length - w)⟩ ∧
      circular_buffer.contents ⟨memcpy (memcpy B w (buf.take (B.length - w))) 0
          (buf.drop (B.length - w)), B.length, some r, buf.length - (B.length - w)⟩ =
        circular_buffer.contents ⟨B, B.length, some r, w⟩ ++ buf := by
  have hlc := length_contents ⟨B, B.length, some r, w⟩ ⟨rfl, hr, hw⟩
  have hm := length_wrap B buf w hw hwrap (by omega)
  refine ⟨⟨hm, hr, by simp only; omega⟩, ?_⟩
  apply List.ext_getElem?
  intro i
  have key := getElem?_contents (memcpy (memcpy B w (buf.take (B.length - w))) 0
      (buf.drop (B.length - w))) r (buf.length - (B.length - w)) i (by omega) (by omega)
  rw [hm] at key
  rw [key, List.getElem?_append, hlc, getElem?_contents B r w i hr hw]
  simp only [circular_buffer.count, getElem?_wrap B buf w _ hw hwrap (by omega)]
  split_ifs <;> first | rfl | omega | (congr 1; omega) |
    (rw [List.getElem?_eq_none (by omega)])

theorem fill_spec (c : circular_buffer) (buf : List Nat) (hwf : c.wf) (hn : 1 ≤ buf.length)
    (hok : 0 ≤ (circular_buffer_fill c buf).2) :
    (circular_buffer_fill c buf).1.wf ∧
      (circular_buffer_fill c buf).1.contents = c.contents ++ buf := by
  obtain ⟨B, L, rd, w⟩ := c
  obtain ⟨hlen, hcur⟩ := hwf
  simp only at hlen hcur
  subst hlen
  cases rd with
  | none =>
    simp only at hcur
    subst hcur
    by_cases h1 : buf.length ≤ B.length
    · rw [fill_empty_ok B _ 0 buf h1]
      exact fill_spec_empty B buf h1 hn
    · exfalso
      rw [fill_empty_fail B _ 0 buf (by omega)] at hok
      simp [ENOMEM] at hok
  | some r =>
    obtain ⟨hr, hw⟩ := hcur
    change r < B.length at hr
    change w < B.length at hw
    rcases Nat.lt_trichotomy r w with hrw | hrw | hrw
    · by_cases hfree : buf.length ≤ r + B.length - w
      · by_cases hwrap : B.length - w ≤ buf.length
        · rw [fill_behind_wrap B _ r w buf hrw hw hfree hwrap]
          exact fill_spec_wrap B buf r w hr hw hrw hfree hwrap
        · rw [fill_behind_flat B _ r w buf hrw hfree (by omega)]
          exact fill_spec_flat B buf r w hr hw (by omega) (by rw [if_neg (by omega)]; omega)
      · exfalso
        rw [fill_behind_fail B _ r w buf hrw (by omega)] at hok
        simp [ENOMEM] at hok
    · subst hrw
      exfalso
      rw [fill_full] at hok
      simp [EAGAIN] at hok
    · by_cases hfree : buf.length ≤ r - w
      · rw [fill_ahead_ok B _ r w buf hrw hfree]
        exact fill_spec_flat B buf r w hr hw (by omega) (by rw [if_pos hrw]; omega)
      · exfalso
        rw [fill_ahead_fail B _ r w buf hrw (by omega)] at hok
        simp [ENOMEM] at hok

/-! ### The drain cases -/

theorem drain_empty (B : List Nat) (L w n : Nat) :
    circular_buffer_drain ⟨B, L, none, w⟩ n = (⟨B, L, none, w⟩, -ENOMEM, []) := rfl

theorem drain_fail (B : List Nat) (L r w n : Nat)
    (h : circular_buffer.count ⟨B, L, some r, w⟩ < n) (hw : w < L) :
    circular_buffer_drain ⟨B, L, some r, w⟩ n = (⟨B, L, some r, w⟩, -ENOMEM, []) := by
  simp only [circular_buffer.count] at h
  simp only [circular_buffer_drain]
  split_ifs at h ⊢ <;> first | rfl | omega

theorem drain_ok (B : List Nat) (r w n : Nat) (hr : r < B.length) (hw : w < B.length)
    (hn : 1 ≤ n) (h : n ≤ circular_buffer.count ⟨B, B.length, some r, w⟩) :
    circular_buffer_drain ⟨B, B.length, some r, w⟩ n =
      (if circular_buffer.count ⟨B, B.length, some r, w⟩ = n then ⟨B, B.length, none, 0⟩
        else ⟨B, B.length, some (if r + n < B.length then r + n else r + n - B.length), w⟩,
       (n : Int), (B.drop r ++ B).take n) := by
  simp only [circular_buffer.count] at h ⊢
  simp only [circular_buffer_drain]
  have e1 : n ≤ B.length - r → (B.drop r).take n = (B.drop r ++ B).take n := by
    intro hle
    rw [List.take_append_of_le_length (by simp only [List.length_drop]; omega)]
  have e2 : B.length - r < n →
      (B.drop r).take (B.length - r) ++ B.take (n - (B.length - r)) = (B.drop r ++ B).take n := by
    intro hlt
    apply List.ext_getElem?
    intro i
    simp only [List.getElem?_append, List.getElem?_take, List.getElem?_drop, List.length_take,
      List.length_drop]
    split_ifs <;> first | rfl | omega | (congr 1; omega)
  split_ifs at h ⊢ <;> first
    | omega
    | (rw [e1 (by omega)]; done)
    | (rw [e2 (by omega)]; done)
    | (rw [e1 (by omega)]
       simp only [Prod.mk.injEq, circular_buffer.mk.injEq, Option.some.injEq, and_true, true_and]
       omega)
    | (rw [e2 (by omega)]
       simp only [Prod.mk.injEq, circular_buffer.mk.injEq, Option.some.injEq, and_true, true_and]
       omega)

/-- A successful drain of at least one byte keeps the cursor ranges and hands
out the oldest stored bytes, leaving the rest stored. -/
theorem drain_spec (c : circular_buffer) (n : Nat) (hwf : c.wf) (hn : 1 ≤ n)
    (hok : 0 ≤ (circular_buffer_drain c n).2.1) :
    (circular_buffer_drain c n).1.wf ∧
      c.contents = (circular_buffer_drain c n).2.2 ++ (circular_buffer_drain c n).1.contents := by
  obtain ⟨B, L, rd, w⟩ := c
  obtain ⟨hlen, hcur⟩ := hwf
  simp only at hlen hcur
  subst hlen
  cases rd with
  | none =>
    exfalso
    rw [drain_empty] at hok
    simp [ENOMEM] at hok
  | some r =>
    obtain ⟨hr, hw⟩ := hcur
    change r < B.length at hr
    change w < B.length at hw
    by_cases hle : n ≤ circular_buffer.count ⟨B, B.length, some r, w⟩
    · rw [drain_ok B r w n hr hw hn hle]
      by_cases hall : circular_buffer.count ⟨B, B.length, some r, w⟩ = n
      · rw [if_pos hall]
        refine ⟨⟨rfl, rfl⟩, ?_⟩
        simp only [circular_buffer.contents, List.append_nil, hall]
      · rw [if_neg hall]
        have hc := count_le ⟨B, B.length, some r, w⟩ ⟨rfl, hr, hw⟩
        simp only at hc
        have hr2 : (if r + n < B.length then r + n else r + n - B.length) < B.length := by
          split_ifs <;> omega
        refine ⟨⟨rfl, hr2, hw⟩, ?_⟩
        apply List.ext_getElem?
        intro i
        rw [getElem?_contents B r w i hr hw, List.getElem?_append,
          getElem?_contents B _ w (i - _) hr2 hw]
        simp only [circular_buffer.count] at hle hall hc ⊢
        simp only [List.getElem?_append, List.getElem?_take, List.getElem?_drop,
          List.length_take, List.length_append, List.length_drop]
        split_ifs at hle hall hc ⊢ <;> first | rfl | omega | (congr 1; omega)
    · exfalso
      rw [drain_fail B _ r w n (by omega) hw] at hok
      simp [ENOMEM] at hok

/-- Running a sequence of calls that all succeed with sizes of at least one
byte: what was stored plus what the fills handed in is what the drains handed
out plus what is still stored. -/
theorem exec_spec (ops : List Op) : ∀ (c : circular_buffer), c.wf →
    (∀ op ∈ ops, 1 ≤ op.size) → (∀ rc ∈ (exec c ops).2.1, 0 ≤ rc) →
    (exec c ops).1.wf ∧
      c.contents ++ filled ops = (exec c ops).2.2 ++ (exec c ops).1.contents := by
  induction ops with
  | nil =>
    intro c hwf _ _
    exact ⟨hwf, by simp [exec, filled]⟩
  | cons op ops ih =>
    intro c hwf hsize hok
    have hsz : 1 ≤ op.size := hsize op (List.mem_cons_self _ _)
    have hsize2 : ∀ o ∈ ops, 1 ≤ o.size := fun o ho => hsize o (List.mem_cons_of_mem _ ho)
    cases op with
    | fill buf =>
      simp only [exec, List.mem_cons, forall_eq_or_imp] at hok ⊢
      obtain ⟨h0, hrest⟩ := hok
      obtain ⟨hwf1, hc1⟩ := fill_spec c buf hwf hsz h0
      obtain ⟨hwf2, hc2⟩ := ih _ hwf1 hsize2 hrest
      refine ⟨hwf2, ?_⟩
      rw [← hc2, hc1, filled, List.append_assoc]
    | drain n =>
      simp only [exec, List.mem_cons, forall_eq_or_imp] at hok ⊢
      obtain ⟨h0, hrest⟩ := hok
      obtain ⟨hwf1, hc1⟩ := drain_spec c n hwf hsz h0
      obtain ⟨hwf2, hc2⟩ := ih _ hwf1 hsize2 hrest
      refine ⟨hwf2, ?_⟩
      rw [List.append_assoc, ← hc2, filled, hc1, List.append_assoc]

theorem count_pos (B : List Nat) (r w : Nat) (hr : r < B.length) :
    1 ≤ circular_buffer.count ⟨B, B.length, some r, w⟩ := by
  simp only [circular_buffer.count]
  split_ifs <;> omega

/-- Draining everything a non-empty buffer holds hands out its stored bytes and
leaves the state that `circular_buffer_flush` produces. -/
theorem drain_all (d : circular_buffer) (hwf : d.wf) (hne : d.read ≠ none) :
    circular_buffer_drain d d.count = (circular_buffer_flush d, (d.count : Int), d.contents) := by
  obtain ⟨B, L, rd, w⟩ := d
  obtain ⟨hlen, hcur⟩ := hwf
  simp only at hlen hcur
  subst hlen
  cases rd with
  | none => exact absurd rfl hne
  | some r =>
    obtain ⟨hr, hw⟩ := hcur
    change r < B.length at hr
    change w < B.length at hw
    rw [drain_ok B r w _ hr hw (count_pos B r w hr) le_rfl, if_pos rfl]
    rfl

/-! ### The CRC register -/

theorem crc_ccitt_bit_lt (x : Nat) (h : x < 65536) : crc_ccitt_bit x < 65536 := by
  unfold crc_ccitt_bit
  split_ifs
  · exact Nat.xor_lt_two_pow (n := 16) (by omega) (by norm_num)
  · omega

theorem crc_ccitt_bit_inj (x y : Nat) (hx : x < 65536) (hy : y < 65536)
    (h : crc_ccitt_bit x = crc_ccitt_bit y) : x = y := by
  have top : ∀ a : Nat, a < 32768 → (a ^^^ 0x8408).testBit 15 = true := by
    intro a ha
    rw [Nat.testBit_xor, Nat.testBit_lt_two_pow (i := 15) (by omega)]
    decide
  have low : ∀ a : Nat, a < 32768 → a.testBit 15 = false := fun a ha =>
    Nat.testBit_lt_two_pow (i := 15) (by omega)
  unfold crc_ccitt_bit at h
  split_ifs at h with h1 h2 h2
  · have := Nat.xor_left_injective h
    simp only at this
    omega
  · have t1 := top (x / 2) (by omega)
    have t2 := low (y / 2) (by omega)
    rw [h, t2] at t1
    exact absurd t1 (by decide)
  · have t1 := top (y / 2) (by omega)
    have t2 := low (x / 2) (by omega)
    rw [← h, t2] at t1
    exact absurd t1 (by decide)
  · omega

theorem crc_ccitt_bit_iter_lt (k x : Nat) (h : x < 65536) : crc_ccitt_bit^[k] x < 65536 := by
  induction k generalizing x with
  | zero => exact h
  | succ k ih =>
    rw [Function.iterate_succ_apply]
    exact ih _ (crc_ccitt_bit_lt x h)

theorem crc_ccitt_bit_iter_inj (k x y : Nat) (hx : x < 65536) (hy : y < 65536)
    (h : crc_ccitt_bit^[k] x = crc_ccitt_bit^[k] y) : x = y := by
  induction k generalizing x y with
  | zero => exact h
  | succ k ih =>
    rw [Function.iterate_succ_apply, Function.iterate_succ_apply] at h
    exact crc_ccitt_bit_inj x y hx hy
      (ih _ _ (crc_ccitt_bit_lt x hx) (crc_ccitt_bit_lt y hy) h)

theorem fold_lt (s c : Nat) (hs : s < 65536) : s ^^^ (c % 256) < 65536 :=
  Nat.xor_lt_two_pow (n := 16) (by omega) (by omega)

theorem crc_ccitt_byte_lt (s c : Nat) (hs : s < 65536) : crc_ccitt_byte s c < 65536 :=
  crc_ccitt_bit_iter_lt 8 _ (fold_lt s c hs)

theorem crc_ccitt_lt (l : List Nat) : ∀ s : Nat, s < 65536 → crc_ccitt s l < 65536 := by
  induction l with
  | nil => exact fun s hs => hs
  | cons a t ih => exact fun s hs => ih _ (crc_ccitt_byte_lt s a hs)

/-- Two different register values stay different after the same bytes. -/
theorem crc_ccitt_ne_of_state (l : List Nat) : ∀ s t : Nat, s < 65536 → t < 65536 → s ≠ t →
    crc_ccitt s l ≠ crc_ccitt t l := by
  induction l with
  | nil => exact fun s t _ _ h => h
  | cons a l ih =>
    intro s t hs ht hne
    refine ih _ _ (crc_ccitt_byte_lt s a hs) (crc_ccitt_byte_lt t a ht) ?_
    intro h
    have h2 := crc_ccitt_bit_iter_inj 8 _ _ (fold_lt s a hs) (fold_lt t a ht) h
    exact hne (Nat.xor_left_injective h2)

/-- Replacing one byte by a different byte changes the CRC. -/
theorem crc_ccitt_ne_of_set (l : List Nat) : ∀ (s i v : Nat), s < 65536 → i < l.length →
    v % 256 ≠ l.getD i 0 % 256 → crc_ccitt s (l.set i v) ≠ crc_ccitt s l := by
  induction l with
  | nil => exact fun s i v _ hi _ => absurd hi (by simp)
  | cons a l ih =>
    intro s i v hs hi hv
    cases i with
    | zero =>
      simp only [List.set_cons_zero, List.getD_cons_zero] at hv ⊢
      refine crc_ccitt_ne_of_state l _ _ (crc_ccitt_byte_lt s v hs) (crc_ccitt_byte_lt s a hs) ?_
      intro h
      have h2 := crc_ccitt_bit_iter_inj 8 _ _ (fold_lt s v hs) (fold_lt s a hs) h
      exact hv (Nat.xor_right_injective h2)
    | succ i =>
      simp only [List.set_cons_succ, List.getD_cons_succ, List.length_cons] at hv hi ⊢
      exact ih _ i v (crc_ccitt_byte_lt s a hs) (by omega) hv

/-! ### The frame check -/

theorem complement_lt (x : Nat) (h : x < 65536) : x ^^^ 0xffff < 65536 :=
  Nat.xor_lt_two_pow (n := 16) (by omega) (by norm_num)

/-- When `check_crc` accepts. -/
theorem check_crc_zero_iff (M : Nat) (buf : List Nat) (buflen : Int) :
    check_crc M buf buflen = 0 ↔
      (4 ≤ (buf.getD 0 0 + 1) % 256 ∧ (buf.getD 0 0 + 1) % 256 ≤ M ∧
        (((buf.getD 0 0 + 1) % 256 : Nat) : Int) = buflen ∧
        buf.getD ((buf.getD 0 0 + 1) % 256 - 2) 0 =
          (crc_ccitt 0xffff (buf.take ((buf.getD 0 0 + 1) % 256 - 2)) ^^^ 0xffff) % 256 ∧
        buf.getD ((buf.getD 0 0 + 1) % 256 - 1) 0 =
          (crc_ccitt 0xffff (buf.take ((buf.getD 0 0 + 1) % 256 - 2)) ^^^ 0xffff) / 256) := by
  have hc := complement_lt _ (crc_ccitt_lt (buf.take ((buf.getD 0 0 + 1) % 256 - 2)) 0xffff
    (by norm_num))
  unfold check_crc
  simp only [Nat.mod_eq_of_lt hc]
  have hE : -EPERM ≠ 0 := by decide
  split_ifs with h1 h2
  · simp only [hE, false_iff]
    rintro ⟨a, b, c, -, -⟩
    rcases h1 with h | h | h
    · omega
    · exact h c
    · omega
  · simp only [hE, false_iff]
    rintro ⟨-, -, -, d, e⟩
    rcases h2 with h | h
    · exact h d
    · exact h e
  · simp only [true_iff]
    simp only [not_or, not_lt, not_not, ne_eq, gt_iff_lt] at h1 h2
    exact ⟨h1.1, h1.2.2, h1.2.1, h2.1, h2.2⟩

theorem check_crc_code (M : Nat) (buf : List Nat) (buflen : Int) :
    check_crc M buf buflen = 0 ∨ check_crc M buf buflen = -EPERM := by
  simp only [check_crc]
  split_ifs <;> simp

theorem flip_mod_ne (b k : Nat) (hk : k < 8) : (b ^^^ 2 ^ k) % 256 ≠ b % 256 := by
  intro h
  have h2 : ((b ^^^ 2 ^ k) % 2 ^ 8).testBit k = (b % 2 ^ 8).testBit k := by
    norm_num
    rw [h]
  rw [Nat.testBit_mod_two_pow, Nat.testBit_mod_two_pow, Nat.testBit_xor,
    Nat.testBit_two_pow_self] at h2
  simp [hk] at h2

theorem pair_eq (x y : Nat) (h1 : x % 256 = y % 256) (h2 : x / 256 = y / 256) : x = y := by
  omega

/-! ## Claims about the ring buffer -/

/-- C1: on a freshly initialised or flushed buffer of any capacity, for every
sequence of fill and drain calls that each have a size of at least one byte and
each succeed, the bytes handed out by the drains, concatenated in call order,
are a leading segment of the bytes handed in by the fills, concatenated in call
order. -/
theorem circular_buffer_fifo (c : circular_buffer) (ops : List Op)
    (hfresh : (∃ size, c = circular_buffer_init size) ∨
      (∃ c0 : circular_buffer, c0.buffer.length = c0.buf_len ∧ c = circular_buffer_flush c0))
    (hsize : ∀ op ∈ ops, 1 ≤ op.size)
    (hok : ∀ rc ∈ (exec c ops).2.1, 0 ≤ rc) :
    ∃ rest, (exec c ops).2.2 ++ rest = filled ops := by
  have hwf : c.wf ∧ c.contents = [] := by
    rcases hfresh with ⟨size, rfl⟩ | ⟨c0, h0, rfl⟩
    · exact ⟨⟨by simp [circular_buffer_init], rfl⟩, rfl⟩
    · exact ⟨⟨h0, rfl⟩, rfl⟩
  obtain ⟨_, h⟩ := exec_spec ops c hwf.1 hsize hok
  rw [hwf.2, List.nil_append] at h
  exact ⟨_, h.symm⟩

/-- C1, the scenario of the specification: capacity 8, fill 5 bytes, drain 3,
fill 6 bytes (the copy wraps), drain 8.  All four calls succeed and the drains
hand out the eleven bytes in the order they were handed in. -/
theorem circular_buffer_fifo_witness :
    (∃ rest, (exec (circular_buffer_init 8)
        [.fill [1, 2, 3, 4, 5], .drain 3, .fill [6, 7, 8, 9, 10, 11], .drain 8]).2.2 ++ rest =
      filled [.fill [1, 2, 3, 4, 5], .drain 3, .fill [6, 7, 8, 9, 10, 11], .drain 8]) ∧
    exec (circular_buffer_init 8)
        [.fill [1, 2, 3, 4, 5], .drain 3, .fill [6, 7, 8, 9, 10, 11], .drain 8] =
      (⟨[9, 10, 11, 4, 5, 6, 7, 8], 8, none, 0⟩, [5, 3, 6, 8],
        [1, 2, 3] ++ ([4, 5] ++ [6, 7, 8, 9, 10, 11])) :=
  ⟨circular_buffer_fifo _ _ (Or.inl ⟨8, rfl⟩) (by decide) (by decide), by decide⟩

/-- A buffer of capacity 0, which the driver never allocates (its one buffer has
`PN544_READ_BUF_SIZE` bytes), holds 0 bytes, its whole capacity, with the read
cursor unset: a fill of one byte is answered with the insufficient-space error
and not with the buffer-full error.  The capacity is taken to be at least 1
below. -/
theorem fill_outcome_capacity_zero :
    (circular_buffer_init 0).wf ∧
      (circular_buffer_init 0).count = (circular_buffer_init 0).buf_len ∧
      circular_buffer_fill (circular_buffer_init 0) [7] = (circular_buffer_init 0, -ENOMEM) ∧
      circular_buffer_fill (circular_buffer_init 0) [7] ≠ (circular_buffer_init 0, -EAGAIN) := by
  decide

/-- C2: for a buffer of capacity `c` (at least 1; the response buffer of the
driver has `PN544_READ_BUF_SIZE = 256` bytes throughout) holding `k` bytes and
a chunk of `n >= 1` bytes, the fill fails with `-EAGAIN` when `k = c`, fails
with `-ENOMEM` when `k < c` and `n > c - k`, and otherwise returns `n`; a
failing fill leaves cursors and stored bytes unchanged. -/
theorem fill_outcome (c : circular_buffer) (buf : List Nat) (hwf : c.wf)
    (hcap : 1 ≤ c.buf_len) (hn : 1 ≤ buf.length) :
    (c.count = c.buf_len → circular_buffer_fill c buf = (c, -EAGAIN)) ∧
    (c.count < c.buf_len → c.buf_len - c.count < buf.length →
      circular_buffer_fill c buf = (c, -ENOMEM)) ∧
    (c.count < c.buf_len → buf.length ≤ c.buf_len - c.count →
      (circular_buffer_fill c buf).2 = buf.length) := by
  obtain ⟨B, L, rd, w⟩ := c
  obtain ⟨hlen, hcur⟩ := hwf
  simp only at hlen hcur hcap
  subst hlen
  cases rd with
  | none =>
    simp only at hcur
    subst hcur
    simp only [circular_buffer.count]
    refine ⟨fun h => by omega, fun _ h => fill_empty_fail B _ 0 buf (by omega), fun _ h => ?_⟩
    rw [fill_empty_ok B _ 0 buf (by omega)]
  | some r =>
    obtain ⟨hr, hw⟩ := hcur
    change r < B.length at hr
    change w < B.length at hw
    simp only [circular_buffer.count]
    rcases Nat.lt_trichotomy r w with hrw | hrw | hrw
    · rw [if_pos hrw]
      refine ⟨fun h => by omega, fun _ h => fill_behind_fail B _ r w buf hrw (by omega),
        fun _ h => ?_⟩
      by_cases hwrap : B.length - w ≤ buf.length
      · rw [fill_behind_wrap B _ r w buf hrw hw (by omega) hwrap]
      · rw [fill_behind_flat B _ r w buf hrw (by omega) (by omega)]
    · subst hrw
      rw [if_neg (lt_irrefl r)]
      exact ⟨fun _ => fill_full B _ r buf, fun h => by omega, fun h => by omega⟩
    · rw [if_neg (by omega)]
      refine ⟨fun h => by omega, fun _ h => fill_ahead_fail B _ r w buf hrw (by omega),
        fun _ h => ?_⟩
      rw [fill_ahead_ok B _ r w buf hrw (by omega)]

/-- C2, an instance: capacity 8 holding 3 bytes accepts a chunk of 5
bytes, refuses a chunk of 6 bytes, and once full refuses a chunk of 1 byte. -/
theorem fill_outcome_witness :
    (circular_buffer.wf ⟨[1, 2, 3, 0, 0, 0, 0, 0], 8, some 0, 3⟩ ∧
      circular_buffer.count ⟨[1, 2, 3, 0, 0, 0, 0, 0], 8, some 0, 3⟩ = 3) ∧
    ((circular_buffer.count ⟨[1, 2, 3, 0, 0, 0, 0, 0], 8, some 0, 3⟩ = 8 →
        circular_buffer_fill ⟨[1, 2, 3, 0, 0, 0, 0, 0], 8, some 0, 3⟩ [4, 5, 6, 7, 8] =
          (⟨[1, 2, 3, 0, 0, 0, 0, 0], 8, some 0, 3⟩, -EAGAIN)) ∧
      (circular_buffer.count ⟨[1, 2, 3, 0, 0, 0, 0, 0], 8, some 0, 3⟩ < 8 →
        8 - circular_buffer.count ⟨[1, 2, 3, 0, 0, 0, 0, 0], 8, some 0, 3⟩ < 5 →
        circular_buffer_fill ⟨[1, 2, 3, 0, 0, 0, 0, 0], 8, some 0, 3⟩ [4, 5, 6, 7, 8] =
          (⟨[1, 2, 3, 0, 0, 0, 0, 0], 8, some 0, 3⟩, -ENOMEM)) ∧
      (circular_buffer.count ⟨[1, 2, 3, 0, 0, 0, 0, 0], 8, some 0, 3⟩ < 8 →
        5 ≤ 8 - circular_buffer.count ⟨[1, 2, 3, 0, 0, 0, 0, 0], 8, some 0, 3⟩ →
        (circular_buffer_fill ⟨[1, 2, 3, 0, 0, 0, 0, 0], 8, some 0, 3⟩ [4, 5, 6, 7, 8]).2 = 5)) ∧
    (circular_buffer_fill ⟨[1, 2, 3, 0, 0, 0, 0, 0], 8, some 0, 3⟩ [4, 5, 6, 7, 8] =
        (⟨[1, 2, 3, 4, 5, 6, 7, 8], 8, some 0, 0⟩, 5) ∧
      circular_buffer_fill ⟨[1, 2, 3, 0, 0, 0, 0, 0], 8, some 0, 3⟩ [4, 5, 6, 7, 8, 9] =
        (⟨[1, 2, 3, 0, 0, 0, 0, 0], 8, some 0, 3⟩, -ENOMEM) ∧
      circular_buffer_fill ⟨[1, 2, 3, 4, 5, 6, 7, 8], 8, some 0, 0⟩ [9] =
        (⟨[1, 2, 3, 4, 5, 6, 7, 8], 8, some 0, 0⟩, -EAGAIN)) :=
  ⟨by decide, fill_outcome ⟨[1, 2, 3, 0, 0, 0, 0, 0], 8, some 0, 3⟩ [4, 5, 6, 7, 8]
    (by decide) (by decide) (by decide), by decide⟩

/-- C3: for a buffer holding `k` bytes and a requested size `n >= 1`, the drain
fails (with `-ENOMEM`, handing out nothing and leaving cursors and stored bytes
unchanged) exactly when the read cursor is unset or `n > k`, and returns `n`
otherwise; a buffer whose read cursor equals its write cursor holds the full
capacity, and draining the whole capacity from it succeeds. -/
theorem drain_outcome (c : circular_buffer) (n : Nat) (hwf : c.wf) (hn : 1 ≤ n) :
    ((circular_buffer_drain c n).2.1 < 0 ↔ (c.read = none ∨ c.count < n)) ∧
    ((circular_buffer_drain c n).2.1 < 0 → circular_buffer_drain c n = (c, -ENOMEM, [])) ∧
    (¬ (c.read = none ∨ c.count < n) → (circular_buffer_drain c n).2.1 = n) ∧
    (c.read = some c.write → c.count = c.buf_len ∧
      (circular_buffer_drain c c.buf_len).2.1 = c.buf_len) := by
  obtain ⟨B, L, rd, w⟩ := c
  obtain ⟨hlen, hcur⟩ := hwf
  simp only at hlen hcur
  subst hlen
  cases rd with
  | none =>
    simp [drain_empty, ENOMEM]
  | some r =>
    obtain ⟨hr, hw⟩ := hcur
    change r < B.length at hr
    change w < B.length at hw
    have hfull : r = w → circular_buffer.count ⟨B, B.length, some r, w⟩ = B.length := by
      intro h
      simp only [circular_buffer.count]
      rw [if_neg (by omega)]
      omega
    by_cases hle : n ≤ circular_buffer.count ⟨B, B.length, some r, w⟩
    · rw [drain_ok B r w n hr hw hn hle]
      refine ⟨?_, ?_, ?_, ?_⟩
      · simp only [reduceCtorEq, false_or]
        constructor
        · intro h
          omega
        · intro h
          omega
      · intro h
        simp only at h
        omega
      · intro _
        rfl
      · intro h
        simp only [Option.some.injEq] at h
        refine ⟨hfull h, ?_⟩
        rw [drain_ok B r w B.length hr hw (by omega) (by rw [hfull h])]
    · rw [drain_fail B _ r w n (by omega) hw]
      refine ⟨?_, ?_, ?_, ?_⟩
      · simp only [reduceCtorEq, false_or, ENOMEM]
        constructor
        · intro _
          omega
        · intro _
          decide
      · intro _
        rfl
      · intro h
        simp only [reduceCtorEq, false_or] at h
        omega
      · intro h
        simp only [Option.some.injEq] at h
        refine ⟨hfull h, ?_⟩
        rw [drain_ok B r w B.length hr hw (by omega) (by rw [hfull h])]

/-- C3, an instance: a full buffer of capacity 4 is drained of its 4 bytes. -/
theorem drain_outcome_witness :
    circular_buffer.wf ⟨[1, 2, 3, 4], 4, some 2, 2⟩ ∧
    ((circular_buffer_drain ⟨[1, 2, 3, 4], 4, some 2, 2⟩ 4).2.1 < 0 ↔
        ((some 2 : Option Nat) = none ∨ circular_buffer.count ⟨[1, 2, 3, 4], 4, some 2, 2⟩ < 4)) ∧
    circular_buffer_drain ⟨[1, 2, 3, 4], 4, some 2, 2⟩ 4 =
      (⟨[1, 2, 3, 4], 4, none, 0⟩, 4, [3, 4, 1, 2]) :=
  ⟨by decide, (drain_outcome ⟨[1, 2, 3, 4], 4, some 2, 2⟩ 4 (by decide) (by decide)).1,
    by decide⟩

/-- C4: for `1 <= n <= capacity`, filling `n` bytes into an empty buffer and then
draining `n` bytes returns exactly those bytes and leaves the state that
`circular_buffer_flush` produces (read cursor unset, write cursor at the start
of storage); and every successful drain that removes all stored bytes, a drain
of a full buffer included, ends in that state, in which the read cursor is not
equal to the write cursor. -/
theorem fill_drain_empty (c : circular_buffer) (buf : List Nat) (hwf : c.wf)
    (hempty : c.read = none) (h1 : 1 ≤ buf.length) (h2 : buf.length ≤ c.buf_len) :
    ((circular_buffer_fill c buf).2 = buf.length ∧
      circular_buffer_drain (circular_buffer_fill c buf).1 buf.length =
        (circular_buffer_flush (circular_buffer_fill c buf).1, (buf.length : Int), buf)) ∧
    (∀ (d : circular_buffer) (n : Nat), d.wf → 0 ≤ (circular_buffer_drain d n).2.1 →
      n = d.count →
      (circular_buffer_drain d n).1 = circular_buffer_flush d ∧
        (circular_buffer_drain d n).1.read = none ∧ (circular_buffer_drain d n).1.write = 0 ∧
        (circular_buffer_drain d n).1.read ≠ some (circular_buffer_drain d n).1.write ∧
        (circular_buffer_drain d n).2.2 = d.contents) := by
  constructor
  · obtain ⟨B, L, rd, w⟩ := c
    obtain ⟨hlen, hcur⟩ := hwf
    simp only at hlen hcur hempty h2
    subst hlen hempty
    simp only at hcur
    subst hcur
    rw [fill_empty_ok B _ 0 buf h2]
    refine ⟨rfl, ?_⟩
    obtain ⟨hwf1, hc1⟩ := fill_spec_empty B buf h2 h1
    have hcnt := length_contents _ hwf1
    rw [hc1] at hcnt
    have hall := drain_all _ hwf1 (by simp)
    rw [← hcnt, hc1] at hall
    simp only at hall ⊢
    exact hall
  · intro d n hd hok hn
    subst hn
    have hne : d.read ≠ none := by
      intro h
      obtain ⟨B, L, rd, w⟩ := d
      simp only at h
      subst h
      rw [drain_empty] at hok
      simp [ENOMEM] at hok
    rw [drain_all d hd hne]
    simp [circular_buffer_flush]

/-- C4, an instance: capacity 4, fill 4 bytes (the buffer becomes full, read
cursor equal to write cursor), drain 4 bytes. -/
theorem fill_drain_empty_witness :
    (circular_buffer_fill (circular_buffer_init 4) [5, 6, 7, 8]).1 =
      ⟨[5, 6, 7, 8], 4, some 0, 0⟩ ∧
    circular_buffer_drain (circular_buffer_fill (circular_buffer_init 4) [5, 6, 7, 8]).1 4 =
      (circular_buffer_flush (circular_buffer_fill (circular_buffer_init 4) [5, 6, 7, 8]).1,
        4, [5, 6, 7, 8]) :=
  ⟨by decide, (fill_drain_empty (circular_buffer_init 4) [5, 6, 7, 8] (by decide) rfl
    (by decide) (by decide)).1.2⟩

/-! ## Claims about the frame check -/

/-- C5: for every payload `p` whose frame has a valid shape (total length
`len(p) + 3` between 4 and `PN544_MSG_MAX_SIZE`), the frame
`[len(p) + 2] ++ p ++ [lo, hi]`, with `lo` and `hi` the low and high byte of the
complement of `crc_ccitt(0xFFFF, [len(p) + 2] ++ p)`, is accepted by
`check_crc`.  `PN544_MSG_MAX_SIZE` is any value that the `u8` length it is
compared with can hold. -/
theorem check_crc_encode_frame (msg_max_size : Nat) (p : List Nat)
    (hmax : msg_max_size ≤ 255) (h4 : 4 ≤ p.length + 3) (hM : p.length + 3 ≤ msg_max_size) :
    check_crc msg_max_size (encode_frame p) ((p.length + 3 : Nat) : Int) = 0 := by
  rw [check_crc_zero_iff]
  have h0 : (encode_frame p).getD 0 0 = p.length + 2 := rfl
  have hL : (p.length + 2 + 1) % 256 = p.length + 3 := by omega
  have ht : (encode_frame p).take (p.length + 3 - 2) = (p.length + 2) :: p := by
    unfold encode_frame
    rw [List.take_append_of_le_length (by simp), List.take_of_length_le (by simp)]
  rw [h0, hL, ht]
  refine ⟨h4, hM, rfl, ?_, ?_⟩
  · unfold encode_frame
    rw [List.getD_eq_getElem?_getD, List.getElem?_append_right (by simp)]
    simp
  · unfold encode_frame
    rw [List.getD_eq_getElem?_getD, List.getElem?_append_right (by simp)]
    simp

/-- C5, the frame of the specification: `[0x05, 0xAA, 0xBB, 0xCC, crc_lo, crc_hi]`
is accepted. -/
theorem check_crc_encode_frame_witness :
    encode_frame [0xAA, 0xBB, 0xCC] = [0x05, 0xAA, 0xBB, 0xCC, 0x82, 0x3C] ∧
      check_crc 33 (encode_frame [0xAA, 0xBB, 0xCC]) 6 = 0 :=
  ⟨by decide, check_crc_encode_frame 33 [0xAA, 0xBB, 0xCC] (by decide) (by decide) (by decide)⟩

/-- C6: for every frame accepted by `check_crc`, flipping one bit (`k < 8`) of one
byte after the length byte, that is of a payload byte or of one of the two
trailing CRC bytes, gives a frame of the same length that `check_crc`
rejects with `-EPERM`. -/
theorem check_crc_bit_flip (msg_max_size : Nat) (buf : List Nat) (buflen : Int) (i k : Nat)
    (hlen : (buf.length : Int) = buflen) (hok : check_crc msg_max_size buf buflen = 0)
    (hi1 : 1 ≤ i) (hi2 : i < buf.length) (hk : k < 8) :
    (flip_bit buf i k).length = buf.length ∧
      check_crc msg_max_size (flip_bit buf i k) buflen = -EPERM := by
  refine ⟨by simp [flip_bit], ?_⟩
  obtain ⟨h4, -, hL, hlo, hhi⟩ := (check_crc_zero_iff msg_max_size buf buflen).1 hok
  have h0 : (flip_bit buf i k).getD 0 0 = buf.getD 0 0 := by
    simp only [flip_bit, List.getD_eq_getElem?_getD]
    rw [List.getElem?_set_ne (by omega)]
  have hv : buf.getD i 0 ^^^ 2 ^ k ≠ buf.getD i 0 := fun h =>
    flip_mod_ne (buf.getD i 0) k hk (by rw [h])
  rcases check_crc_code msg_max_size (flip_bit buf i k) buflen with h | h
  · exfalso
    obtain ⟨-, -, -, hlo2, hhi2⟩ := (check_crc_zero_iff msg_max_size (flip_bit buf i k) buflen).1 h
    rw [h0] at hlo2 hhi2
    generalize hLdef : (buf.getD 0 0 + 1) % 256 = L at h4 hL hlo hhi hlo2 hhi2
    have hLlen : L = buf.length := by omega
    have htake : (flip_bit buf i k).take (L - 2) =
        (buf.take (L - 2)).set i (buf.getD i 0 ^^^ 2 ^ k) := by
      simp only [flip_bit, List.set_take]
    rw [htake] at hlo2 hhi2
    by_cases hpay : i < L - 2
    · -- a payload byte
      have g1 : (flip_bit buf i k).getD (L - 2) 0 = buf.getD (L - 2) 0 := by
        simp only [flip_bit, List.getD_eq_getElem?_getD]
        rw [List.getElem?_set_ne (by omega)]
      have g2 : (flip_bit buf i k).getD (L - 1) 0 = buf.getD (L - 1) 0 := by
        simp only [flip_bit, List.getD_eq_getElem?_getD]
        rw [List.getElem?_set_ne (by omega)]
      rw [g1, hlo] at hlo2
      rw [g2, hhi] at hhi2
      have hx := Nat.xor_left_injective (pair_eq _ _ hlo2 hhi2)
      have hgi : (buf.take (L - 2)).getD i 0 = buf.getD i 0 := by
        simp only [List.getD_eq_getElem?_getD, List.getElem?_take, hpay, if_true]
      refine crc_ccitt_ne_of_set (buf.take (L - 2)) 0xffff i (buf.getD i 0 ^^^ 2 ^ k)
        (by norm_num) (by simp only [List.length_take]; omega) ?_ hx.symm
      rw [hgi]
      exact flip_mod_ne _ k hk
    · -- one of the two CRC bytes
      have hset : (buf.take (L - 2)).set i (buf.getD i 0 ^^^ 2 ^ k) = buf.take (L - 2) :=
        List.set_eq_of_length_le (by simp only [List.length_take]; omega)
      rw [hset] at hlo2 hhi2
      have gi : (flip_bit buf i k).getD i 0 = buf.getD i 0 ^^^ 2 ^ k := by
        simp only [flip_bit, List.getD_eq_getElem?_getD]
        rw [List.getElem?_set_self hi2]
        rfl
      rcases (by omega : i = L - 2 ∨ i = L - 1) with hi | hi
      · rw [← hi] at hlo hlo2
        rw [gi, ← hlo] at hlo2
        exact hv hlo2
      · rw [← hi] at hhi hhi2
        rw [gi, ← hhi] at hhi2
        exact hv hhi2
  · exact h

/-- C6, the frame of the specification with the lowest bit of `crc_lo` flipped. -/
theorem check_crc_bit_flip_witness :
    flip_bit [0x05, 0xAA, 0xBB, 0xCC, 0x82, 0x3C] 4 0 = [0x05, 0xAA, 0xBB, 0xCC, 0x83, 0x3C] ∧
      check_crc 33 [0x05, 0xAA, 0xBB, 0xCC, 0x82, 0x3C] 6 = 0 ∧
      check_crc 33 (flip_bit [0x05, 0xAA, 0xBB, 0xCC, 0x82, 0x3C] 4 0) 6 = -EPERM :=
  ⟨by decide, by decide,
    (check_crc_bit_flip 33 [0x05, 0xAA, 0xBB, 0xCC, 0x82, 0x3C] 6 4 0 (by decide) (by decide)
      (by decide) (by decide) (by decide)).2⟩

/-- C7: `check_crc(buf, buflen)` returns 0 exactly when, with
`L = (buf[0] + 1) mod 256`, `4 <= L <= PN544_MSG_MAX_SIZE`, `L = buflen`, and
`buf[L-2]`, `buf[L-1]` are the low and the high byte of the complement of
`crc_ccitt(0xFFFF, buf[0..L-3])`; in every other case it returns `-EPERM`.  A
frame whose length byte is `0xFF` is rejected for every `buflen`. -/
theorem check_crc_characterisation (msg_max_size : Nat) (buf : List Nat) (buflen : Int) :
    (check_crc msg_max_size buf buflen = 0 ↔
      (4 ≤ (buf.getD 0 0 + 1) % 256 ∧ (buf.getD 0 0 + 1) % 256 ≤ msg_max_size ∧
        (((buf.getD 0 0 + 1) % 256 : Nat) : Int) = buflen ∧
        buf.getD ((buf.getD 0 0 + 1) % 256 - 2) 0 =
          (crc_ccitt 0xffff (buf.take ((buf.getD 0 0 + 1) % 256 - 2)) ^^^ 0xffff) % 256 ∧
        buf.getD ((buf.getD 0 0 + 1) % 256 - 1) 0 =
          (crc_ccitt 0xffff (buf.take ((buf.getD 0 0 + 1) % 256 - 2)) ^^^ 0xffff) / 256)) ∧
    (check_crc msg_max_size buf buflen ≠ 0 → check_crc msg_max_size buf buflen = -EPERM) ∧
    (buf.getD 0 0 = 0xFF → check_crc msg_max_size buf buflen = -EPERM) := by
  refine ⟨check_crc_zero_iff msg_max_size buf buflen, ?_, ?_⟩
  · intro h
    rcases check_crc_code msg_max_size buf buflen with h2 | h2
    · exact absurd h2 h
    · exact h2
  · intro h
    rcases check_crc_code msg_max_size buf buflen with h2 | h2
    · obtain ⟨h4, -⟩ := (check_crc_zero_iff msg_max_size buf buflen).1 h2
      rw [h] at h4
      exact absurd h4 (by decide)
    · exact h2

end pn544

namespace mxt

/-! ## Claims about the finger tracker and the direction mapping -/

theorem nibble_of_byte (m : Nat) (hm : m < 256) : (m >>> 4) &&& 0xf = m >>> 4 := by
  have h := Nat.and_pow_two_sub_one_eq_mod (m >>> 4) 4
  have h2 : m >>> 4 = m / 16 := Nat.shiftRight_eq_div_pow m 4
  norm_num at h
  rw [h, h2]
  omega

set_option maxRecDepth 100000 in
theorem gesture_dir_eq_table_zero : ∀ d : Nat, d < 256 →
    mxt_gesture_get_dir 0 d = direction_table d := by
  decide

theorem gesture_dir_eq_table (orient d : Nat) (hd : d < 256) :
    mxt_gesture_get_dir orient d = direction_table d :=
  gesture_dir_eq_table_zero d hd

theorem lor_eq_zero (x y : Nat) : x ||| y = 0 ↔ x = 0 ∧ y = 0 := by
  constructor
  · intro h
    have hb : ∀ i, (x.testBit i || y.testBit i) = false := by
      intro i
      rw [← Nat.testBit_or, h, Nat.zero_testBit]
    constructor
    · apply Nat.eq_of_testBit_eq
      intro i
      have := hb i
      rw [Nat.zero_testBit]
      cases hx : x.testBit i
      · rfl
      · rw [hx] at this
        simp at this
    · apply Nat.eq_of_testBit_eq
      intro i
      have := hb i
      rw [Nat.zero_testBit]
      cases hy : y.testBit i
      · rfl
      · rw [hy] at this
        simp at this
  · rintro ⟨rfl, rfl⟩
    rfl

/-- C8: `mxt_process_touchevent` on slot `id` with the device active, status byte
`s` and payload bytes `m1 .. m5`.  If DETECT is clear and RELEASE is set the
slot's status becomes Released and its other fields are unchanged.  If DETECT
is set and PRESS or MOVE is set the slot's status becomes Moving when MOVE is
set and Pressed otherwise, with `x = (m1 << 4) | (m3 >> 4)` and
`y = (m2 << 4) | (m3 & 0xF)`, each shifted right by 2 when the axis maximum is
at most 1024, `area = m4`, `pressure = m5`.  For every other status byte
nothing changes.  In every case no other slot and no other field of the driver
data changes. -/
theorem process_touchevent_spec (data : mxt_data) (rid id s m1 m2 m3 m4 m5 m6 : Nat)
    (hactive : data.mxt_power_mode = MXT_POWER_MODE_ACTIVE) (hid : id < data.finger.length)
    (h3 : m3 < 256) :
    (s &&& MXT_TOUCH_STATUS_DETECT = 0 → s &&& MXT_TOUCH_STATUS_RELEASE ≠ 0 →
      (mxt_process_touchevent data ⟨rid, [s, m1, m2, m3, m4, m5, m6]⟩ id).finger[id]? =
        some { data.finger.getD id {} with status := MXT_TOUCH_STATUS_RELEASE }) ∧
    (s &&& MXT_TOUCH_STATUS_DETECT ≠ 0 →
      (s &&& MXT_TOUCH_STATUS_PRESS ≠ 0 ∨ s &&& MXT_TOUCH_STATUS_MOVE ≠ 0) →
      (mxt_process_touchevent data ⟨rid, [s, m1, m2, m3, m4, m5, m6]⟩ id).finger[id]? =
        some { status := if s &&& MXT_TOUCH_STATUS_MOVE ≠ 0 then MXT_TOUCH_STATUS_MOVE
                         else MXT_TOUCH_STATUS_PRESS
               x := if data.max_x ≤ 1024 then ((m1 <<< 4) ||| (m3 >>> 4)) >>> 2
                    else (m1 <<< 4) ||| (m3 >>> 4)
               y := if data.max_y ≤ 1024 then ((m2 <<< 4) ||| (m3 &&& 0xF)) >>> 2
                    else (m2 <<< 4) ||| (m3 &&& 0xF)
               area := m4
               pressure := m5 }) ∧
    (¬ (s &&& MXT_TOUCH_STATUS_DETECT = 0 ∧ s &&& MXT_TOUCH_STATUS_RELEASE ≠ 0) →
      ¬ (s &&& MXT_TOUCH_STATUS_DETECT ≠ 0 ∧
          (s &&& MXT_TOUCH_STATUS_PRESS ≠ 0 ∨ s &&& MXT_TOUCH_STATUS_MOVE ≠ 0)) →
      mxt_process_touchevent data ⟨rid, [s, m1, m2, m3, m4, m5, m6]⟩ id = data) ∧
    (∀ j : Nat, j ≠ id →
      (mxt_process_touchevent data ⟨rid, [s, m1, m2, m3, m4, m5, m6]⟩ id).finger[j]? =
        data.finger[j]?) ∧
    { mxt_process_touchevent data ⟨rid, [s, m1, m2, m3, m4, m5, m6]⟩ id with
        finger := data.finger } = data := by
  have hpm : (s &&& (MXT_TOUCH_STATUS_PRESS ||| MXT_TOUCH_STATUS_MOVE) = 0) ↔
      (s &&& MXT_TOUCH_STATUS_PRESS = 0 ∧ s &&& MXT_TOUCH_STATUS_MOVE = 0) := by
    rw [Nat.and_or_distrib_left, lor_eq_zero]
  have hpow : ¬ data.mxt_power_mode = MXT_POWER_MODE_DEEP_SLEEP := by
    rw [hactive]
    decide
  have hn := nibble_of_byte m3 h3
  simp only [mxt_process_touchevent, hpow, if_false, List.getD_cons_zero, List.getD_cons_succ, hn]
  refine ⟨?_, ?_, ?_, ?_, ?_⟩
  · intro h1 h2
    rw [if_pos h1, if_pos h2]
    simp only [List.getElem?_set_self hid]
  · intro h1 h2
    have h2' : ¬ (s &&& (MXT_TOUCH_STATUS_PRESS ||| MXT_TOUCH_STATUS_MOVE) = 0) := by
      rw [hpm]
      tauto
    rw [if_neg h1, if_neg h2']
    simp only [List.getElem?_set_self hid]
  · intro h1 h2
    by_cases hd : s &&& MXT_TOUCH_STATUS_DETECT = 0
    · rw [if_pos hd, if_neg (by tauto)]
    · have h2' : s &&& (MXT_TOUCH_STATUS_PRESS ||| MXT_TOUCH_STATUS_MOVE) = 0 := by
        rw [hpm]
        tauto
      rw [if_neg hd, if_pos h2']
  · intro j hj
    split_ifs <;> first | rfl | (simp only [List.getElem?_set_ne (Ne.symm hj)])
  · split_ifs <;> rfl

/-- C8, the scenario of the specification: touch object with report IDs 5..14,
a message with report ID 7 (slot `7 - 5 = 2`) and status `DETECT | PRESS` moves
slot 2 from idle to Pressed with the decoded coordinates. -/
theorem process_touchevent_spec_witness :
    (mxt_process_touchevent { mxt_power_mode := MXT_POWER_MODE_ACTIVE, max_x := 4096, max_y := 1024 }
        ⟨7, [0xC0, 0x12, 0x34, 0x56, 9, 8, 0]⟩ (7 - 5)).finger[2]? =
      some { status := MXT_TOUCH_STATUS_PRESS, x := 0x125, y := 0xD1, area := 9, pressure := 8 } :=
  ((process_touchevent_spec { mxt_power_mode := MXT_POWER_MODE_ACTIVE, max_x := 4096, max_y := 1024 }
      7 (7 - 5) 0xC0 0x12 0x34 0x56 9 8 0 rfl (by decide) (by decide)).2.1
    (by decide) (by decide))

/-- C9: for every raw direction byte `d` and every orientation setting,
`mxt_gesture_get_dir` returns the compass code of the table (North and South
swapped unconditionally): `0x14` (E) for `d < 0x10` or `d >= 0xF0`, `0x16` (SE)
for `0x10..0x2F`, `0x18` (S) for `0x30..0x4F`, `0x1A` (SW) for `0x50..0x6F`,
`0x1C` (W) for `0x70..0x8F`, `0x1E` (NW) for `0x90..0xAF`, `0x10` (N) for
`0xB0..0xCF`, `0x12` (NE) for `0xD0..0xEF`; the result does not depend on the
orientation setting. -/
theorem gesture_get_dir_table (orient d : Nat) (hd : d < 256) :
    ((d < 0x10 ∨ 0xF0 ≤ d) → mxt_gesture_get_dir orient d = 0x14) ∧
    (0x10 ≤ d ∧ d ≤ 0x2F → mxt_gesture_get_dir orient d = 0x16) ∧
    (0x30 ≤ d ∧ d ≤ 0x4F → mxt_gesture_get_dir orient d = 0x18) ∧
    (0x50 ≤ d ∧ d ≤ 0x6F → mxt_gesture_get_dir orient d = 0x1A) ∧
    (0x70 ≤ d ∧ d ≤ 0x8F → mxt_gesture_get_dir orient d = 0x1C) ∧
    (0x90 ≤ d ∧ d ≤ 0xAF → mxt_gesture_get_dir orient d = 0x1E) ∧
    (0xB0 ≤ d ∧ d ≤ 0xCF → mxt_gesture_get_dir orient d = 0x10) ∧
    (0xD0 ≤ d ∧ d ≤ 0xEF → mxt_gesture_get_dir orient d = 0x12) ∧
    (∀ orient2 : Nat, mxt_gesture_get_dir orient2 d = mxt_gesture_get_dir orient d) := by
  have key := gesture_dir_eq_table orient d hd
  refine ⟨?_, ?_, ?_, ?_, ?_, ?_, ?_, ?_, ?_⟩
  all_goals first
    | (intro h
       rw [key]
       unfold direction_table
       split_ifs <;> first | rfl | omega)
    | (intro o2
       rw [key, gesture_dir_eq_table o2 d hd])

/-- C9, an instance: the raw byte `0x40` (the chip's North) maps to `0x18`
(South), also under the orientation setting `MXT_Y_INVERT`. -/
theorem gesture_get_dir_table_witness :
    mxt_gesture_get_dir 4 0x40 = 0x18 ∧ mxt_gesture_get_dir 0 0x40 = 0x18 :=
  ⟨(gesture_get_dir_table 4 0x40 (by decide)).2.2.1 (by decide),
    (gesture_get_dir_table 0 0x40 (by decide)).2.2.1 (by decide)⟩

/-! ## Claims about the object table -/

theorem parse_object_fields (buf : List Nat) (reportid : Nat) :
    (mxt_parse_object buf reportid).1.instances = buf.getD 4 0 + 1 ∧
      (mxt_parse_object buf reportid).1.num_report_ids = buf.getD 5 0 := by
  simp only [mxt_parse_object]
  split_ifs <;> exact ⟨rfl, rfl⟩

theorem parse_object_none (buf : List Nat) (reportid : Nat)
    (h : (mxt_parse_object buf reportid).1.num_report_ids = 0) :
    (mxt_parse_object buf reportid).2 = reportid := by
  have hf := (parse_object_fields buf reportid).2
  rw [h] at hf
  simp only [mxt_parse_object, ← hf, ne_eq, not_true_eq_false, if_false]

theorem parse_object_some (buf : List Nat) (reportid : Nat)
    (h : 0 < (mxt_parse_object buf reportid).1.num_report_ids)
    (hfit : reportid + (mxt_parse_object buf reportid).1.instances *
      (mxt_parse_object buf reportid).1.num_report_ids ≤ 255) :
    (mxt_parse_object buf reportid).2 = reportid +
        (mxt_parse_object buf reportid).1.instances *
          (mxt_parse_object buf reportid).1.num_report_ids ∧
      (mxt_parse_object buf reportid).1.max_reportid = (mxt_parse_object buf reportid).2 ∧
      (mxt_parse_object buf reportid).1.min_reportid = reportid + 1 := by
  obtain ⟨hi, hn⟩ := parse_object_fields buf reportid
  rw [hi, hn] at hfit
  rw [hn] at h
  rw [hi, hn]
  have hne : buf.getD 5 0 ≠ 0 := by omega
  have hmod : (reportid + buf.getD 5 0 * (buf.getD 4 0 + 1)) % 256 =
      reportid + (buf.getD 4 0 + 1) * buf.getD 5 0 := by
    rw [Nat.mul_comm (buf.getD 5 0)]
    exact Nat.mod_eq_of_lt (by omega)
  simp only [mxt_parse_object, hne, ne_eq, not_false_eq_true, if_true, hmod]
  refine ⟨trivial, trivial, ?_⟩
  push_cast
  have : ((reportid : Int) + ((buf.getD 4 0 : Int) + 1) * (buf.getD 5 0 : Int) -
      ((buf.getD 4 0 : Int) + 1) * (buf.getD 5 0 : Int) + 1) = ((reportid + 1 : Nat) : Int) := by
    push_cast
    ring
  rw [this, Int.emod_eq_of_lt (by omega) (by omega)]
  rfl

theorem loop_spec (read_object_table : Nat → Except Int (List Nat)) (n : Nat) :
    ∀ (i reportid : Nat) (table : List mxt_object) (r : Nat),
      mxt_get_object_table_loop read_object_table i n reportid = .ok (table, r) →
      reportid + report_id_total table ≤ 255 →
      r = reportid + report_id_total table ∧ chained reportid (reporting table) := by
  induction n with
  | zero =>
    intro i reportid table r h _
    simp only [mxt_get_object_table_loop, Except.ok.injEq, Prod.mk.injEq] at h
    obtain ⟨rfl, rfl⟩ := h
    exact ⟨rfl, trivial⟩
  | succ n ih =>
    intro i reportid table r h hfit
    simp only [mxt_get_object_table_loop] at h
    split at h
    · exact absurd h (by simp)
    · rename_i buf _
      split at h
      · exact absurd h (by simp)
      · rename_i rest hrest
        simp only [Except.ok.injEq, Prod.mk.injEq] at h
        obtain ⟨rfl, rfl⟩ := h
        obtain ⟨t, r⟩ := rest
        simp only [report_id_total, List.map_cons, List.sum_cons] at hfit ⊢
        by_cases hz : (mxt_parse_object buf reportid).1.num_report_ids = 0
        · have h2 := parse_object_none buf reportid hz
          rw [h2] at hrest
          rw [hz, Nat.mul_zero, Nat.zero_add] at hfit
          obtain ⟨hr, hc⟩ := ih _ _ _ _ hrest hfit
          refine ⟨?_, ?_⟩
          · rw [hz, Nat.mul_zero, Nat.zero_add]
            exact hr
          · simp only [reporting, List.filter_cons, hz, lt_irrefl, decide_False, Bool.false_eq_true,
              if_false] at hc ⊢
            exact hc
        · have hpos : 0 < (mxt_parse_object buf reportid).1.num_report_ids := by omega
          obtain ⟨e1, e2, e3⟩ := parse_object_some buf reportid hpos (by omega)
          obtain ⟨hr, hc⟩ := ih _ _ _ _ hrest (by
            rw [e1]
            simp only [report_id_total]
            omega)
          refine ⟨?_, ?_⟩
          · simp only [report_id_total] at hr
            rw [hr, e1]
            omega
          · simp only [reporting, List.filter_cons, hpos, decide_True, if_true, chained] at hc ⊢
            refine ⟨e3, ?_, ?_⟩
            · rw [e2, e1]
            · rw [e2]
              exact hc

theorem chained_each (objs : List mxt_object) : ∀ lo : Nat, chained lo objs →
    ∀ o ∈ objs, 1 ≤ o.min_reportid ∧
      o.min_reportid + o.instances * o.num_report_ids - 1 = o.max_reportid := by
  induction objs with
  | nil => exact fun _ _ o ho => absurd ho (List.not_mem_nil o)
  | cons a rest ih =>
    intro lo h o ho
    obtain ⟨h1, h2, h3⟩ := h
    rcases List.mem_cons.1 ho with rfl | ho
    · exact ⟨by omega, by omega⟩
    · exact ih _ h3 o ho

theorem chained_chain (objs : List mxt_object) : ∀ lo : Nat, chained lo objs →
    List.Chain' (fun a b : mxt_object => b.min_reportid = a.max_reportid + 1) objs := by
  induction objs with
  | nil => exact fun _ _ => List.chain'_nil
  | cons a rest ih =>
    intro lo h
    obtain ⟨_, _, h3⟩ := h
    cases rest with
    | nil => exact List.chain'_singleton a
    | cons b rest2 =>
      exact List.chain'_cons.2 ⟨h3.1, ih _ h3⟩

theorem chained_last (objs : List mxt_object) : ∀ lo : Nat, chained lo objs →
    ∀ o, objs.getLast? = some o →
      o.max_reportid = lo + (objs.map (fun o => o.instances * o.num_report_ids)).sum := by
  induction objs with
  | nil => exact fun _ _ o ho => absurd ho (by simp)
  | cons a rest ih =>
    intro lo h o ho
    obtain ⟨_, h2, h3⟩ := h
    cases rest with
    | nil =>
      simp only [List.getLast?_singleton, Option.some.injEq] at ho
      subst ho
      simp only [List.map_cons, List.map_nil, List.sum_cons, List.sum_nil]
      omega
    | cons b rest2 =>
      rw [List.getLast?_cons_cons] at ho
      have := ih _ h3 o ho
      simp only [List.map_cons, List.sum_cons] at this ⊢
      omega

theorem total_reporting (table : List mxt_object) :
    report_id_total (reporting table) = report_id_total table := by
  induction table with
  | nil => rfl
  | cons a rest ih =>
    simp only [report_id_total] at ih
    by_cases hz : a.num_report_ids = 0
    · simp only [reporting, report_id_total, List.filter_cons, hz, lt_irrefl, decide_False,
        Bool.false_eq_true, if_false, List.map_cons, List.sum_cons, Nat.mul_zero, Nat.zero_add]
      exact ih
    · have hpos : 0 < a.num_report_ids := by omega
      simp only [reporting, report_id_total, List.filter_cons, hpos, decide_True, if_true,
        List.map_cons, List.sum_cons]
      simp only [reporting] at ih
      rw [ih]

/-- C10 as stated fails when the report IDs do not fit the `u8` counter: for a
chip that reports one object with 256 instances of one report ID each, the
counter wraps to 0, `max_reportid` is 0 and `min_reportid` is 65281, so the
first range does not start at 1, `min + instances * num_report_ids - 1` is not
`max`, and the range is empty. -/
theorem object_table_ranges_overflow :
    mxt_get_object_table (fun _ => .ok [9, 0, 2, 30, 255, 1]) 1 =
      .ok ([{ type := 9, start_address := 512, size := 31, instances := 256,
              num_report_ids := 1, min_reportid := 65281, max_reportid := 0 }], 0) ∧
    (65281 : Nat) ≠ 1 ∧ (65281 : Nat) + 256 * 1 - 1 ≠ 0 ∧ (0 : Nat) < 65281 :=
  ⟨rfl, by decide⟩

/-- C10, amended to tables whose report IDs fit the `u8` counter: for every
object table parsed by `mxt_get_object_table` that declares at most 255 report
IDs in all, every entry with `num_report_ids > 0` has
`min_reportid + instances * num_report_ids - 1 = max_reportid`, the first such
entry has `min_reportid = 1`, each later one starts at the previous one's
`max_reportid + 1`, and the last one ends at the device's `max_reportid`. -/
theorem object_table_ranges (read_object_table : Nat → Except Int (List Nat))
    (object_num : Nat) (table : List mxt_object) (max_reportid : Nat)
    (hparse : mxt_get_object_table read_object_table object_num = .ok (table, max_reportid))
    (hfit : report_id_total table ≤ 255) :
    (∀ o ∈ reporting table, 1 ≤ o.min_reportid ∧
      o.min_reportid + o.instances * o.num_report_ids - 1 = o.max_reportid) ∧
    (∀ o, (reporting table).head? = some o → o.min_reportid = 1) ∧
    List.Chain' (fun a b : mxt_object => b.min_reportid = a.max_reportid + 1)
      (reporting table) ∧
    (∀ o, (reporting table).getLast? = some o → o.max_reportid = max_reportid) ∧
    max_reportid = report_id_total table := by
  obtain ⟨hr, hc⟩ := loop_spec read_object_table object_num 0 0 table max_reportid hparse
    (by omega)
  rw [Nat.zero_add] at hr
  refine ⟨chained_each _ 0 hc, ?_, chained_chain _ 0 hc, ?_, hr⟩
  · intro o ho
    cases hobjs : reporting table with
    | nil =>
      rw [hobjs] at ho
      exact absurd ho (by simp)
    | cons a rest =>
      rw [hobjs] at ho hc
      simp only [List.head?_cons, Option.some.injEq] at ho
      subst ho
      exact hc.1
  · intro o ho
    have h := chained_last _ 0 hc o ho
    have ht := total_reporting table
    simp only [report_id_total] at ht hr
    rw [h, ht, hr, Nat.zero_add]

/-- C10 (amended), an instance: the ranges of the sample chip are 1..1 and
2..11, and the device's `max_reportid` is 11. -/
theorem object_table_ranges_witness :
    (mxt_get_object_table sample_object_table 3 =
      .ok ([{ type := 6, start_address := 256, size := 6, instances := 1, num_report_ids := 1,
              min_reportid := 1, max_reportid := 1 },
            { type := 9, start_address := 512, size := 31, instances := 10, num_report_ids := 1,
              min_reportid := 2, max_reportid := 11 },
            { type := 37, start_address := 768, size := 3, instances := 1, num_report_ids := 0,
              min_reportid := 0, max_reportid := 0 }], 11)) ∧
    (11 : Nat) = report_id_total
      [{ type := 6, start_address := 256, size := 6, instances := 1, num_report_ids := 1,
         min_reportid := 1, max_reportid := 1 },
       { type := 9, start_address := 512, size := 31, instances := 10, num_report_ids := 1,
         min_reportid := 2, max_reportid := 11 },
       { type := 37, start_address := 768, size := 3, instances := 1, num_report_ids := 0,
         min_reportid := 0, max_reportid := 0 }] :=
  ⟨rfl, (object_table_ranges sample_object_table 3 _ 11 rfl (by decide)).2.2.2.2⟩

end mxt

namespace pn544

/-! ## Claims about the device state and the file operations -/

theorem disable_keeps_counters (info : pn544_info) :
    (pn544_disable info).open_counter = info.open_counter ∧
      (pn544_disable info).max_fd = info.max_fd := by
  by_cases h1 : info.irq_state = 0 <;> by_cases h2 : info.pn544_state = PN544_ST_COLD <;>
    simp [pn544_disable, h1, h2]

theorem enable_keeps_counters (info : pn544_info) (mode force : Int) :
    (pn544_enable info mode force).1.open_counter = info.open_counter ∧
      (pn544_enable info mode force).1.max_fd = info.max_fd := by
  have hm : HCI_MODE ≠ FW_MODE := by decide
  by_cases h1 : info.irq_state = 0 <;> by_cases h2 : info.pn544_state = PN544_ST_COLD <;>
    by_cases h3 : mode = FW_MODE <;> by_cases h4 : mode = HCI_MODE <;>
    simp [pn544_enable, h1, h2, h3, h4, hm]

theorem open_counters (info : pn544_info) :
    (pn544_open info).1.max_fd = info.max_fd ∧
      (pn544_open info).1.open_counter =
        if info.open_counter > info.max_fd then info.open_counter
        else info.open_counter + 1 := by
  unfold pn544_open
  by_cases h : info.open_counter > info.max_fd
  · rw [if_pos h, if_pos h]
    exact ⟨rfl, rfl⟩
  · rw [if_neg h, if_neg h]
    by_cases h0 : info.open_counter = 0
    · rw [if_pos h0]
      obtain ⟨e1, e2⟩ := enable_keeps_counters info HCI_MODE 1
      exact ⟨e2, by simp only [e1]⟩
    · rw [if_neg h0]
      exact ⟨rfl, rfl⟩

theorem release_counters (info : pn544_info) :
    (pn544_release info).1.max_fd = info.max_fd ∧
      (pn544_release info).1.open_counter =
        if info.open_counter > 0 then info.open_counter - 1 else info.open_counter := by
  unfold pn544_release
  by_cases h : info.open_counter > 0
  · simp only [if_pos h]
    split_ifs
    · obtain ⟨e1, e2⟩ := disable_keeps_counters
        { info with open_counter := info.open_counter - 1 }
      exact ⟨e2, e1⟩
    · exact ⟨rfl, rfl⟩
  · simp only [if_neg h]
    split_ifs
    · obtain ⟨e1, e2⟩ := disable_keeps_counters info
      exact ⟨e2, e1⟩
    · exact ⟨rfl, rfl⟩

/-- The open-handle count never exceeds `max_fd + 1` (and never drops below 0):
`pn544_open` refuses only when the count is already above `max_fd`. -/
theorem open_counter_bound (ops : List FileOp) : ∀ info : pn544_info,
    0 ≤ info.open_counter → info.open_counter ≤ info.max_fd + 1 →
    0 ≤ (run_file_ops info ops).open_counter ∧
      (run_file_ops info ops).open_counter ≤ info.max_fd + 1 ∧
      (run_file_ops info ops).max_fd = info.max_fd := by
  induction ops with
  | nil => exact fun info h0 h1 => ⟨h0, h1, rfl⟩
  | cons op ops ih =>
    intro info h0 h1
    cases op with
    | fd_open =>
      obtain ⟨hm, hc⟩ := open_counters info
      have := ih (pn544_open info).1 (by rw [hc]; split_ifs <;> omega)
        (by rw [hc, hm]; split_ifs <;> omega)
      rw [hm] at this
      exact this
    | fd_release =>
      obtain ⟨hm, hc⟩ := release_counters info
      have := ih (pn544_release info).1 (by rw [hc]; split_ifs <;> omega)
        (by rw [hc, hm]; split_ifs <;> omega)
      rw [hm] at this
      exact this

/-- C16 fails on the code: from the probe state (`max_fd = 1`, no open handle)
two `pn544_open` calls both succeed and leave the open-handle count at 2, above
`max_fd`. -/
theorem open_counter_exceeds_max_fd :
    (pn544_open (pn544_probe 0x28)).2 = 0 ∧
    (pn544_open (pn544_open (pn544_probe 0x28)).1).2 = 0 ∧
    (run_file_ops (pn544_probe 0x28) [.fd_open, .fd_open]).open_counter = 2 ∧
    (run_file_ops (pn544_probe 0x28) [.fd_open, .fd_open]).max_fd = 1 := by
  decide

/-- C17 fails on the code: after the worker has stored a frame of 4 bytes and
`pn544_enable` has then flushed the response buffer, the controller is not
cold and the buffer holds no bytes, yet `bytes_to_read` is still 4 and a
non-blocking `pn544_read` of 4 bytes returns `-ENOMEM` instead of `-EAGAIN`. -/
theorem nonblocking_read_after_flush :
    (pn544_enable
      (pn544_irq_worker 33 3 [⟨1, 3, 3, [0x81, 0x12, 0x34]⟩] 0
        (pn544_irq_thread_fn (pn544_open (pn544_probe 0x28)).1)) HCI_MODE 1).1.pn544_state
        = PN544_ST_READY ∧
    (pn544_irq_worker 33 3 [⟨1, 3, 3, [0x81, 0x12, 0x34]⟩] 0
        (pn544_irq_thread_fn (pn544_open (pn544_probe 0x28)).1)).response.contents
        = [3, 0x81, 0x12, 0x34] ∧
    (pn544_enable
      (pn544_irq_worker 33 3 [⟨1, 3, 3, [0x81, 0x12, 0x34]⟩] 0
        (pn544_irq_thread_fn (pn544_open (pn544_probe 0x28)).1)) HCI_MODE 1).1.response.count
        = 0 ∧
    (pn544_enable
      (pn544_irq_worker 33 3 [⟨1, 3, 3, [0x81, 0x12, 0x34]⟩] 0
        (pn544_irq_thread_fn (pn544_open (pn544_probe 0x28)).1)) HCI_MODE 1).1.bytes_to_read
        = 4 ∧
    (pn544_read
      (pn544_enable
        (pn544_irq_worker 33 3 [⟨1, 3, 3, [0x81, 0x12, 0x34]⟩] 0
          (pn544_irq_thread_fn (pn544_open (pn544_probe 0x28)).1)) HCI_MODE 1).1
      true 4 true true).map (fun r => r.2.1) = some (-ENOMEM) := by
  decide

theorem drain_code (c : circular_buffer) (n : Nat) :
    (circular_buffer_drain c n).2.1 = (n : Int) ∨ (circular_buffer_drain c n).2.1 = -ENOMEM := by
  unfold circular_buffer_drain
  cases c.read with
  | none => exact Or.inr rfl
  | some r =>
    simp only
    split_ifs <;> first | exact Or.inl rfl | exact Or.inr rfl

/-- A non-blocking `pn544_read` answers by the counter `bytes_to_read`, not by
the buffer: with the controller not cold it returns `-EAGAIN` and changes
nothing when the counter is not positive, and never returns `-EAGAIN` when the
counter is positive. -/
theorem nonblocking_read_by_counter (info : pn544_info) (count : Nat) (alloc_ok copy_ok : Bool)
    (hwarm : info.pn544_state ≠ PN544_ST_COLD) :
    (info.bytes_to_read ≤ 0 →
      pn544_read info true count alloc_ok copy_ok = some (info, -EAGAIN, [])) ∧
    (0 < info.bytes_to_read →
      ∀ r, pn544_read info true count alloc_ok copy_ok = some r → r.2.1 ≠ -EAGAIN) := by
  constructor
  · intro h
    simp [pn544_read, hwarm, h]
  · intro h r hr
    have h1 : ¬ info.bytes_to_read ≤ 0 := by omega
    have h2 := drain_code info.response count
    simp only [pn544_read, hwarm, h1, if_false, false_and] at hr
    split_ifs at hr <;> obtain rfl := Option.some.inj hr <;> simp only <;>
      first
      | decide
      | (rcases h2 with h3 | h3 <;> rw [h3] <;> simp only [EAGAIN, ENOMEM] <;> omega)

/-- C18: from every prior device state, `pn544_enable` with `HCI_MODE` ends in
state Ready, `pn544_enable` with `FW_MODE` ends in state FwReady and
`pn544_disable` ends in state Cold; each of the three leaves the response
buffer flushed (read cursor unset, write cursor at the start of storage) and
the pending-interrupt counter at 0; enable leaves the interrupt enabled and
recorded as enabled, disable leaves it recorded as disabled, and disabled
when the record was right before. -/
theorem enable_disable_state (info : pn544_info) (force : Int) :
    ((pn544_enable info HCI_MODE force).1.pn544_state = PN544_ST_READY ∧
      (pn544_enable info HCI_MODE force).1.response = circular_buffer_flush info.response ∧
      (pn544_enable info HCI_MODE force).1.read_irq = 0 ∧
      (pn544_enable info HCI_MODE force).1.irq_state = 1 ∧
      (pn544_enable info HCI_MODE force).1.irq_line = true ∧
      (pn544_enable info HCI_MODE force).2 = 0) ∧
    ((pn544_enable info FW_MODE force).1.pn544_state = PN544_ST_FW_READY ∧
      (pn544_enable info FW_MODE force).1.response = circular_buffer_flush info.response ∧
      (pn544_enable info FW_MODE force).1.read_irq = 0 ∧
      (pn544_enable info FW_MODE force).1.irq_state = 1 ∧
      (pn544_enable info FW_MODE force).1.irq_line = true ∧
      (pn544_enable info FW_MODE force).2 = 0) ∧
    ((pn544_disable info).pn544_state = PN544_ST_COLD ∧
      (pn544_disable info).response = circular_buffer_flush info.response ∧
      (pn544_disable info).read_irq = 0 ∧
      (pn544_disable info).irq_state = 0 ∧
      ((info.irq_state = 0 → info.irq_line = false) → (pn544_disable info).irq_line = false)) ∧
    (circular_buffer_flush info.response).read = none ∧
    (circular_buffer_flush info.response).write = 0 := by
  have hm : FW_MODE ≠ HCI_MODE := by decide
  refine ⟨?_, ?_, ?_, rfl, rfl⟩
  · by_cases h1 : info.irq_state = 0 <;> by_cases h2 : info.pn544_state = PN544_ST_COLD <;>
      simp [pn544_enable, h1, h2, hm.symm]
  · by_cases h1 : info.irq_state = 0 <;> by_cases h2 : info.pn544_state = PN544_ST_COLD <;>
      simp [pn544_enable, h1, h2]
  · by_cases h1 : info.irq_state = 0 <;> by_cases h2 : info.pn544_state = PN544_ST_COLD <;>
      simp [pn544_disable, h1, h2]

end pn544

namespace mxt

/-! ## Message reader -/

/-- C15 fails on the code: the loop counter starts at 20 and is tested after
the pass (`do ... while (try--)`), so the budget is 21 reads.  On a chip that
delivers twenty messages with another report ID and then the requested one,
`mxt_read_message_reportid` makes 21 message reads and returns success at the
twenty-first. -/
theorem read_message_reportid_21_reads :
    mxt_read_message_reportid sample_data late_match_chip 5 = (0, some ⟨5, []⟩, 21) := by
  decide

/-! ## One-touch recogniser -/

theorem gesture_dir_lt (orient d : Nat) : mxt_gesture_get_dir orient (d % 256) < 256 := by
  rw [gesture_dir_eq_table orient (d % 256) (Nat.mod_lt _ (by norm_num))]
  unfold direction_table
  split_ifs <;> norm_num

theorem onetouch_code_lt (orient e d : Nat) : onetouch_code orient e (d % 256) < 256 := by
  unfold onetouch_code
  have := gesture_dir_lt orient d
  split_ifs <;> first | exact this | norm_num

theorem land_0F (m : Nat) : (m &&& 0x0F) % 256 = m % 16 := by
  have h : m &&& 0x0F = m % 16 := Nat.and_pow_two_sub_one_eq_mod m 4
  rw [h]
  omega

theorem onetouch_gesture_eq (data : mxt_data) (message : mxt_message) (id : Nat)
    (hactive : data.mxt_power_mode ≠ MXT_POWER_MODE_DEEP_SLEEP) :
    mxt_process_onetouch_gesture data message id =
      let e := message.message.getD 0 0 % 16
      let code := onetouch_code data.orient e (message.message.getD 4 0 % 256)
      if code = 0 then
        { data with
            current_bn_onetouch_gesture := 0
            mxt_onetouch_gesture_active := 0
            onetouch_gesture_count := 0
            current_mxt_onetouch_gesture := 0 }
      else
        { data with
            current_bn_onetouch_gesture := code
            mxt_onetouch_gesture_active := 1
            onetouch_gesture_count :=
              if code = data.current_bn_onetouch_gesture then
                (data.onetouch_gesture_count + 1) % 256
              else 1
            current_mxt_onetouch_gesture := e } := by
  have hlt := gesture_dir_lt data.orient (message.message.getD 4 0)
  have he : message.message.getD 0 0 % 16 < 16 := Nat.mod_lt _ (by norm_num)
  simp only [mxt_process_onetouch_gesture, onetouch_code, MXT_ONETOUCH_MSG_EVENT_MASK, land_0F,
    if_neg hactive]
  generalize message.message.getD 0 0 % 16 = e at he ⊢
  have hg := Nat.mod_eq_of_lt hlt
  interval_cases e <;>
    simp only [MXT_ONETOUCH_MSG_EVENT_PRESS, MXT_ONETOUCH_MSG_EVENT_RELEASE,
      MXT_ONETOUCH_MSG_EVENT_TAP, MXT_ONETOUCH_MSG_EVENT_DOUBLETAP,
      MXT_ONETOUCH_MSG_EVENT_FLICK, MXT_ONETOUCH_MSG_EVENT_DRAG,
      MXT_ONETOUCH_MSG_EVENT_SHORTPRESS, MXT_ONETOUCH_MSG_EVENT_LONGPRESS,
      MXT_ONETOUCH_MSG_EVENT_REPEATTPRESS, MXT_ONETOUCH_MSG_EVENT_TAPANDPRESS,
      MXT_ONETOUCH_MSG_EVENT_THROW, GESTURE_NONE, GESTURE_TD, GESTURE_LO, GESTURE_SC,
      GESTURE_DC] <;>
    (norm_num; split_ifs <;> simp_all <;> omega)

/-- C20: with the device active, `mxt_process_onetouch_gesture` computes the
public code `onetouch_code` from the low 4 bits `e` of the status byte (0x2F
for 1, 0x4F for 2, 0x20 for 3, 0x22 for 4, `mxt_gesture_get_dir` of the
direction byte for 5, 6 and 0x0B, 0x00 otherwise).  Afterwards the stored
public code is that code; if it is none (0x00) the active flag, the counter and
the stored raw event are 0; otherwise the active flag is 1, the stored raw
event is `e`, and the counter (a `u8`) is the old one incremented when the
code equals the previously stored code and 1 when it does not.  Nothing else
of the device data changes. -/
theorem onetouch_gesture_spec (data : mxt_data) (message : mxt_message) (id e code : Nat)
    (hactive : data.mxt_power_mode ≠ MXT_POWER_MODE_DEEP_SLEEP)
    (he : e = message.message.getD 0 0 % 16)
    (hcode : code = onetouch_code data.orient e (message.message.getD 4 0 % 256)) :
    (e = 1 → code = 0x2F) ∧ (e = 2 → code = 0x4F) ∧ (e = 3 → code = 0x20) ∧
    (e = 4 → code = 0x22) ∧
    (e = 5 ∨ e = 6 ∨ e = 0x0B →
      code = mxt_gesture_get_dir data.orient (message.message.getD 4 0 % 256)) ∧
    (e ≠ 1 ∧ e ≠ 2 ∧ e ≠ 3 ∧ e ≠ 4 ∧ e ≠ 5 ∧ e ≠ 6 ∧ e ≠ 0x0B → code = 0x00) ∧
    (mxt_process_onetouch_gesture data message id).current_bn_onetouch_gesture = code ∧
    (code = 0x00 →
      (mxt_process_onetouch_gesture data message id).mxt_onetouch_gesture_active = 0 ∧
      (mxt_process_onetouch_gesture data message id).onetouch_gesture_count = 0 ∧
      (mxt_process_onetouch_gesture data message id).current_mxt_onetouch_gesture = 0) ∧
    (code ≠ 0x00 →
      (mxt_process_onetouch_gesture data message id).mxt_onetouch_gesture_active = 1 ∧
      (mxt_process_onetouch_gesture data message id).current_mxt_onetouch_gesture = e ∧
      (code = data.current_bn_onetouch_gesture →
        (mxt_process_onetouch_gesture data message id).onetouch_gesture_count =
          (data.onetouch_gesture_count + 1) % 256) ∧
      (code ≠ data.current_bn_onetouch_gesture →
        (mxt_process_onetouch_gesture data message id).onetouch_gesture_count = 1)) ∧
    mxt_process_onetouch_gesture data message id =
      { data with
          current_bn_onetouch_gesture :=
            (mxt_process_onetouch_gesture data message id).current_bn_onetouch_gesture
          mxt_onetouch_gesture_active :=
            (mxt_process_onetouch_gesture data message id).mxt_onetouch_gesture_active
          onetouch_gesture_count :=
            (mxt_process_onetouch_gesture data message id).onetouch_gesture_count
          current_mxt_onetouch_gesture :=
            (mxt_process_onetouch_gesture data message id).current_mxt_onetouch_gesture } := by
  have heq := onetouch_gesture_eq data message id hactive
  simp only [← he, ← hcode] at heq
  refine ⟨?_, ?_, ?_, ?_, ?_, ?_, ?_, ?_, ?_, ?_⟩
  · intro h; rw [hcode, h]; rfl
  · intro h; rw [hcode, h]; rfl
  · intro h; rw [hcode, h]; rfl
  · intro h; rw [hcode, h]; rfl
  · intro h
    rw [hcode]
    rcases h with h | h | h <;> rw [h] <;> rfl
  · rintro ⟨h1, h2, h3, h4, h5, h6, h7⟩
    rw [hcode]
    simp [onetouch_code, h1, h2, h3, h4, h5, h6, h7]
  · by_cases h : code = 0
    · rw [heq, if_pos h]
      exact h.symm
    · rw [heq, if_neg h]
  · intro h
    rw [heq, if_pos h]
    exact ⟨rfl, rfl, rfl⟩
  · intro h
    rw [heq, if_neg h]
    refine ⟨rfl, rfl, ?_, ?_⟩
    · intro h2
      simp only [if_pos h2]
    · intro h2
      simp only [if_neg h2]
  · rw [heq]
    split_ifs <;> rfl

/-- Witness of C20: a tap (status byte 0x03) on an active device that stored
no code before is stored as a single click with counter 1, and a second tap
increments the counter. -/
theorem onetouch_gesture_spec_witness :
    (mxt_process_onetouch_gesture sample_data ⟨12, [0x03, 0, 0, 0, 0, 0, 0]⟩ 0).current_bn_onetouch_gesture
      = 0x20 ∧
    (mxt_process_onetouch_gesture sample_data ⟨12, [0x03, 0, 0, 0, 0, 0, 0]⟩ 0).onetouch_gesture_count
      = 1 ∧
    (mxt_process_onetouch_gesture
      (mxt_process_onetouch_gesture sample_data ⟨12, [0x03, 0, 0, 0, 0, 0, 0]⟩ 0)
      ⟨12, [0x03, 0, 0, 0, 0, 0, 0]⟩ 0).onetouch_gesture_count = 2 :=
  have h := onetouch_gesture_spec sample_data ⟨12, [0x03, 0, 0, 0, 0, 0, 0]⟩ 0 3 0x20
    (by decide) (by decide) (by decide)
  ⟨h.2.2.2.2.2.2.1, (h.2.2.2.2.2.2.2.2.1 (by decide)).2.2.2 (by decide), by decide⟩

/-! ## Interrupt worker -/

theorem touchevent_object_table (data : mxt_data) (message : mxt_message) (id : Nat) :
    (mxt_process_touchevent data message id).object_table = data.object_table := by
  simp only [mxt_process_touchevent]
  split_ifs <;> rfl

theorem onetouch_object_table (data : mxt_data) (message : mxt_message) (id : Nat) :
    (mxt_process_onetouch_gesture data message id).object_table = data.object_table := by
  by_cases h : data.mxt_power_mode = MXT_POWER_MODE_DEEP_SLEEP
  · simp only [mxt_process_onetouch_gesture, if_pos h]
  · rw [onetouch_gesture_eq data message id h]
    simp only
    split_ifs <;> rfl

theorem twotouch_object_table (u : Nat) (data : mxt_data) (message : mxt_message) (id : Nat) :
    (mxt_process_twotouch_gesture u data message id).object_table = data.object_table := by
  simp only [mxt_process_twotouch_gesture]
  by_cases h : data.mxt_power_mode = MXT_POWER_MODE_DEEP_SLEEP
  · simp only [if_pos h]
  · simp only [if_neg h]
    generalize (message.message.getD 0 0 &&& MXT_TWOTOUCH_MSG_STATUS_MASK) % 256 = event
    by_cases h1 : event &&& MXT_TWOTOUCH_MSG_STATUS_STRETCH ≠ 0
    · simp only [if_pos h1]
      split_ifs <;> rfl
    · simp only [if_neg h1]
      by_cases h2 : event &&& MXT_TWOTOUCH_MSG_STATUS_PINCH ≠ 0
      · simp only [if_pos h2]
        split_ifs <;> rfl
      · simp only [if_neg h2]
        by_cases h3 : event &&& MXT_TWOTOUCH_MSG_STATUS_ROTATE ≠ 0
        · simp only [if_pos h3]
          split_ifs <;> rfl
        · simp only [if_neg h3]
          split_ifs <;> rfl

theorem handle_object_table (u : Nat) (data : mxt_data) (message : mxt_message) (h : Handler) :
    (handle u data message h).object_table = data.object_table := by
  cases h with
  | finger_tracker slot => exact touchevent_object_table data message slot
  | command_error => rfl
  | onetouch_recogniser id => exact onetouch_object_table data message id
  | twotouch_recogniser id => exact twotouch_object_table u data message id
  | ignored => rfl

theorem read_message_congr (data data2 : mxt_data) (chip : Nat → Option mxt_message) (k : Nat)
    (h : data2.object_table = data.object_table) :
    mxt_read_message data2 chip k = mxt_read_message data chip k := by
  simp only [mxt_read_message, mxt_get_object, h]

theorem read_message_some (data : mxt_data) (chip : Nat → Option mxt_message) (k : Nat)
    (h5 : mxt_get_object data MXT_GEN_MESSAGE_T5 ≠ none) :
    mxt_read_message data chip k =
      match chip k with
      | none => .error (- EIO)
      | some message => .ok message := by
  unfold mxt_read_message
  cases h : mxt_get_object data MXT_GEN_MESSAGE_T5 with
  | none => exact absurd h h5
  | some o => rfl

theorem irq_block_eq_route (u : Nat) (touch command : mxt_object)
    (onetouch twotouch : Option mxt_object) (data : mxt_data) (message : mxt_message)
    (reportid : Nat) :
    (if reportid ≥ touch.min_reportid ∧ reportid ≤ touch.max_reportid then
        mxt_process_touchevent data message (reportid - touch.min_reportid)
      else if reportid = command.max_reportid then data
      else
        if onetouch ≠ none ∧ reportid ≥ (onetouch.getD {}).min_reportid ∧
            reportid ≤ (onetouch.getD {}).max_reportid then
          mxt_process_onetouch_gesture data message (reportid - (onetouch.getD {}).min_reportid)
        else if twotouch ≠ none ∧ reportid ≥ (twotouch.getD {}).min_reportid ∧
            reportid ≤ (twotouch.getD {}).max_reportid then
          mxt_process_twotouch_gesture u data message (reportid - (twotouch.getD {}).min_reportid)
        else data) =
      handle u data message (route touch command onetouch twotouch reportid) := by
  unfold route in_range
  by_cases h1 : touch.min_reportid ≤ reportid ∧ reportid ≤ touch.max_reportid
  · simp [h1, handle]
  · by_cases h2 : reportid = command.max_reportid
    · subst h2
      simp [h1, handle]
    · cases onetouch with
      | none =>
        cases twotouch with
        | none => simp [h1, h2, handle, Option.filter]
        | some t =>
          by_cases h4 : t.min_reportid ≤ reportid ∧ reportid ≤ t.max_reportid
          · simp [h1, h2, h4, handle, Option.filter]
          · simp [h1, h2, h4, handle, Option.filter]
      | some o =>
        by_cases h3 : o.min_reportid ≤ reportid ∧ reportid ≤ o.max_reportid
        · simp [h1, h2, h3, handle, Option.filter]
        · cases twotouch with
          | none => simp [h1, h2, h3, handle, Option.filter]
          | some t =>
            by_cases h4 : t.min_reportid ≤ reportid ∧ reportid ≤ t.max_reportid
            · simp [h1, h2, h3, h4, handle, Option.filter]
            · simp [h1, h2, h3, h4, handle, Option.filter]

theorem get_object_congr (data data2 : mxt_data) (type : Nat)
    (h : data2.object_table = data.object_table) :
    mxt_get_object data2 type = mxt_get_object data type := by
  simp only [mxt_get_object, h]

theorem unknown_count_fold (chip : Nat → Option mxt_message) (u : Nat)
    (touch command : mxt_object) (onetouch twotouch : Option mxt_object) :
    ∀ (n k : Nat) (data : mxt_data), mxt_get_object data MXT_GEN_MESSAGE_T5 ≠ none →
      (mxt_process_irq_unknown_count chip u touch command onetouch twotouch n k data).1 =
        (drained_unknown_count chip n k).foldl
          (fun d m => handle u d m (route touch command onetouch twotouch (m.reportid % 256)))
          data := by
  intro n
  induction n with
  | zero =>
    intro k data h5
    rw [mxt_process_irq_unknown_count, drained_unknown_count, read_message_some data chip k h5]
    cases hc : chip k with
    | none => rfl
    | some m =>
      simp only [irq_block_eq_route]
      split_ifs <;> simp_all
  | succ n ih =>
    intro k data h5
    rw [mxt_process_irq_unknown_count, drained_unknown_count, read_message_some data chip k h5]
    cases hc : chip k with
    | none => rfl
    | some m =>
      simp only [irq_block_eq_route]
      have h5b : mxt_get_object
          (handle u data m (route touch command onetouch twotouch (m.reportid % 256)))
          MXT_GEN_MESSAGE_T5 ≠ none := by
        rw [get_object_congr _ _ _ (handle_object_table u data m _)]
        exact h5
      by_cases hn : m.reportid % 256 = MXT_RPTID_NOMSG
      · simp [hn]
      · simp [hn, ih (k + 1) _ h5b]

theorem known_count_fold (chip : Nat → Option mxt_message) (u : Nat)
    (touch command : mxt_object) (onetouch twotouch : Option mxt_object) :
    ∀ (n k : Nat) (data : mxt_data), mxt_get_object data MXT_GEN_MESSAGE_T5 ≠ none →
      (mxt_process_irq_known_count chip u touch command onetouch twotouch n k data).1 =
        (drained_known_count chip n k).foldl
          (fun d m => handle u d m (route touch command onetouch twotouch (m.reportid % 256)))
          data := by
  intro n
  induction n with
  | zero =>
    intro k data _
    rfl
  | succ n ih =>
    intro k data h5
    rw [mxt_process_irq_known_count, drained_known_count, read_message_some data chip k h5]
    cases hc : chip k with
    | none => rfl
    | some m =>
      simp only [irq_block_eq_route]
      have h5b : mxt_get_object
          (handle u data m (route touch command onetouch twotouch (m.reportid % 256)))
          MXT_GEN_MESSAGE_T5 ≠ none := by
        rw [get_object_congr _ _ _ (handle_object_table u data m _)]
        exact h5
      simp [ih (k + 1) _ h5b]

/-- C19: with the message, touch and command objects present, `mxt_process_irq`
routes every drained message by the first match in the order touch range (to
`mxt_process_touchevent` with slot `report_id - min_reportid`), command
object's `max_reportid` (no change), one-touch range when that object exists
(to `mxt_process_onetouch_gesture`), two-touch range when that object exists
(to `mxt_process_twotouch_gesture`), else no change; the device data after the
count-unknown loop and after the count-known loop is in both cases the result
of applying this routing to the drained messages in order. -/
theorem irq_dispatch_routing (read_reg : Nat → Option Nat) (chip : Nat → Option mxt_message)
    (u : Nat) (data : mxt_data) (touch command : mxt_object)
    (h5 : mxt_get_object data MXT_GEN_MESSAGE_T5 ≠ none)
    (ht : mxt_get_object data MXT_TOUCH_MULTI_T9 = some touch)
    (hc : mxt_get_object data MXT_GEN_COMMAND_T6 = some command) :
    (∀ onetouch twotouch rid,
      (in_range touch rid →
        route touch command onetouch twotouch rid =
          .finger_tracker (rid - touch.min_reportid)) ∧
      (¬ in_range touch rid → rid = command.max_reportid →
        route touch command onetouch twotouch rid = .command_error) ∧
      (¬ in_range touch rid → rid ≠ command.max_reportid →
        ∀ o, onetouch = some o → in_range o rid →
          route touch command onetouch twotouch rid =
            .onetouch_recogniser (rid - o.min_reportid)) ∧
      (¬ in_range touch rid → rid ≠ command.max_reportid →
        (∀ o, onetouch = some o → ¬ in_range o rid) →
        ∀ t, twotouch = some t → in_range t rid →
          route touch command onetouch twotouch rid =
            .twotouch_recogniser (rid - t.min_reportid)) ∧
      (¬ in_range touch rid → rid ≠ command.max_reportid →
        (∀ o, onetouch = some o → ¬ in_range o rid) →
        (∀ t, twotouch = some t → ¬ in_range t rid) →
          route touch command onetouch twotouch rid = .ignored)) ∧
    (∀ d m id,
      handle u d m (.finger_tracker id) = mxt_process_touchevent d m id ∧
      handle u d m .command_error = d ∧
      handle u d m (.onetouch_recogniser id) = mxt_process_onetouch_gesture d m id ∧
      handle u d m (.twotouch_recogniser id) = mxt_process_twotouch_gesture u d m id ∧
      handle u d m .ignored = d) ∧
    (∀ error,
      mxt_read_object data read_reg MXT_SPT_MESSAGECOUNT_T44 MXT_MESSAGECOUNT_COUNT =
        .error error →
      (mxt_process_irq read_reg chip u data).1 =
        (drained_unknown_count chip ((data.max_reportid * 2 % 256 + 255) % 256) 0).foldl
          (fun d m => handle u d m
            (route touch command (mxt_get_object data MXT_PROCI_ONETOUCH_T24)
              (mxt_get_object data MXT_PROCI_TWOTOUCH_T27) (m.reportid % 256)))
          data) ∧
    (∀ nMsg,
      mxt_read_object data read_reg MXT_SPT_MESSAGECOUNT_T44 MXT_MESSAGECOUNT_COUNT =
        .ok nMsg →
      (mxt_process_irq read_reg chip u data).1 =
        (drained_known_count chip nMsg 0).foldl
          (fun d m => handle u d m
            (route touch command (mxt_get_object data MXT_PROCI_ONETOUCH_T24)
              (mxt_get_object data MXT_PROCI_TWOTOUCH_T27) (m.reportid % 256)))
          data) := by
  refine ⟨?_, fun d m id => ⟨rfl, rfl, rfl, rfl, rfl⟩, ?_, ?_⟩
  · intro onetouch twotouch rid
    refine ⟨?_, ?_, ?_, ?_, ?_⟩
    · intro h
      simp [route, h]
    · intro h h2
      subst h2
      simp [route, h]
    · intro h h2 o ho h3
      subst ho
      simp [route, h, h2, h3, Option.filter]
    · intro h h2 h3 t ht2 h4
      subst ht2
      cases onetouch with
      | none => simp [route, h, h2, h4, Option.filter]
      | some o =>
        have := h3 o rfl
        simp [route, h, h2, h4, this, Option.filter]
    · intro h h2 h3 h4
      cases onetouch with
      | none =>
        cases twotouch with
        | none => simp [route, h, h2, Option.filter]
        | some t =>
          have := h4 t rfl
          simp [route, h, h2, this, Option.filter]
      | some o =>
        have := h3 o rfl
        cases twotouch with
        | none => simp [route, h, h2, this, Option.filter]
        | some t =>
          have := h4 t rfl
          simp [route, h, h2, this, h3 o rfl, Option.filter]
  · intro error he
    simp only [mxt_process_irq, ht, hc, he]
    exact unknown_count_fold chip u touch command _ _ _ 0 data h5
  · intro nMsg hn
    simp only [mxt_process_irq, ht, hc, hn]
    exact known_count_fold chip u touch command _ _ _ 0 data h5

/-- Witness of C19: on the sample chip, with the message count read as 3, the
device data after `mxt_process_irq` is the routing applied to the three
drained messages. -/
theorem irq_dispatch_routing_witness :
    (mxt_process_irq (fun _ => some 3) sample_chip 0 sample_data).1 =
      (drained_known_count sample_chip 3 0).foldl
        (fun d m => handle 0 d m
          (route
            { type := 9, start_address := 0x200, size := 35, instances := 1,
              num_report_ids := 10, min_reportid := 2, max_reportid := 11 }
            { type := 6, start_address := 0x110, size := 6, instances := 1,
              num_report_ids := 1, min_reportid := 1, max_reportid := 1 }
            (mxt_get_object sample_data MXT_PROCI_ONETOUCH_T24)
            (mxt_get_object sample_data MXT_PROCI_TWOTOUCH_T27) (m.reportid % 256)))
        sample_data :=
  (irq_dispatch_routing (fun _ => some 3) sample_chip 0 sample_data
    { type := 9, start_address := 0x200, size := 35, instances := 1,
      num_report_ids := 10, min_reportid := 2, max_reportid := 11 }
    { type := 6, start_address := 0x110, size := 6, instances := 1,
      num_report_ids := 1, min_reportid := 1, max_reportid := 1 }
    (by decide) (by decide) (by decide)).2.2.2 3 rfl

/-! ## Configuration loaders -/

theorem bin_block_congr (bus : Nat → Bool) (data data2 : mxt_data) (cfg : List Nat)
    (s : cfg_state) (h : data2.object_table = data.object_table) :
    mxt_download_bin_config_block bus data2 cfg s =
      mxt_download_bin_config_block bus data cfg s := by
  simp only [mxt_download_bin_config_block, get_object_congr data data2 _ h]

theorem bin_loop_congr (bus : Nat → Bool) (data data2 : mxt_data) (cfg : List Nat)
    (h : data2.object_table = data.object_table) :
    ∀ (fuel : Nat) (s : cfg_state),
      mxt_download_bin_config_loop bus data2 cfg fuel s =
        mxt_download_bin_config_loop bus data cfg fuel s := by
  intro fuel
  induction fuel with
  | zero => intro s; rfl
  | succ fuel ih =>
    intro s
    simp only [mxt_download_bin_config_loop, bin_block_congr bus data data2 cfg s h, ih]

theorem txt_block_congr (bus : Nat → Bool) (scan : scanner) (data data2 : mxt_data)
    (s : cfg_state) (h : data2.object_table = data.object_table) :
    mxt_download_txt_config_block bus scan data2 s =
      mxt_download_txt_config_block bus scan data s := by
  simp only [mxt_download_txt_config_block, get_object_congr data data2 _ h]

theorem txt_loop_congr (bus : Nat → Bool) (scan : scanner) (data data2 : mxt_data)
    (cfg : List Nat) (h : data2.object_table = data.object_table) :
    ∀ (fuel : Nat) (s : cfg_state),
      mxt_download_txt_config_loop bus scan data2 cfg fuel s =
        mxt_download_txt_config_loop bus scan data cfg fuel s := by
  intro fuel
  induction fuel with
  | zero => intro s; rfl
  | succ fuel ih =>
    intro s
    simp only [mxt_download_txt_config_loop, txt_block_congr bus scan data data2 s h, ih]

/-- The return value and the writes of `mxt_download_bin_config` on a blob that
was found. -/
theorem bin_outcome (fuel : Nat) (cfg : List Nat) (bus : Nat → Bool) (data : mxt_data) :
    (mxt_download_bin_config fuel (some cfg) bus data).map (fun r => r.2) =
      if data.mxt_power_supply_state ≠ MXT_POWER_SUPPLY_ON then some (-EAGAIN, [])
      else if cfg.take MXT_CFG_MAGIC.length ≠ MXT_CFG_MAGIC then some (-EINVAL, [])
      else if (mxt_info_of_bytes ((cfg.drop MXT_CFG_MAGIC.length).take 7)).family_id ≠
          data.info.family_id then some (-EINVAL, [])
      else if (mxt_info_of_bytes ((cfg.drop MXT_CFG_MAGIC.length).take 7)).variant_id ≠
          data.info.variant_id then some (-EINVAL, [])
      else
        (mxt_download_bin_config_loop bus data cfg fuel
          { pos := MXT_CFG_MAGIC.length + 7 + 4 + 4, ret := 0 }).map
          (fun s => (s.ret, s.log)) := by
  simp only [mxt_download_bin_config]
  split_ifs
  · rfl
  · rfl
  · rfl
  · rfl
  · rw [bin_loop_congr bus data
      { data with do_not_suspend_mxt := (atomic_cmpxchg data.do_not_suspend_mxt 0 1).1 } cfg rfl]
    cases mxt_download_bin_config_loop bus data cfg fuel
      { pos := MXT_CFG_MAGIC.length + 7 + 4 + 4, ret := 0 } <;> rfl

/-- The return value and the writes of `mxt_download_txt_config` on a blob that
was found. -/
theorem txt_outcome (fuel : Nat) (cfg : List Nat) (scan : scanner) (uninit : cfg_state)
    (bus : Nat → Bool) (data : mxt_data) :
    (mxt_download_txt_config fuel (some cfg) scan uninit bus data).map (fun r => r.2) =
      if data.mxt_power_supply_state ≠ MXT_POWER_SUPPLY_ON then some (-EAGAIN, [])
      else if cfg.take MXT_CFG_MAGIC.length ≠ MXT_CFG_MAGIC then some (-EINVAL, [])
      else
        match mxt_download_txt_config_info_loop scan 7
            { uninit with pos := MXT_CFG_MAGIC.length, ret := 0, log := [] } with
        | none => some (-EINVAL, [])
        | some (bytes, s) =>
          if (mxt_info_of_bytes bytes).family_id ≠ data.info.family_id then some (-EINVAL, [])
          else if (mxt_info_of_bytes bytes).variant_id ≠ data.info.variant_id then
            some (-EINVAL, [])
          else if (scan.lx s.pos).1 ≤ 0 then some (-EINVAL, [])
          else if (scan.lx (s.pos + (scan.lx s.pos).2.2)).1 ≤ 0 then some (-EINVAL, [])
          else
            (mxt_download_txt_config_loop bus scan data cfg fuel
              { s with
                  ret := (scan.lx (s.pos + (scan.lx s.pos).2.2)).1
                  offset := (scan.lx (s.pos + (scan.lx s.pos).2.2)).2.2
                  pos := s.pos + (scan.lx s.pos).2.2 +
                    (scan.lx (s.pos + (scan.lx s.pos).2.2)).2.2 }).map
              (fun s => (s.ret, s.log)) := by
  simp only [mxt_download_txt_config]
  split_ifs with h1 h2
  · rfl
  · rfl
  · cases hi : mxt_download_txt_config_info_loop scan 7
        { uninit with pos := MXT_CFG_MAGIC.length, ret := 0, log := [] } with
    | none => rfl
    | some r =>
      obtain ⟨bytes, s⟩ := r
      simp only
      split_ifs
      · rfl
      · rfl
      · rfl
      · rfl
      · rw [txt_loop_congr bus scan data
          { data with do_not_suspend_mxt := (atomic_cmpxchg data.do_not_suspend_mxt 0 1).1 }
          cfg rfl]
        cases mxt_download_txt_config_loop bus scan data cfg fuel
          { s with
              ret := (scan.lx (s.pos + (scan.lx s.pos).2.2)).1
              offset := (scan.lx (s.pos + (scan.lx s.pos).2.2)).2.2
              pos := s.pos + (scan.lx s.pos).2.2 +
                (scan.lx (s.pos + (scan.lx s.pos).2.2)).2.2 } <;> rfl

/-- C11: with the power rail on and a blob that starts with the magic string,
both loaders return `-EINVAL` and issue no register write when the family or
the variant of the blob header differs from the chip's (the text loader also
when the header does not scan); the return value and the writes of both
loaders do not depend on the version and build the chip reports, so a
difference in those alone does not stop the load. -/
theorem config_identity_mismatch (fuel : Nat) (cfg : List Nat) (scan : scanner)
    (uninit : cfg_state) (bus : Nat → Bool) (data : mxt_data)
    (hpower : data.mxt_power_supply_state = MXT_POWER_SUPPLY_ON)
    (hmagic : cfg.take MXT_CFG_MAGIC.length = MXT_CFG_MAGIC) :
    (MXT_CFG_MAGIC.length + 7 ≤ cfg.length →
      (mxt_info_of_bytes ((cfg.drop MXT_CFG_MAGIC.length).take 7)).family_id ≠
          data.info.family_id ∨
        (mxt_info_of_bytes ((cfg.drop MXT_CFG_MAGIC.length).take 7)).variant_id ≠
          data.info.variant_id →
      (mxt_download_bin_config fuel (some cfg) bus data).map (fun r => r.2) =
        some (-EINVAL, [])) ∧
    (∀ bytes s,
      mxt_download_txt_config_info_loop scan 7
          { uninit with pos := MXT_CFG_MAGIC.length, ret := 0, log := [] } = some (bytes, s) →
      (mxt_info_of_bytes bytes).family_id ≠ data.info.family_id ∨
        (mxt_info_of_bytes bytes).variant_id ≠ data.info.variant_id →
      (mxt_download_txt_config fuel (some cfg) scan uninit bus data).map (fun r => r.2) =
        some (-EINVAL, [])) ∧
    (mxt_download_txt_config_info_loop scan 7
          { uninit with pos := MXT_CFG_MAGIC.length, ret := 0, log := [] } = none →
      (mxt_download_txt_config fuel (some cfg) scan uninit bus data).map (fun r => r.2) =
        some (-EINVAL, [])) ∧
    (∀ version build,
      (mxt_download_bin_config fuel (some cfg) bus
          { data with info := { data.info with version := version, build := build } }).map
          (fun r => r.2) =
        (mxt_download_bin_config fuel (some cfg) bus data).map (fun r => r.2)) ∧
    (∀ version build,
      (mxt_download_txt_config fuel (some cfg) scan uninit bus
          { data with info := { data.info with version := version, build := build } }).map
          (fun r => r.2) =
        (mxt_download_txt_config fuel (some cfg) scan uninit bus data).map (fun r => r.2)) := by
  have hp : ¬ data.mxt_power_supply_state ≠ MXT_POWER_SUPPLY_ON := not_not.mpr hpower
  have hm : ¬ cfg.take MXT_CFG_MAGIC.length ≠ MXT_CFG_MAGIC := not_not.mpr hmagic
  refine ⟨?_, ?_, ?_, ?_, ?_⟩
  · intro _ h
    rw [bin_outcome, if_neg hp, if_neg hm]
    rcases h with h | h
    · rw [if_pos h]
    · split_ifs <;> rfl
  · intro bytes s hi h
    rw [txt_outcome, if_neg hp, if_neg hm, hi]
    simp only
    rcases h with h | h
    · rw [if_pos h]
    · split_ifs <;> rfl
  · intro hi
    rw [txt_outcome, if_neg hp, if_neg hm, hi]
  · intro version build
    rw [bin_outcome, bin_outcome]
    simp only [bin_loop_congr bus data
      { data with info := { data.info with version := version, build := build } } cfg rfl]
  · intro version build
    rw [txt_outcome, txt_outcome]
    simp only [txt_loop_congr bus scan data
      { data with info := { data.info with version := version, build := build } } cfg rfl]

/-- Witness of C11: on the sample chip (family 0x81) the binary blob and the text
blob with family 0x82 in the header are refused with `-EINVAL` and no write,
and the blobs that differ from the chip in version and build only are loaded. -/
theorem config_identity_mismatch_witness :
    (mxt_download_bin_config 4 (some sample_bin_blob_family) (fun _ => true)
        sample_cfg_data).map (fun r => r.2) = some (-EINVAL, []) ∧
    (mxt_download_txt_config 4 (some sample_txt_blob_family)
        (sample_scanner sample_txt_blob_family) {} (fun _ => true) sample_cfg_data).map
        (fun r => r.2) = some (-EINVAL, []) ∧
    (mxt_download_bin_config 4 (some sample_bin_blob_version) (fun _ => true)
        sample_cfg_data).map (fun r => r.2) = some (0, [(0x124, 0x11), (0x125, 0x22), (0x127, 0)]) ∧
    (mxt_download_txt_config 4 (some sample_txt_blob_version)
        (sample_scanner sample_txt_blob_version) {} (fun _ => true) sample_cfg_data).map
        (fun r => r.2) = some (0, [(0x124, 0x11), (0x125, 0x22), (0x127, 0)]) :=
  ⟨(config_identity_mismatch 4 sample_bin_blob_family (sample_scanner sample_bin_blob_family)
      {} (fun _ => true) sample_cfg_data (by decide) (by decide)).1 (by decide) (by decide),
    (config_identity_mismatch 4 sample_txt_blob_family (sample_scanner sample_txt_blob_family)
      {} (fun _ => true) sample_cfg_data (by decide) (by decide)).2.1
      [0x82, 0x01, 0x10, 0xAA, 0, 0, 3] { pos := 31, ret := 1, offset := 3 } (by decide)
      (by decide),
    by decide, by decide⟩

/-- C13 fails on the code: when `request_firmware` fails, both loaders return 0
straight away, past the label `err_return` that restores the flag, and
`do_not_suspend_mxt`, 0 before the call, is 1 after it. -/
theorem config_flag_not_restored :
    sample_cfg_data.do_not_suspend_mxt = 0 ∧
    (mxt_download_bin_config 4 none (fun _ => true) sample_cfg_data).map
        (fun r => (r.1.do_not_suspend_mxt, r.2.1)) = some (1, 0) ∧
    (mxt_download_txt_config 4 none (sample_scanner []) {} (fun _ => true)
        sample_cfg_data).map (fun r => (r.1.do_not_suspend_mxt, r.2.1)) = some (1, 0) ∧
    (mxt_download_bin_config 4 (some sample_bin_blob) (fun _ => true) sample_cfg_data).map
        (fun r => r.1.do_not_suspend_mxt) = some 0 := by
  decide

/-- C12 fails on the code: `mxt_get_object` takes the type as a `u8`, so the
block of type 0x109, a type that is not in the object table of the sample
chip, is applied to the object of type 9 (register 0x200) instead of being
skipped. -/
theorem bin_config_wide_type_applied :
    mxt_get_object sample_cfg_data 0x109 =
      some { type := 9, start_address := 0x200, size := 2, instances := 1 } ∧
    (sample_cfg_data.object_table.map (fun o => o.type)) = [5, 7, 9] ∧
    memcpy_u32 sample_bin_blob_wide_type 25 = 0x109 ∧
    (mxt_download_bin_config 4 (some sample_bin_blob_wide_type) (fun _ => true)
        sample_cfg_data).map (fun r => r.2) = some (0, [(0x200, 0xAB)]) := by
  decide

theorem range_succ_map {α : Type} (n : Nat) (f : Nat → α) :
    (List.range (n + 1)).map f = f 0 :: (List.range n).map (fun j => f (j + 1)) := by
  rw [List.range_succ_eq_map, List.map_cons, List.map_map]
  rfl

theorem zero_loop_spec (bus : Nat → Bool) (reg : Nat) (hbus : ∀ n, bus n = true) :
    ∀ (n i : Nat) (s : cfg_state),
      mxt_download_config_zero_loop bus reg n i s =
        .next { s with
          log := s.log ++ (List.range n).map (fun j => ((reg + (i + j)) % 65536, 0))
          ret := if n = 0 then s.ret else 0 } := by
  intro n
  induction n with
  | zero =>
    intro i s
    simp [mxt_download_config_zero_loop]
  | succ n ih =>
    intro i s
    rw [mxt_download_config_zero_loop]
    simp only [mxt_write_reg, hbus, if_true, ne_eq, not_true_eq_false, if_false, ih]
    rw [range_succ_map]
    simp [Nat.add_assoc, Nat.add_comm 1]

theorem bin_write_loop_spec (bus : Nat → Bool) (cfg : List Nat) (reg : Nat)
    (hbus : ∀ n, bus n = true) :
    ∀ (n i : Nat) (s : cfg_state), s.pos + n < 4294967296 →
      mxt_download_bin_config_write_loop bus cfg reg n i s =
        .next { s with
          pos := s.pos + n
          log := s.log ++
            (List.range n).map (fun j => ((reg + (i + j)) % 65536, cfg.getD (s.pos + j) 0 % 256))
          ret := if n = 0 then s.ret else 0 } := by
  intro n
  induction n with
  | zero =>
    intro i s _
    simp [mxt_download_bin_config_write_loop]
  | succ n ih =>
    intro i s h
    rw [mxt_download_bin_config_write_loop]
    have e : (s.pos + 1) % 4294967296 = s.pos + 1 := Nat.mod_eq_of_lt (by omega)
    simp only [mxt_write_reg, hbus, if_true, ne_eq, not_true_eq_false, if_false, e]
    rw [ih _ _ (by simp only; omega), range_succ_map]
    simp [Nat.add_assoc, Nat.add_comm 1]

theorem txt_write_loop_spec (bus : Nat → Bool) (scan : scanner) (reg : Nat)
    (hbus : ∀ n, bus n = true) :
    ∀ (n i : Nat) (s : cfg_state) (vals : List Nat) (pos2 : Nat),
      scan_values scan n s.pos = some (vals, pos2) →
      ∃ s2, mxt_download_txt_config_write_loop bus scan reg n i s = .next s2 ∧
        s2.pos = pos2 ∧
        s2.log = s.log ++
          (List.range n).map (fun j => ((reg + (i + j)) % 65536, vals.getD j 0)) ∧
        s2.size = s.size := by
  intro n
  induction n with
  | zero =>
    intro i s vals pos2 h
    simp only [scan_values, Option.some.injEq, Prod.mk.injEq] at h
    exact ⟨s, rfl, h.2, by simp, rfl⟩
  | succ n ih =>
    intro i s vals pos2 h
    rw [scan_values] at h
    by_cases hr : (scan.hhx s.pos).1 ≤ 0
    · simp [hr] at h
    · rw [if_neg hr] at h
      cases hv : scan_values scan n (s.pos + (scan.hhx s.pos).2.2) with
      | none => simp [hv] at h
      | some rest =>
        rw [hv] at h
        simp only [Option.some.injEq, Prod.mk.injEq] at h
        obtain ⟨hvals, hpos⟩ := h
        rw [mxt_download_txt_config_write_loop]
        simp only [mxt_write_reg, hbus, if_true, ne_eq, not_true_eq_false, if_false, hr]
        obtain ⟨s2, h1, h2, h3, h4⟩ := ih (i + 1)
          { s with
              ret := 0
              offset := (scan.hhx s.pos).2.2
              pos := s.pos + (scan.hhx s.pos).2.2
              log := s.log ++ [((reg + i) % 65536, (scan.hhx s.pos).2.1 % 256)] }
          rest.1 rest.2 hv
        refine ⟨s2, h1, h2.trans hpos, ?_, h4⟩
        rw [h3, range_succ_map, ← hvals]
        simp [Nat.add_assoc, Nat.add_comm 1]

theorem get_object_mod (data : mxt_data) (type : Nat) :
    mxt_get_object data (type % 4294967296) = mxt_get_object data type := by
  have h : type % 4294967296 % 256 = type % 256 := by omega
  simp only [mxt_get_object, h]

theorem block_writes (A m sz S : Nat) (f : Nat → Nat) (log : List (Nat × Nat)) :
    (log ++ (List.range sz).map (fun j => (((A + m) % 65536 + (0 + j)) % 65536, f j))) ++
        (List.range (S - (sz + 1))).map
          (fun j => (((A + m) % 65536 + (sz + 1 + j)) % 65536, 0)) =
      log ++ ((List.range sz).map (fun i => ((A + m + i) % 65536, f i)) ++
        (List.range (S - (sz + 1))).map (fun j => ((A + m + (sz + 1 + j)) % 65536, 0))) := by
  rw [List.append_assoc]
  congr 2
  · apply List.map_congr_left
    intro j _
    congr 1
    omega
  · apply List.map_congr_left
    intro j _
    congr 1
    omega

theorem block_writes_skip (A m sz S : Nat) (f : Nat → Nat) (hsz : sz < S) (hS : S < 65536) :
    ∀ w ∈ (List.range sz).map (fun i => ((A + m + i) % 65536, f i)) ++
        (List.range (S - (sz + 1))).map (fun j => ((A + m + (sz + 1 + j)) % 65536, 0)),
      w.1 ≠ (A + m + sz) % 65536 := by
  intro w hw
  rw [List.mem_append, List.mem_map, List.mem_map] at hw
  rcases hw with ⟨i, hi, rfl⟩ | ⟨j, hj, rfl⟩
  · rw [List.mem_range] at hi
    simp only
    omega
  · rw [List.mem_range] at hj
    simp only
    omega

theorem zero_loop_log (bus : Nat → Bool) (reg : Nat) :
    ∀ (n i : Nat) (s : cfg_state),
      ∃ m, m ≤ n ∧
        (mxt_download_config_zero_loop bus reg n i s).state.log =
          s.log ++ ((List.range n).map (fun j => ((reg + (i + j)) % 65536, 0))).take m := by
  intro n
  induction n with
  | zero =>
    intro i s
    exact ⟨0, Nat.le_refl 0, by simp [mxt_download_config_zero_loop, cfg_flow.state]⟩
  | succ n ih =>
    intro i s
    rw [mxt_download_config_zero_loop]
    simp only [mxt_write_reg]
    by_cases hb : bus s.log.length = true
    · simp only [hb, if_true, ne_eq, not_true_eq_false, if_false]
      obtain ⟨m, hm, h⟩ := ih (i + 1)
        { s with log := s.log ++ [((reg + i) % 65536, 0 % 256)], ret := 0 }
      refine ⟨m + 1, by omega, ?_⟩
      rw [h, range_succ_map]
      simp [Nat.add_assoc, Nat.add_comm 1]
    · have hne : (- EIO : Int) ≠ 0 := by decide
      simp only [hb, Bool.false_eq_true, if_false, ne_eq, hne, not_false_eq_true, if_true]
      refine ⟨1, by omega, ?_⟩
      rw [range_succ_map]
      simp [cfg_flow.state]

theorem bin_write_loop_log (bus : Nat → Bool) (cfg : List Nat) (reg : Nat) :
    ∀ (n i : Nat) (s : cfg_state), s.pos + n < 4294967296 →
      ∃ m, m ≤ n ∧
        (mxt_download_bin_config_write_loop bus cfg reg n i s).state.log =
          s.log ++ ((List.range n).map
            (fun j => ((reg + (i + j)) % 65536, cfg.getD (s.pos + j) 0 % 256))).take m ∧
        (∀ s2, mxt_download_bin_config_write_loop bus cfg reg n i s = .next s2 →
          m = n ∧ s2.size = s.size) := by
  intro n
  induction n with
  | zero =>
    intro i s _
    refine ⟨0, Nat.le_refl 0, by simp [mxt_download_bin_config_write_loop, cfg_flow.state], ?_⟩
    intro s2 h
    simp only [mxt_download_bin_config_write_loop, cfg_flow.next.injEq] at h
    exact ⟨rfl, by rw [h]⟩
  | succ n ih =>
    intro i s hpos
    rw [mxt_download_bin_config_write_loop]
    have e : (s.pos + 1) % 4294967296 = s.pos + 1 := Nat.mod_eq_of_lt (by omega)
    simp only [mxt_write_reg, e]
    by_cases hb : bus s.log.length = true
    · simp only [hb, if_true, ne_eq, not_true_eq_false, if_false]
      obtain ⟨m, hm, h, hn⟩ := ih (i + 1)
        { s with pos := s.pos + 1
                 log := s.log ++ [((reg + i) % 65536, cfg.getD s.pos 0 % 256 % 256)]
                 ret := 0 } (by simp only; omega)
      refine ⟨m + 1, by omega, ?_, ?_⟩
      · rw [h, range_succ_map]
        simp [Nat.add_assoc, Nat.add_comm 1]
      · intro s2 h2
        obtain ⟨h3, h4⟩ := hn s2 h2
        exact ⟨by omega, h4⟩
    · have hne : (- EIO : Int) ≠ 0 := by decide
      simp only [hb, Bool.false_eq_true, if_false, ne_eq, hne, not_false_eq_true, if_true]
      refine ⟨1, by omega, ?_, ?_⟩
      · rw [range_succ_map]
        simp [cfg_flow.state]
      · intro s2 h2
        exact absurd h2 (by simp)

theorem txt_write_loop_log (bus : Nat → Bool) (scan : scanner) (reg : Nat) :
    ∀ (n i : Nat) (s : cfg_state) (vals : List Nat) (pos2 : Nat),
      scan_values scan n s.pos = some (vals, pos2) →
      ∃ m, m ≤ n ∧
        (mxt_download_txt_config_write_loop bus scan reg n i s).state.log =
          s.log ++ ((List.range n).map
            (fun j => ((reg + (i + j)) % 65536, vals.getD j 0))).take m ∧
        (∀ s2, mxt_download_txt_config_write_loop bus scan reg n i s = .next s2 →
          m = n ∧ s2.size = s.size ∧ s2.pos = pos2) := by
  intro n
  induction n with
  | zero =>
    intro i s vals pos2 h
    simp only [scan_values, Option.some.injEq, Prod.mk.injEq] at h
    refine ⟨0, Nat.le_refl 0, by simp [mxt_download_txt_config_write_loop, cfg_flow.state], ?_⟩
    intro s2 h2
    simp only [mxt_download_txt_config_write_loop, cfg_flow.next.injEq] at h2
    exact ⟨rfl, by rw [h2], by rw [← h2]; exact h.2⟩
  | succ n ih =>
    intro i s vals pos2 h
    rw [scan_values] at h
    by_cases hr : (scan.hhx s.pos).1 ≤ 0
    · simp [hr] at h
    · rw [if_neg hr] at h
      cases hv : scan_values scan n (s.pos + (scan.hhx s.pos).2.2) with
      | none => simp [hv] at h
      | some rest =>
        rw [hv] at h
        simp only [Option.some.injEq, Prod.mk.injEq] at h
        obtain ⟨hvals, hpos⟩ := h
        rw [mxt_download_txt_config_write_loop]
        simp only [mxt_write_reg, hr, if_false]
        by_cases hb : bus s.log.length = true
        · simp only [hb, if_true, ne_eq, not_true_eq_false, if_false]
          obtain ⟨m, hm, h1, hn⟩ := ih (i + 1)
            { s with
                ret := 0
                offset := (scan.hhx s.pos).2.2
                pos := s.pos + (scan.hhx s.pos).2.2
                log := s.log ++ [((reg + i) % 65536, (scan.hhx s.pos).2.1 % 256)] }
            rest.1 rest.2 hv
          refine ⟨m + 1, by omega, ?_, ?_⟩
          · rw [h1, range_succ_map, ← hvals]
            simp [Nat.add_assoc, Nat.add_comm 1]
          · intro s2 h2
            obtain ⟨h3, h4, h5⟩ := hn s2 h2
            exact ⟨by omega, h4, h5.trans hpos⟩
        · have hne : (- EIO : Int) ≠ 0 := by decide
          simp only [hb, Bool.false_eq_true, if_false, ne_eq, hne, not_false_eq_true, if_true]
          refine ⟨1, by omega, ?_, ?_⟩
          · rw [range_succ_map, ← hvals]
            simp [cfg_flow.state]
          · intro s2 h2
            exact absurd h2 (by simp)

theorem data_writes_eq (A m sz : Nat) (f : Nat → Nat) :
    (List.range sz).map (fun j => (((A + m) % 65536 + (0 + j)) % 65536, f j)) =
      (List.range sz).map (fun i => ((A + m + i) % 65536, f i)) := by
  apply List.map_congr_left
  intro j _
  congr 1
  omega

theorem zero_writes_eq (A m sz n : Nat) :
    (List.range n).map (fun j => (((A + m) % 65536 + (sz + 1 + j)) % 65536, 0)) =
      (List.range n).map (fun j => ((A + m + (sz + 1 + j)) % 65536, 0)) := by
  apply List.map_congr_left
  intro j _
  congr 1
  omega

theorem block_log_prefix (bus : Nat → Bool) (reg sz S : Nat) (s1 : cfg_state)
    (D Z : List (Nat × Nat)) (flow : cfg_flow)
    (hD : D.length = sz)
    (hZ : (List.range (S - (sz + 1))).map (fun j => ((reg + (sz + 1 + j)) % 65536, 0)) = Z)
    (hsz : sz < S)
    (hlog : ∃ m, m ≤ sz ∧ flow.state.log = s1.log ++ D.take m ∧
      ∀ s2, flow = .next s2 → m = sz ∧ s2.size = sz) :
    ∃ m, (match flow with
        | .release s2 => cfg_flow.release s2
        | .next s2 =>
          if s2.size < S then
            mxt_download_config_zero_loop bus reg (S - (s2.size + 1)) (s2.size + 1) s2
          else .next s2).state.log = s1.log ++ (D ++ Z).take m := by
  obtain ⟨m1, hm1, hl, hn⟩ := hlog
  cases flow with
  | release s2 =>
    refine ⟨m1, ?_⟩
    simp only [cfg_flow.state] at hl ⊢
    rw [hl, List.take_append_of_le_length (by omega)]
  | next s2 =>
    obtain ⟨h1, h2⟩ := hn s2 rfl
    simp only [cfg_flow.state] at hl
    simp only [h2, if_pos hsz]
    obtain ⟨m2, _, hz⟩ := zero_loop_log bus reg (S - (sz + 1)) (sz + 1) s2
    refine ⟨sz + m2, ?_⟩
    rw [hz, hl, h1, hZ, List.take_of_length_le (by omega), List.append_assoc, ← hD,
      List.take_append]

/-- C14: a valid block (type in the object table, instance `k`, declared size
`sz`) of an object with start address `A` and size `S > sz`.  On a bus whose
writes succeed both loaders issue, in this order, the write of data byte `i`
to the 16-bit register `A + S * k + i` for every `i < sz` and the write of 0
to register `A + S * k + i` for every `sz + 1 ≤ i < S`, and go on to the next
block; none of these writes goes to register `A + S * k + sz`.  On any bus the
writes issued are the first ones of that sequence, up to the first write that
fails. -/
theorem config_block_zero_fill (bus : Nat → Bool) (scan : scanner) (data : mxt_data)
    (cfg : List Nat) (object : mxt_object) (type k sz : Nat)
    (hobj : mxt_get_object data type = some object)
    (hk : k < object.instances) (hsz : sz < object.size)
    (hS : object.size < 65536) (hI : object.instances < 65536) :
    (∀ s : cfg_state, (∀ n, bus n = true) →
      s.pos + 12 + sz ≤ cfg.length → cfg.length < 4294967296 →
      memcpy_u32 cfg s.pos = type → memcpy_u32 cfg (s.pos + 4) = k →
      memcpy_u32 cfg (s.pos + 8) = sz →
      ∃ s2, mxt_download_bin_config_block bus data cfg s = .next s2 ∧
        s2.pos = s.pos + 12 + sz ∧
        s2.log = s.log ++
          ((List.range sz).map
              (fun i => ((object.start_address + object.size * k + i) % 65536,
                cfg.getD (s.pos + 12 + i) 0 % 256)) ++
            (List.range (object.size - (sz + 1))).map
              (fun j => ((object.start_address + object.size * k + (sz + 1 + j)) % 65536, 0)))) ∧
    (∀ (s : cfg_state) (off : Nat) (vals : List Nat) (pos2 : Nat), (∀ n, bus n = true) →
      scan.x3 s.pos = (3, (type, k, sz), off) →
      scan_values scan sz (s.pos + off) = some (vals, pos2) →
      ∃ s2, mxt_download_txt_config_block bus scan data s = .next s2 ∧
        s2.pos = pos2 ∧
        s2.log = s.log ++
          ((List.range sz).map
              (fun i => ((object.start_address + object.size * k + i) % 65536,
                vals.getD i 0)) ++
            (List.range (object.size - (sz + 1))).map
              (fun j => ((object.start_address + object.size * k + (sz + 1 + j)) % 65536, 0)))) ∧
    (∀ (f : Nat → Nat),
      ∀ w ∈ (List.range sz).map
              (fun i => ((object.start_address + object.size * k + i) % 65536, f i)) ++
            (List.range (object.size - (sz + 1))).map
              (fun j => ((object.start_address + object.size * k + (sz + 1 + j)) % 65536, 0)),
        w.1 ≠ (object.start_address + object.size * k + sz) % 65536) ∧
    (∀ s : cfg_state, s.pos + 12 + sz ≤ cfg.length → cfg.length < 4294967296 →
      memcpy_u32 cfg s.pos = type → memcpy_u32 cfg (s.pos + 4) = k →
      memcpy_u32 cfg (s.pos + 8) = sz →
      ∃ m, (mxt_download_bin_config_block bus data cfg s).state.log = s.log ++
          ((List.range sz).map
              (fun i => ((object.start_address + object.size * k + i) % 65536,
                cfg.getD (s.pos + 12 + i) 0 % 256)) ++
            (List.range (object.size - (sz + 1))).map
              (fun j => ((object.start_address + object.size * k + (sz + 1 + j)) % 65536,
                0))).take m) ∧
    (∀ (s : cfg_state) (off : Nat) (vals : List Nat) (pos2 : Nat),
      scan.x3 s.pos = (3, (type, k, sz), off) →
      scan_values scan sz (s.pos + off) = some (vals, pos2) →
      ∃ m, (mxt_download_txt_config_block bus scan data s).state.log = s.log ++
          ((List.range sz).map
              (fun i => ((object.start_address + object.size * k + i) % 65536,
                vals.getD i 0)) ++
            (List.range (object.size - (sz + 1))).map
              (fun j => ((object.start_address + object.size * k + (sz + 1 + j)) % 65536,
                0))).take m) := by
  refine ⟨?_, ?_, fun f => block_writes_skip _ _ _ _ f hsz hS, ?_, ?_⟩
  · intro s hbus hlen hsize htype hinst hsize2
    have e1 : (s.pos + 4) % 4294967296 = s.pos + 4 := Nat.mod_eq_of_lt (by omega)
    have e2 : (s.pos + 4 + 4) % 4294967296 = s.pos + 8 := Nat.mod_eq_of_lt (by omega)
    have e3 : (s.pos + 8 + 4) % 4294967296 = s.pos + 12 := Nat.mod_eq_of_lt (by omega)
    simp only [mxt_download_bin_config_block, e1, e2, e3, htype, hinst, hsize2, hobj,
      gt_iff_lt, ge_iff_le, if_neg (Nat.not_lt.mpr (Nat.le_of_lt hsz)),
      if_neg (Nat.not_le.mpr hk)]
    rw [bin_write_loop_spec bus cfg _ hbus sz 0 _ (by simp only; omega)]
    simp only [if_pos hsz]
    rw [zero_loop_spec bus _ hbus]
    refine ⟨_, rfl, rfl, ?_⟩
    simp only
    exact block_writes _ _ _ _ _ _
  · intro s off vals pos2 hbus hx hv
    have ek : k % 4294967296 = k := Nat.mod_eq_of_lt (by omega)
    have es : sz % 4294967296 = sz := Nat.mod_eq_of_lt (by omega)
    have h3 : ¬ ((3 : Int) = 0) := by decide
    have h4 : ¬ ((3 : Int) < 0) := by decide
    have h5 : (3 : Int) ≥ 1 := by decide
    have h6 : (3 : Int) ≥ 2 := by decide
    have h7 : (3 : Int) ≥ 3 := by decide
    simp only [mxt_download_txt_config_block, hx, h3, h4, h5, h6, h7, if_true, if_false,
      get_object_mod, hobj, ek, es, gt_iff_lt, ge_iff_le,
      if_neg (Nat.not_lt.mpr (Nat.le_of_lt hsz)), if_neg (Nat.not_le.mpr hk)]
    obtain ⟨s2, h1, h2, hl, hz⟩ := txt_write_loop_spec bus scan
      ((object.start_address + object.size * k) % 65536) hbus sz 0
      { s with ret := 3, type := type % 4294967296, instance_ := k, size := sz, offset := off,
               pos := s.pos + off } vals pos2 hv
    rw [h1]
    simp only [hz, if_pos hsz]
    rw [zero_loop_spec bus _ hbus]
    refine ⟨_, rfl, h2, ?_⟩
    simp only [hl]
    exact block_writes _ _ _ _ _ _
  · intro s hlen hsize htype hinst hsize2
    have e1 : (s.pos + 4) % 4294967296 = s.pos + 4 := Nat.mod_eq_of_lt (by omega)
    have e2 : (s.pos + 4 + 4) % 4294967296 = s.pos + 8 := Nat.mod_eq_of_lt (by omega)
    have e3 : (s.pos + 8 + 4) % 4294967296 = s.pos + 12 := Nat.mod_eq_of_lt (by omega)
    simp only [mxt_download_bin_config_block, e1, e2, e3, htype, hinst, hsize2, hobj,
      gt_iff_lt, ge_iff_le, if_neg (Nat.not_lt.mpr (Nat.le_of_lt hsz)),
      if_neg (Nat.not_le.mpr hk)]
    obtain ⟨m1, hm1, hl, hn⟩ := bin_write_loop_log bus cfg
      ((object.start_address + object.size * k) % 65536) sz 0
      { s with type := type, instance_ := k, size := sz, pos := s.pos + 12 }
      (by simp only; omega)
    rw [data_writes_eq] at hl
    exact block_log_prefix bus _ sz object.size _ _ _ _ (by simp)
      (zero_writes_eq _ _ _ _) hsz ⟨m1, hm1, hl, hn⟩
  · intro s off vals pos2 hx hv
    have ek : k % 4294967296 = k := Nat.mod_eq_of_lt (by omega)
    have es : sz % 4294967296 = sz := Nat.mod_eq_of_lt (by omega)
    have h3 : ¬ ((3 : Int) = 0) := by decide
    have h4 : ¬ ((3 : Int) < 0) := by decide
    have h5 : (3 : Int) ≥ 1 := by decide
    have h6 : (3 : Int) ≥ 2 := by decide
    have h7 : (3 : Int) ≥ 3 := by decide
    simp only [mxt_download_txt_config_block, hx, h3, h4, h5, h6, h7, if_true, if_false,
      get_object_mod, hobj, ek, es, gt_iff_lt, ge_iff_le,
      if_neg (Nat.not_lt.mpr (Nat.le_of_lt hsz)), if_neg (Nat.not_le.mpr hk)]
    obtain ⟨m1, hm1, hl, hn⟩ := txt_write_loop_log bus scan
      ((object.start_address + object.size * k) % 65536) sz 0
      { s with ret := 3, type := type % 4294967296, instance_ := k, size := sz, offset := off,
               pos := s.pos + off } vals pos2 hv
    rw [data_writes_eq] at hl
    exact block_log_prefix bus _ sz object.size _ _ _ _ (by simp)
      (zero_writes_eq _ _ _ _) hsz ⟨m1, hm1, hl, fun s2 h2 => ⟨(hn s2 h2).1, (hn s2 h2).2.1⟩⟩

/-- Witness of C14: the block of type 7, instance 1, size 2 of the sample blobs
on the sample chip (object at 0x120, size 4): data bytes to 0x124 and 0x125,
zero to 0x127, no write to 0x126. -/
theorem config_block_zero_fill_witness :
    (∃ s2, mxt_download_bin_config_block (fun _ => true) sample_cfg_data sample_bin_blob
        { pos := 25 } = .next s2 ∧ s2.pos = 39 ∧
      s2.log = [(0x124, 0x11), (0x125, 0x22), (0x127, 0)]) ∧
    (∃ s2, mxt_download_txt_config_block (fun _ => true) (sample_scanner sample_txt_blob)
        sample_cfg_data { pos := 46 } = .next s2 ∧ s2.pos = 66 ∧
      s2.log = [(0x124, 0x11), (0x125, 0x22), (0x127, 0)]) :=
  have h := config_block_zero_fill (fun _ => true) (sample_scanner sample_txt_blob)
    sample_cfg_data sample_bin_blob { type := 7, start_address := 0x120, size := 4, instances := 2 }
    7 1 2 (by decide) (by decide) (by decide) (by decide) (by decide)
  ⟨(h.1 { pos := 25 } (fun _ => rfl) (by decide) (by decide) (by decide) (by decide)
      (by decide)).imp (fun _ h2 => ⟨h2.1, h2.2.1, h2.2.2.trans (by decide)⟩),
    (h.2.1 { pos := 46 } 14 [0x11, 0x22] 66 (fun _ => rfl) (by decide) (by decide)).imp
      (fun _ h2 => ⟨h2.1, h2.2.1, h2.2.2.trans (by decide)⟩)⟩

end mxt

namespace pn544

/-! ## Zero-length fill and drain -/

/-- The capacity of a buffer is set by `circular_buffer_init` and kept by every
operation; the response buffer of the driver is initialised with
`PN544_READ_BUF_SIZE = 256` bytes. -/
theorem buf_len_kept (c : circular_buffer) (buf : List Nat) (n : Nat) :
    (circular_buffer_init PN544_READ_BUF_SIZE).buf_len = 256 ∧
    (circular_buffer_fill c buf).1.buf_len = c.buf_len ∧
    (circular_buffer_drain c n).1.buf_len = c.buf_len ∧
    (circular_buffer_flush c).buf_len = c.buf_len := by
  refine ⟨rfl, ?_, ?_, rfl⟩
  · unfold circular_buffer_fill
    cases c.read <;> simp only <;> split_ifs <;> rfl
  · unfold circular_buffer_drain
    cases c.read with
    | none => rfl
    | some r =>
      simp only
      split_ifs <;> rfl

/-- C28 fails on the code: with the read cursor below the write cursor
(`wrap_bytes = 0`) a drain of size 0 meets `wrap_bytes == size` and moves the
read cursor to the buffer start.  After a fill of 1 2 3 4 and a drain of 2
bytes (read at offset 2, write at offset 4) the drain of size 0 returns 0 and
leaves the read cursor at offset 0; the next drain of 2 bytes then returns
1 2 again, where without the zero-length drain it returns 3 4. -/
theorem drain_zero_moves_read :
    (circular_buffer_drain (circular_buffer_fill (circular_buffer_init 8) [1, 2, 3, 4]).1 2).1 =
      { buffer := [1, 2, 3, 4, 0, 0, 0, 0], buf_len := 8, read := some 2, write := 4 } ∧
    circular_buffer_drain
        { buffer := [1, 2, 3, 4, 0, 0, 0, 0], buf_len := 8, read := some 2, write := 4 } 0 =
      ({ buffer := [1, 2, 3, 4, 0, 0, 0, 0], buf_len := 8, read := some 0, write := 4 }, 0, []) ∧
    (circular_buffer_drain
        { buffer := [1, 2, 3, 4, 0, 0, 0, 0], buf_len := 8, read := some 0, write := 4 } 2).2 =
      (2, [1, 2]) ∧
    (circular_buffer_drain
        { buffer := [1, 2, 3, 4, 0, 0, 0, 0], buf_len := 8, read := some 2, write := 4 } 2).2 =
      (2, [3, 4]) := by
  decide

end pn544

namespace mxt

/-! ## Message budget of the interrupt worker -/

theorem unknown_count_reads_le (chip : Nat → Option mxt_message) (u : Nat)
    (touch command : mxt_object) (onetouch twotouch : Option mxt_object) :
    ∀ (n k : Nat) (data : mxt_data),
      (mxt_process_irq_unknown_count chip u touch command onetouch twotouch n k data).2 ≤
        k + n + 1 := by
  intro n
  induction n with
  | zero =>
    intro k data
    rw [mxt_process_irq_unknown_count]
    cases mxt_read_message data chip k with
    | error e => simp
    | ok m =>
      simp only [irq_block_eq_route]
      by_cases hn : m.reportid % 256 = MXT_RPTID_NOMSG
      · simp [hn]
      · simp [hn]
  | succ n ih =>
    intro k data
    rw [mxt_process_irq_unknown_count]
    cases mxt_read_message data chip k with
    | error e => simp
    | ok m =>
      simp only [irq_block_eq_route]
      by_cases hn : m.reportid % 256 = MXT_RPTID_NOMSG
      · simp [hn]
      · simp only [ne_eq, hn, not_false_eq_true, if_true]
        exact le_trans (ih (k + 1) _) (by omega)

theorem unknown_count_reads (chip : Nat → Option mxt_message) (u : Nat)
    (touch command : mxt_object) (onetouch twotouch : Option mxt_object)
    (hchip : ∀ k, ∃ m, chip k = some m ∧ m.reportid % 256 ≠ MXT_RPTID_NOMSG) :
    ∀ (n k : Nat) (data : mxt_data), mxt_get_object data MXT_GEN_MESSAGE_T5 ≠ none →
      (mxt_process_irq_unknown_count chip u touch command onetouch twotouch n k data).2 =
        k + n + 1 := by
  intro n
  induction n with
  | zero =>
    intro k data h5
    obtain ⟨m, hm, hne⟩ := hchip k
    rw [mxt_process_irq_unknown_count, read_message_some data chip k h5, hm]
    simp only [hne, ne_eq, not_false_eq_true, if_true]
  | succ n ih =>
    intro k data h5
    obtain ⟨m, hm, hne⟩ := hchip k
    rw [mxt_process_irq_unknown_count, read_message_some data chip k h5, hm]
    simp only [hne, ne_eq, not_false_eq_true, if_true, irq_block_eq_route]
    rw [ih (k + 1) _ (by
      rw [get_object_congr _ _ _ (handle_object_table u data m _)]
      exact h5)]
    omega

/-- C24 fails on the code: on a chip whose objects have no report ID
(`max_reportid = 0`, budget `2 * 0 = 0`) and whose message count cannot be
read, one `mxt_process_irq` cycle makes 256 message reads when no read fails
or returns report ID 0xFF: the `u8` budget 0 is decremented after the first
read and wraps to 255. -/
theorem irq_zero_budget_256_reads :
    mxt_get_object_table silent_object_table 3 =
      .ok (silent_data.object_table, silent_data.max_reportid) ∧
    2 * silent_data.max_reportid = 0 ∧
    (mxt_process_irq (fun _ => none) (fun _ => some ⟨1, [0, 0, 0, 0, 0, 0, 0]⟩) 0
      silent_data).2.1 = 256 := by
  refine ⟨rfl, rfl, ?_⟩
  have h := unknown_count_reads (fun _ => some ⟨1, [0, 0, 0, 0, 0, 0, 0]⟩) 0
    { type := 9, start_address := 0x200, size := 35, instances := 1 }
    { type := 6, start_address := 0x110, size := 6, instances := 1 } none none
    (fun _ => ⟨_, rfl, by decide⟩) 255 0 silent_data (by decide)
  have hc : mxt_get_object silent_data MXT_GEN_COMMAND_T6 =
      some { type := 6, start_address := 0x110, size := 6, instances := 1 } := by decide
  have ht : mxt_get_object silent_data MXT_TOUCH_MULTI_T9 =
      some { type := 9, start_address := 0x200, size := 35, instances := 1 } := by decide
  have h1 : mxt_get_object silent_data MXT_PROCI_ONETOUCH_T24 = none := by decide
  have h2 : mxt_get_object silent_data MXT_PROCI_TWOTOUCH_T27 = none := by decide
  have hr : mxt_read_object silent_data (fun _ => none) MXT_SPT_MESSAGECOUNT_T44
      MXT_MESSAGECOUNT_COUNT = .error (-EINVAL) := by rfl
  have hn : (silent_data.max_reportid * 2 % 256 + 255) % 256 = 255 := by decide
  simp only [mxt_process_irq, hc, ht, h1, h2, hr, hn]
  exact h

/-- With a budget of at least 1 (`max_reportid ≥ 1`) the count-unknown cycle of
`mxt_process_irq` makes at most `2 * max_reportid` message reads. -/
theorem irq_reads_within_budget (read_reg : Nat → Option Nat) (chip : Nat → Option mxt_message)
    (u : Nat) (data : mxt_data) (touch command : mxt_object) (error : Int)
    (ht : mxt_get_object data MXT_TOUCH_MULTI_T9 = some touch)
    (hc : mxt_get_object data MXT_GEN_COMMAND_T6 = some command)
    (he : mxt_read_object data read_reg MXT_SPT_MESSAGECOUNT_T44 MXT_MESSAGECOUNT_COUNT =
      .error error)
    (hm : 1 ≤ data.max_reportid) :
    (mxt_process_irq read_reg chip u data).2.1 ≤ 2 * data.max_reportid := by
  simp only [mxt_process_irq, ht, hc, he]
  have h := unknown_count_reads_le chip u touch command
    (mxt_get_object data MXT_PROCI_ONETOUCH_T24) (mxt_get_object data MXT_PROCI_TWOTOUCH_T27)
    ((data.max_reportid * 2 % 256 + 255) % 256) 0 data
  omega

/-! ## Slot index of a touch message -/

/-- C25 fails on the code: a chip whose touch object T9 declares sixteen report
IDs (2 to 17) is parsed by `mxt_get_object_table` as it is, and a message with
report ID 12 is routed to the finger tracker with slot index `12 - 2 = 10`,
which is not below `MXT_MAX_FINGER = 10`: `finger[10]` lies outside the array
of ten slots. -/
theorem touch_slot_outside_array :
    mxt_get_object_table sixteen_touch_object_table 3 =
      .ok (sixteen_touch_data.object_table, sixteen_touch_data.max_reportid) ∧
    mxt_get_object sixteen_touch_data MXT_TOUCH_MULTI_T9 =
      some { type := 9, start_address := 0x200, size := 35, instances := 1,
             num_report_ids := 16, min_reportid := 2, max_reportid := 17 } ∧
    route { type := 9, start_address := 0x200, size := 35, instances := 1,
            num_report_ids := 16, min_reportid := 2, max_reportid := 17 }
        { type := 6, start_address := 0x110, size := 6, instances := 1, num_report_ids := 1,
          min_reportid := 1, max_reportid := 1 }
        (mxt_get_object sixteen_touch_data MXT_PROCI_ONETOUCH_T24)
        (mxt_get_object sixteen_touch_data MXT_PROCI_TWOTOUCH_T27) 12 = .finger_tracker 10 ∧
    sixteen_touch_data.finger.length = MXT_MAX_FINGER ∧ MXT_MAX_FINGER = 10 := by
  refine ⟨rfl, by decide, by decide, by decide, by decide⟩

/-! ## Two-touch recogniser -/

/-- C21 fails on the code: for a status byte without the stretch, pinch and
rotate bits the local `bn_event` is never assigned (the branch stores
`GESTURE_NONE` in `data->current_bn_twotouch_gesture` instead) and is then
compared and stored.  With the device active and the local holding 0x48, the
status byte 0x00 leaves the public code 0x48, the active flag 1 and the
counter 1, not none, 0 and 0; with the rotate bit set the result is none. -/
theorem twotouch_unassigned_code :
    sample_data.mxt_power_mode = MXT_POWER_MODE_ACTIVE ∧
    (mxt_process_twotouch_gesture 0x48 sample_data ⟨13, [0x00, 0, 0, 0, 0, 0, 0]⟩
      0).current_bn_twotouch_gesture = 0x48 ∧
    (mxt_process_twotouch_gesture 0x48 sample_data ⟨13, [0x00, 0, 0, 0, 0, 0, 0]⟩
      0).mxt_twotouch_gesture_active = 1 ∧
    (mxt_process_twotouch_gesture 0x48 sample_data ⟨13, [0x00, 0, 0, 0, 0, 0, 0]⟩
      0).twotouch_gesture_count = 1 ∧
    (mxt_process_twotouch_gesture 0x48 sample_data ⟨13, [0x40, 0, 0, 0, 0, 0, 0]⟩
      0).current_bn_twotouch_gesture = GESTURE_NONE := by
  decide

/-! ## Address switching -/

/-- C26 fails on the code: the application addresses 0x4a and 0x4c share the
bootloader address 0x26, and `mxt_switch_to_appmode_address` takes the first
table entry with that bootloader address.  From application address 0x4c both
switches succeed and the state is back at `APPMODE`, but the client address
ends at 0x4a. -/
theorem switch_address_round_trip_0x4c :
    mxt_switch_to_bootloader_address { mxt_state := APPMODE, addr := 0x4c } =
      ({ mxt_state := BOOTLOADER, addr := 0x26 }, 0) ∧
    mxt_switch_to_appmode_address { mxt_state := BOOTLOADER, addr := 0x26 } =
      ({ mxt_state := APPMODE, addr := 0x4a }, 0) ∧
    (mxt_slave_addresses.map (fun pair => pair.application)) =
      [0x4a, 0x4b, 0x4b, 0x4c, 0x4d, 0x5a, 0x5b, 0] ∧
    (mxt_slave_addresses.map (fun pair =>
      (mxt_switch_to_appmode_address (mxt_switch_to_bootloader_address
        { mxt_state := APPMODE, addr := pair.application }).1).1.addr)) =
      [0x4a, 0x4b, 0x4b, 0x4a, 0x4d, 0x5a, 0x5b, 0] := by
  decide

/-! ## Power configuration -/

/-- C29 fails on the code: `mxt_read_power_cfg` tests its pointer parameters, not
the bytes read.  On a chip whose active cycle time reads 0 the call succeeds,
stores 0 and 32, and records the power mode as active; `mxt_set_power_cfg`
with the same two values records deep sleep. -/
theorem read_power_cfg_tests_pointers :
    mxt_read_power_cfg sample_sleeping_chip sample_power_data 0xC0001000 0xC0001001 =
      ({ sample_power_data with
          actv_cycle_time := 0, idle_cycle_time := 32,
          mxt_power_mode := MXT_POWER_MODE_ACTIVE }, 0) ∧
    (mxt_set_power_cfg (fun _ => true) []
      { sample_power_data with actv_cycle_time := 0, idle_cycle_time := 32 }
      MXT_POWER_CFG_RUN).1.mxt_power_mode = MXT_POWER_MODE_DEEP_SLEEP := by
  decide

/-- C23 fails as stated: with the stored cycle times both 255 (free run, the
values `mxt_check_power_cfg_post_reset` stores), `mxt_start` does not call
`mxt_set_power_cfg`, so after `mxt_stop` has recorded deep sleep, `mxt_start`
leaves the recorded power mode at deep sleep. -/
theorem start_skips_free_run :
    sample_free_run_data.mxt_state = APPMODE ∧
    sample_free_run_data.actv_cycle_time = 255 ∧ sample_free_run_data.idle_cycle_time = 255 ∧
    (mxt_stop (fun _ => true) [] sample_free_run_data).1.mxt_power_mode =
      MXT_POWER_MODE_DEEP_SLEEP ∧
    (mxt_start (fun _ => true) [] (mxt_stop (fun _ => true) [] sample_free_run_data).1).1.mxt_power_mode =
      MXT_POWER_MODE_DEEP_SLEEP ∧
    (mxt_start (fun _ => true) [] (mxt_stop (fun _ => true) [] sample_free_run_data).1).2 = [] := by
  decide

theorem write_object_ok (bus : Nat → Bool) (log : List (Nat × Nat)) (data : mxt_data)
    (object : mxt_object) (type offset val : Nat) (hbus : ∀ n, bus n = true)
    (hobj : mxt_get_object data type = some object)
    (hoff : offset % 256 < object.size * object.instances) :
    mxt_write_object bus log data type offset val =
      (log ++ [((object.start_address + offset % 256) % 65536, val % 256)], 0) := by
  simp only [mxt_write_object, hobj, ge_iff_le, if_neg (Nat.not_le.mpr hoff), mxt_write_reg,
    hbus, if_true]

theorem set_power_cfg_ok (bus : Nat → Bool) (log : List (Nat × Nat)) (data : mxt_data)
    (object : mxt_object) (mode : Nat) (hbus : ∀ n, bus n = true)
    (happ : data.mxt_state = APPMODE)
    (hobj : mxt_get_object data MXT_GEN_POWER_T7 = some object)
    (hsize : 1 < object.size * object.instances) :
    (mxt_set_power_cfg bus log data mode).1 =
      { data with
          mxt_power_mode :=
            if (if mode % 256 = MXT_POWER_CFG_DEEPSLEEP then 0 else data.actv_cycle_time % 256) = 0 ∨
                (if mode % 256 = MXT_POWER_CFG_DEEPSLEEP then 0 else data.idle_cycle_time % 256) = 0
            then MXT_POWER_MODE_DEEP_SLEEP else MXT_POWER_MODE_ACTIVE } := by
  have h1 : MXT_POWER_ACTVACQINT % 256 < object.size * object.instances := by
    simpa [MXT_POWER_ACTVACQINT] using hsize
  have h0 : MXT_POWER_IDLEACQINT % 256 < object.size * object.instances := by
    simp only [MXT_POWER_IDLEACQINT]
    omega
  simp only [mxt_set_power_cfg, happ, ne_eq, not_true_eq_false, if_false,
    write_object_ok bus _ data object _ _ _ hbus hobj h1,
    write_object_ok bus _ data object _ _ _ hbus hobj h0]
  split_ifs <;> rfl

theorem stop_data (bus : Nat → Bool) (log : List (Nat × Nat)) (data : mxt_data)
    (object : mxt_object) (hbus : ∀ n, bus n = true)
    (happ : data.mxt_state = APPMODE)
    (hobj : mxt_get_object data MXT_GEN_POWER_T7 = some object)
    (hsize : 1 < object.size * object.instances) :
    (mxt_stop bus log data).1 =
      { data with mxt_power_mode := MXT_POWER_MODE_DEEP_SLEEP, mxt_irq_enabled := 0 } := by
  have h := set_power_cfg_ok bus log data object MXT_POWER_CFG_DEEPSLEEP hbus happ hobj hsize
  have hm : MXT_POWER_CFG_DEEPSLEEP % 256 = MXT_POWER_CFG_DEEPSLEEP := by decide
  simp only [hm, if_true, true_or] at h
  simp only [mxt_stop, h]
  by_cases hi : data.mxt_irq_enabled = 0
  · simp only [ne_eq, hi, not_true_eq_false, if_false]
  · simp only [ne_eq, hi, not_false_eq_true, if_true]

theorem start_data (bus : Nat → Bool) (log : List (Nat × Nat)) (data : mxt_data)
    (object : mxt_object) (hbus : ∀ n, bus n = true)
    (happ : data.mxt_state = APPMODE)
    (hobj : mxt_get_object data MXT_GEN_POWER_T7 = some object)
    (hsize : 1 < object.size * object.instances)
    (ha : data.actv_cycle_time < 256) (hi : data.idle_cycle_time < 256)
    (ha0 : data.actv_cycle_time ≠ 0) (hi0 : data.idle_cycle_time ≠ 0)
    (h255 : ¬ (data.actv_cycle_time = 255 ∧ data.idle_cycle_time = 255))
    (hirq : data.mxt_irq_enabled = 0 ∨ data.mxt_irq_enabled = 1) :
    (mxt_start bus log data).1 =
      { data with mxt_power_mode := MXT_POWER_MODE_ACTIVE, mxt_irq_enabled := 1 } := by
  have h := set_power_cfg_ok bus log data object MXT_POWER_CFG_RUN hbus happ hobj hsize
  have hm : ¬ (MXT_POWER_CFG_RUN % 256 = MXT_POWER_CFG_DEEPSLEEP) := by decide
  have ea : data.actv_cycle_time % 256 = data.actv_cycle_time := Nat.mod_eq_of_lt ha
  have ei : data.idle_cycle_time % 256 = data.idle_cycle_time := Nat.mod_eq_of_lt hi
  have hno : ¬ (data.actv_cycle_time = 0 ∨ data.idle_cycle_time = 0) := by
    rintro (h0 | h0)
    · exact ha0 h0
    · exact hi0 h0
  simp only [hm, if_false, ea, ei, hno] at h
  have hc : data.actv_cycle_time ≠ 255 ∨ data.idle_cycle_time ≠ 255 := by
    by_cases h1 : data.actv_cycle_time = 255
    · right
      intro h2
      exact h255 ⟨h1, h2⟩
    · left
      exact h1
  simp only [mxt_start, ea, ei, hc, if_true, h]
  rcases hirq with h0 | h1
  · simp only [h0, if_true]
  · have hne : ¬ ((1 : Int) = 0) := by decide
    simp only [h1, hne, if_false]

/-- C23, amended: in app mode with the power object T7 present (two bytes or
more), every bus write succeeding, the stored cycle times both non-zero and
not both 255, and the interrupt flag holding 0 or 1: `mxt_stop` leaves the
recorded power mode at deep sleep and the flag at 0 and changes nothing else;
`mxt_start` leaves the power mode at active and the flag at 1 and changes
nothing else; each applied twice gives the device data of applying it once,
and start after stop gives the device data of start. -/
theorem start_stop_idempotent (bus : Nat → Bool) (log log2 : List (Nat × Nat))
    (data : mxt_data) (object : mxt_object) (hbus : ∀ n, bus n = true)
    (happ : data.mxt_state = APPMODE)
    (hobj : mxt_get_object data MXT_GEN_POWER_T7 = some object)
    (hsize : 1 < object.size * object.instances)
    (ha : data.actv_cycle_time < 256) (hi : data.idle_cycle_time < 256)
    (ha0 : data.actv_cycle_time ≠ 0) (hi0 : data.idle_cycle_time ≠ 0)
    (h255 : ¬ (data.actv_cycle_time = 255 ∧ data.idle_cycle_time = 255))
    (hirq : data.mxt_irq_enabled = 0 ∨ data.mxt_irq_enabled = 1) :
    (mxt_stop bus log data).1 =
      { data with mxt_power_mode := MXT_POWER_MODE_DEEP_SLEEP, mxt_irq_enabled := 0 } ∧
    (mxt_start bus log data).1 =
      { data with mxt_power_mode := MXT_POWER_MODE_ACTIVE, mxt_irq_enabled := 1 } ∧
    (mxt_stop bus log2 (mxt_stop bus log data).1).1 = (mxt_stop bus log data).1 ∧
    (mxt_start bus log2 (mxt_start bus log data).1).1 = (mxt_start bus log data).1 ∧
    (mxt_start bus log2 (mxt_stop bus log data).1).1 = (mxt_start bus log data).1 := by
  have hs := stop_data bus log data object hbus happ hobj hsize
  have ht := start_data bus log data object hbus happ hobj hsize ha hi ha0 hi0 h255 hirq
  refine ⟨hs, ht, ?_, ?_, ?_⟩
  · rw [hs, stop_data bus log2
      { data with mxt_power_mode := MXT_POWER_MODE_DEEP_SLEEP, mxt_irq_enabled := 0 }
      object hbus happ hobj hsize]
  · rw [ht, start_data bus log2
      { data with mxt_power_mode := MXT_POWER_MODE_ACTIVE, mxt_irq_enabled := 1 }
      object hbus happ hobj hsize ha hi ha0 hi0 h255 (Or.inr rfl)]
  · rw [hs, ht, start_data bus log2
      { data with mxt_power_mode := MXT_POWER_MODE_DEEP_SLEEP, mxt_irq_enabled := 0 }
      object hbus happ hobj hsize ha hi ha0 hi0 h255 (Or.inl rfl)]

/-- Witness of C23: the sample chip with cycle times 16 and 32: stop records
deep sleep with the interrupt flag 0, and start after stop records active with
the flag 1, as start alone does. -/
theorem start_stop_idempotent_witness :
    (mxt_stop (fun _ => true) [] sample_power_data).1 =
      { sample_power_data with
          mxt_power_mode := MXT_POWER_MODE_DEEP_SLEEP, mxt_irq_enabled := 0 } ∧
    (mxt_start (fun _ => true) [(0x121, 0), (0x120, 0)]
        (mxt_stop (fun _ => true) [] sample_power_data).1).1 =
      (mxt_start (fun _ => true) [] sample_power_data).1 :=
  have h := start_stop_idempotent (fun _ => true) [] [(0x121, 0), (0x120, 0)] sample_power_data
    { type := 7, start_address := 0x120, size := 2, instances := 1 } (fun _ => rfl)
    (by decide) (by decide) (by decide) (by decide) (by decide) (by decide) (by decide)
    (by decide) (by decide)
  ⟨h.1, h.2.2.2.2⟩

/-! ## Finger tracker and consolidated report -/

theorem set_released_self (finger : List mxt_finger) (id : Nat)
    (h : ∀ f, finger[id]? = some f → f.status = MXT_TOUCH_STATUS_RELEASE) :
    finger.set id { finger.getD id {} with status := MXT_TOUCH_STATUS_RELEASE } = finger := by
  by_cases hid : id < finger.length
  · have hf := h _ (List.getElem?_eq_getElem hid)
    have hg : finger.getD id {} = finger[id] := by
      simp [List.getD, List.getElem?_eq_getElem hid]
    rw [hg]
    have he : ({ finger[id] with status := MXT_TOUCH_STATUS_RELEASE } : mxt_finger) = finger[id] := by
      rw [← hf]
    rw [he]
    apply List.ext_getElem?
    intro j
    by_cases hj : id = j
    · subst hj
      rw [List.getElem?_set_self hid, List.getElem?_eq_getElem hid]
    · rw [List.getElem?_set_ne hj]
  · exact List.set_eq_of_length_le (Nat.le_of_not_lt hid)

/-- C22 fails as stated: a Released status fed to a slot whose release has been
reported (slot status 0) sets the slot status to Released again, and the
following report emits a release for the slot that is not emitted without the
message; and in deep sleep a Pressed slot that is fed a Moving message keeps
its old area and pressure. -/
theorem release_of_idle_slot_reported :
    sample_touch_data.finger[0]? = some { status := 0 } ∧
    (mxt_process_touchevent sample_touch_data ⟨2, [0x20, 0, 0, 0, 0, 0, 0]⟩ 0).finger[0]? =
      some { status := MXT_TOUCH_STATUS_RELEASE } ∧
    (mxt_input_report
      (mxt_process_touchevent sample_touch_data ⟨2, [0x20, 0, 0, 0, 0, 0, 0]⟩ 0)).2 =
      [.mt_slot 0, .mt_report_slot_state false, .report_key_btn_touch false, .sync] ∧
    (mxt_input_report sample_touch_data).2 = [.report_key_btn_touch false, .sync] ∧
    (mxt_process_touchevent sample_sleeping_touch_data ⟨2, [0x90, 1, 2, 3, 9, 8, 0]⟩ 0).finger[0]? =
      some { status := MXT_TOUCH_STATUS_PRESS, x := 16, y := 35, area := 4, pressure := 5 } := by
  decide

/-- C22, amended: a Released status (DETECT clear, RELEASE set) fed to a slot
whose release is still pending (slot status Released) changes nothing: the
device data after `mxt_process_touchevent` is the device data before, and so
the following `mxt_input_report` gives the same events and the same device
data as without the message.  And with the device active, a Pressed slot that
is fed a Moving message (DETECT and MOVE set) ends as Moving with the area and
the pressure of the new message. -/
theorem released_slot_idempotent (data : mxt_data) (rid id s m1 m2 m3 m4 m5 m6 : Nat) :
    (s &&& MXT_TOUCH_STATUS_DETECT = 0 → s &&& MXT_TOUCH_STATUS_RELEASE ≠ 0 →
      (∀ f, data.finger[id]? = some f → f.status = MXT_TOUCH_STATUS_RELEASE) →
      mxt_process_touchevent data ⟨rid, [s, m1, m2, m3, m4, m5, m6]⟩ id = data ∧
      mxt_input_report (mxt_process_touchevent data ⟨rid, [s, m1, m2, m3, m4, m5, m6]⟩ id) =
        mxt_input_report data) ∧
    (data.mxt_power_mode = MXT_POWER_MODE_ACTIVE →
      s &&& MXT_TOUCH_STATUS_DETECT ≠ 0 → s &&& MXT_TOUCH_STATUS_MOVE ≠ 0 →
      ∀ f, data.finger[id]? = some f → f.status = MXT_TOUCH_STATUS_PRESS →
      ∃ f2, (mxt_process_touchevent data ⟨rid, [s, m1, m2, m3, m4, m5, m6]⟩ id).finger[id]? =
          some f2 ∧
        f2.status = MXT_TOUCH_STATUS_MOVE ∧ f2.area = m4 ∧ f2.pressure = m5) := by
  constructor
  · intro h1 h2 hf
    have he : mxt_process_touchevent data ⟨rid, [s, m1, m2, m3, m4, m5, m6]⟩ id = data := by
      simp only [mxt_process_touchevent, List.getD_cons_zero, h1, h2, ne_eq, not_false_eq_true,
        if_true, set_released_self data.finger id hf]
      split_ifs <;> rfl
    exact ⟨he, by rw [he]⟩
  · intro hactive h1 h2 f hf _
    have hid : id < data.finger.length := by
      by_contra hn
      rw [List.getElem?_eq_none (Nat.le_of_not_lt hn)] at hf
      exact absurd hf (by simp)
    have hpow : ¬ data.mxt_power_mode = MXT_POWER_MODE_DEEP_SLEEP := by
      rw [hactive]
      decide
    have hpm : ¬ (s &&& (MXT_TOUCH_STATUS_PRESS ||| MXT_TOUCH_STATUS_MOVE) = 0) := by
      rw [Nat.and_or_distrib_left, lor_eq_zero]
      exact fun h => h2 h.2
    simp only [mxt_process_touchevent, List.getD_cons_zero, List.getD_cons_succ, hpow, h1, hpm,
      if_false, List.getElem?_set_self hid]
    exact ⟨_, rfl, by simp only [h2, ne_eq, not_false_eq_true, if_true], rfl, rfl⟩

/-- Witness of C22: on the sample device a second Released message for slot 0,
whose release is pending, changes nothing, and a Moving message for the
pressed slot 0 of the active device stores area 9 and pressure 8. -/
theorem released_slot_idempotent_witness :
    (mxt_process_touchevent sample_released_touch_data ⟨2, [0x20, 0, 0, 0, 0, 0, 0]⟩ 0 =
        sample_released_touch_data ∧
      mxt_input_report
          (mxt_process_touchevent sample_released_touch_data ⟨2, [0x20, 0, 0, 0, 0, 0, 0]⟩ 0) =
        mxt_input_report sample_released_touch_data) ∧
    (∃ f2, (mxt_process_touchevent
          { sample_sleeping_touch_data with mxt_power_mode := MXT_POWER_MODE_ACTIVE }
          ⟨2, [0x90, 1, 2, 3, 9, 8, 0]⟩ 0).finger[0]? = some f2 ∧
        f2.status = MXT_TOUCH_STATUS_MOVE ∧ f2.area = 9 ∧ f2.pressure = 8) :=
  ⟨(released_slot_idempotent sample_released_touch_data 2 0 0x20 0 0 0 0 0 0).1
      (by decide) (by decide) (by decide),
    (released_slot_idempotent
      { sample_sleeping_touch_data with mxt_power_mode := MXT_POWER_MODE_ACTIVE }
      2 0 0x90 1 2 3 9 8 0).2 rfl (by decide) (by decide)
      { status := MXT_TOUCH_STATUS_PRESS, x := 16, y := 35, area := 4, pressure := 5 }
      (by decide) rfl⟩

/-! ## Binary loader: return value and termination -/

theorem endless_block_first (bus : Nat → Bool) :
    mxt_download_bin_config_block bus sample_cfg_data sample_bin_blob_endless
        { pos := 25, ret := 0 } =
      .next { pos := 25, ret := -EINVAL, type := 0xEE, size := 0xFFFFFFF4 } := by
  rfl

theorem endless_block_again (bus : Nat → Bool) :
    mxt_download_bin_config_block bus sample_cfg_data sample_bin_blob_endless
        { pos := 25, ret := -EINVAL, type := 0xEE, size := 0xFFFFFFF4 } =
      .next { pos := 25, ret := -EINVAL, type := 0xEE, size := 0xFFFFFFF4 } := by
  rfl

theorem endless_loop (bus : Nat → Bool) (data : mxt_data)
    (hdata : data.object_table = sample_cfg_data.object_table) :
    ∀ fuel, mxt_download_bin_config_loop bus data sample_bin_blob_endless fuel
        { pos := 25, ret := -EINVAL, type := 0xEE, size := 0xFFFFFFF4 } = none := by
  intro fuel
  induction fuel with
  | zero => rfl
  | succ fuel ih =>
    rw [mxt_download_bin_config_loop]
    have hlt : ({ pos := 25, ret := -EINVAL, type := 0xEE, size := 0xFFFFFFF4 } : cfg_state).pos <
        sample_bin_blob_endless.length := by decide
    rw [if_pos hlt, bin_block_congr bus sample_cfg_data data _ _ hdata, endless_block_again]
    exact ih

/-- C30 fails on the code: the declared size of a block is not checked against
the blob, and the position is advanced in 32-bit arithmetic.  On the blob
whose one block has an unknown type (0xEE) and declared size 0xFFFFFFF4, the
12 bytes of the block header and the declared size add up to 2^32, so a pass
of the block loop ends at the position it started from (25, below the blob
size 37) with the state it started with: the loop never ends and
`mxt_download_bin_config` returns no value, whatever the bus does. -/
theorem bin_config_endless_loop :
    sample_bin_blob_endless.length = 37 ∧
    memcpy_u32 sample_bin_blob_endless 25 = 0xEE ∧
    memcpy_u32 sample_bin_blob_endless 33 = 0xFFFFFFF4 ∧
    mxt_get_object sample_cfg_data 0xEE = none ∧
    (∀ bus : Nat → Bool,
      mxt_download_bin_config_block bus sample_cfg_data sample_bin_blob_endless
          { pos := 25, ret := 0 } =
        .next { pos := 25, ret := -EINVAL, type := 0xEE, size := 0xFFFFFFF4 } ∧
      mxt_download_bin_config_block bus sample_cfg_data sample_bin_blob_endless
          { pos := 25, ret := -EINVAL, type := 0xEE, size := 0xFFFFFFF4 } =
        .next { pos := 25, ret := -EINVAL, type := 0xEE, size := 0xFFFFFFF4 }) ∧
    (∀ (fuel : Nat) (bus : Nat → Bool),
      mxt_download_bin_config fuel (some sample_bin_blob_endless) bus sample_cfg_data = none) := by
  refine ⟨by decide, by decide, by decide, by decide,
    fun bus => ⟨endless_block_first bus, endless_block_again bus⟩, ?_⟩
  intro fuel bus
  have h := bin_outcome fuel sample_bin_blob_endless bus sample_cfg_data
  have h1 : ¬ sample_cfg_data.mxt_power_supply_state ≠ MXT_POWER_SUPPLY_ON := by decide
  have h2 : ¬ sample_bin_blob_endless.take MXT_CFG_MAGIC.length ≠ MXT_CFG_MAGIC := by decide
  have h3 : ¬ (mxt_info_of_bytes
      ((sample_bin_blob_endless.drop MXT_CFG_MAGIC.length).take 7)).family_id ≠
      sample_cfg_data.info.family_id := by decide
  have h4 : ¬ (mxt_info_of_bytes
      ((sample_bin_blob_endless.drop MXT_CFG_MAGIC.length).take 7)).variant_id ≠
      sample_cfg_data.info.variant_id := by decide
  rw [if_neg h1, if_neg h2, if_neg h3, if_neg h4] at h
  have h5 : mxt_download_bin_config_loop bus sample_cfg_data sample_bin_blob_endless fuel
      { pos := MXT_CFG_MAGIC.length + 7 + 4 + 4, ret := 0 } = none := by
    cases fuel with
    | zero => rfl
    | succ fuel =>
      rw [mxt_download_bin_config_loop]
      have hlt : ({ pos := MXT_CFG_MAGIC.length + 7 + 4 + 4, ret := 0 } : cfg_state).pos <
          sample_bin_blob_endless.length := by decide
      rw [if_pos hlt]
      have hb := endless_block_first bus
      have hp : ({ pos := MXT_CFG_MAGIC.length + 7 + 4 + 4, ret := 0 } : cfg_state) =
          { pos := 25, ret := 0 } := by decide
      rw [hp, hb]
      exact endless_loop bus sample_cfg_data rfl fuel
  rw [h5] at h
  cases hr : mxt_download_bin_config fuel (some sample_bin_blob_endless) bus sample_cfg_data with
  | none => rfl
  | some r =>
    rw [hr] at h
    exact absurd h (by simp)

theorem zero_loop_ret (bus : Nat → Bool) (reg : Nat) :
    ∀ (n i : Nat) (s : cfg_state), (s.ret = 0 ∨ s.ret = -EINVAL ∨ s.ret = - EIO) →
      ((mxt_download_config_zero_loop bus reg n i s).state.ret = 0 ∨
        (mxt_download_config_zero_loop bus reg n i s).state.ret = -EINVAL ∨
        (mxt_download_config_zero_loop bus reg n i s).state.ret = - EIO) := by
  intro n
  induction n with
  | zero =>
    intro i s h
    exact h
  | succ n ih =>
    intro i s _
    rw [mxt_download_config_zero_loop]
    simp only [mxt_write_reg]
    by_cases hb : bus s.log.length = true
    · simp only [hb, if_true, ne_eq, not_true_eq_false, if_false]
      exact ih _ _ (Or.inl rfl)
    · have hne : (- EIO : Int) ≠ 0 := by decide
      simp only [hb, Bool.false_eq_true, if_false, ne_eq, hne, not_false_eq_true, if_true]
      exact Or.inr (Or.inr rfl)

theorem bin_write_loop_ret (bus : Nat → Bool) (cfg : List Nat) (reg : Nat) :
    ∀ (n i : Nat) (s : cfg_state), (s.ret = 0 ∨ s.ret = -EINVAL ∨ s.ret = - EIO) →
      ((mxt_download_bin_config_write_loop bus cfg reg n i s).state.ret = 0 ∨
        (mxt_download_bin_config_write_loop bus cfg reg n i s).state.ret = -EINVAL ∨
        (mxt_download_bin_config_write_loop bus cfg reg n i s).state.ret = - EIO) := by
  intro n
  induction n with
  | zero =>
    intro i s h
    exact h
  | succ n ih =>
    intro i s _
    rw [mxt_download_bin_config_write_loop]
    simp only [mxt_write_reg]
    by_cases hb : bus s.log.length = true
    · simp only [hb, if_true, ne_eq, not_true_eq_false, if_false]
      exact ih _ _ (Or.inl rfl)
    · have hne : (- EIO : Int) ≠ 0 := by decide
      simp only [hb, Bool.false_eq_true, if_false, ne_eq, hne, not_false_eq_true, if_true]
      exact Or.inr (Or.inr rfl)

theorem bin_block_ret (bus : Nat → Bool) (data : mxt_data) (cfg : List Nat) (s : cfg_state)
    (h : s.ret = 0 ∨ s.ret = -EINVAL ∨ s.ret = - EIO) :
    (mxt_download_bin_config_block bus data cfg s).state.ret = 0 ∨
      (mxt_download_bin_config_block bus data cfg s).state.ret = -EINVAL ∨
      (mxt_download_bin_config_block bus data cfg s).state.ret = - EIO := by
  simp only [mxt_download_bin_config_block]
  cases mxt_get_object data (memcpy_u32 cfg s.pos) with
  | none => exact Or.inr (Or.inl rfl)
  | some object =>
    simp only
    split_ifs with h1 h2
    · exact Or.inr (Or.inl rfl)
    · exact Or.inr (Or.inl rfl)
    · have hw := bin_write_loop_ret bus cfg
        ((object.start_address + object.size * memcpy_u32 cfg ((s.pos + 4) % 4294967296)) % 65536)
        (memcpy_u32 cfg (((s.pos + 4) % 4294967296 + 4) % 4294967296)) 0
        { s with
            type := memcpy_u32 cfg s.pos
            instance_ := memcpy_u32 cfg ((s.pos + 4) % 4294967296)
            size := memcpy_u32 cfg (((s.pos + 4) % 4294967296 + 4) % 4294967296)
            pos := (((s.pos + 4) % 4294967296 + 4) % 4294967296 + 4) % 4294967296 } h
      revert hw
      cases mxt_download_bin_config_write_loop bus cfg
        ((object.start_address + object.size * memcpy_u32 cfg ((s.pos + 4) % 4294967296)) % 65536)
        (memcpy_u32 cfg (((s.pos + 4) % 4294967296 + 4) % 4294967296)) 0
        { s with
            type := memcpy_u32 cfg s.pos
            instance_ := memcpy_u32 cfg ((s.pos + 4) % 4294967296)
            size := memcpy_u32 cfg (((s.pos + 4) % 4294967296 + 4) % 4294967296)
            pos := (((s.pos + 4) % 4294967296 + 4) % 4294967296 + 4) % 4294967296 } with
      | release s2 => exact fun hw => hw
      | next s2 =>
        intro hw
        simp only
        split_ifs
        · exact zero_loop_ret bus _ _ _ s2 hw
        · exact hw

theorem bin_loop_ret (bus : Nat → Bool) (data : mxt_data) (cfg : List Nat) :
    ∀ (fuel : Nat) (s r : cfg_state), (s.ret = 0 ∨ s.ret = -EINVAL ∨ s.ret = - EIO) →
      mxt_download_bin_config_loop bus data cfg fuel s = some r →
      (r.ret = 0 ∨ r.ret = -EINVAL ∨ r.ret = - EIO) := by
  intro fuel
  induction fuel with
  | zero =>
    intro s r _ h
    exact absurd h (by simp [mxt_download_bin_config_loop])
  | succ fuel ih =>
    intro s r hs h
    rw [mxt_download_bin_config_loop] at h
    by_cases hp : s.pos < cfg.length
    · rw [if_pos hp] at h
      have hb := bin_block_ret bus data cfg s hs
      cases hblk : mxt_download_bin_config_block bus data cfg s with
      | release s2 =>
        rw [hblk] at h hb
        simp only [Option.some.injEq] at h
        rw [← h]
        exact hb
      | next s2 =>
        rw [hblk] at h hb
        exact ih s2 r hb h
    · rw [if_neg hp] at h
      simp only [Option.some.injEq] at h
      rw [← h]
      exact hs

/-- Whenever `mxt_download_bin_config` returns, its value is 0, `-EINVAL`,
`-EAGAIN` or `-EIO`, so it is never positive. -/
theorem bin_config_ret (fuel : Nat) (firmware : Option (List Nat)) (bus : Nat → Bool)
    (data : mxt_data) (r : mxt_data × Int × List (Nat × Nat))
    (h : mxt_download_bin_config fuel firmware bus data = some r) :
    (r.2.1 = 0 ∨ r.2.1 = -EINVAL ∨ r.2.1 = -EAGAIN ∨ r.2.1 = - EIO) ∧ r.2.1 ≤ 0 := by
  have key : r.2.1 = 0 ∨ r.2.1 = -EINVAL ∨ r.2.1 = -EAGAIN ∨ r.2.1 = - EIO := by
    cases firmware with
    | none =>
      simp only [mxt_download_bin_config] at h
      split_ifs at h <;> simp only [Option.some.injEq] at h <;> rw [← h]
      · exact Or.inr (Or.inr (Or.inl rfl))
      · exact Or.inl rfl
    | some cfg =>
      have ho := bin_outcome fuel cfg bus data
      rw [h] at ho
      simp only [Option.map_some'] at ho
      split_ifs at ho
      · simp only [Option.some.injEq] at ho
        rw [ho]
        exact Or.inr (Or.inr (Or.inl rfl))
      · simp only [Option.some.injEq] at ho
        rw [ho]
        exact Or.inr (Or.inl rfl)
      · simp only [Option.some.injEq] at ho
        rw [ho]
        exact Or.inr (Or.inl rfl)
      · simp only [Option.some.injEq] at ho
        rw [ho]
        exact Or.inr (Or.inl rfl)
      · cases hl : mxt_download_bin_config_loop bus data cfg fuel
            { pos := MXT_CFG_MAGIC.length + 7 + 4 + 4, ret := 0 } with
        | none =>
          rw [hl] at ho
          exact absurd ho (by simp)
        | some s =>
          rw [hl] at ho
          simp only [Option.map_some', Option.some.injEq] at ho
          rw [ho]
          rcases bin_loop_ret bus data cfg fuel _ s (Or.inl rfl) hl with h0 | h1 | h2
          · exact Or.inl h0
          · exact Or.inr (Or.inl h1)
          · exact Or.inr (Or.inr (Or.inr h2))
  refine ⟨key, ?_⟩
  rcases key with h0 | h1 | h2 | h3 <;> rw [‹r.2.1 = _›] <;> decide

end mxt
